import Mathlib

/-!
# bare-llama.cpp bindings: resource lifecycle and generation pipeline

A shallow embedding of `binding.c` and `binding.cpp`, the two variants of the
native addon that exposes llama.cpp to the Bare JavaScript runtime.

Every exported callback `fn_*` becomes a function

    Env → World → List JsValue → Outcome × World

* `World` is the state the callbacks share: the externals the JavaScript
  heap holds (handle id = position) and the log of native engine calls made
  so far, oldest first.
* `Env` answers, for one invocation, what the code cannot decide by itself:
  what the engine returns, whether the allocator and the value constructors
  of the runtime succeed.
* `Outcome` is what the callback hands back to JavaScript.

The log level control of `binding.cpp` touches none of this: `setLogLevel`
and the log callback work on a `LogState` of their own.

Pointers are natural numbers with `0` for `NULL`.  JavaScript strings are
their UTF-8 bytes.  `size_t` arithmetic is modulo `2 ^ 64`, `int32_t`
arithmetic wraps to two's complement.

The runtime functions of `js.h` are not part of the bindings; they are taken
with the contract the bindings rely on: a getter reports `err < 0` for a value
of the wrong type, an external keeps the pointer it was created with, and a
finalizer receives that pointer.  `js_get_callback_info` is taken to deliver
the arguments: its error exit is the one exit of the callbacks that is not
modelled.
-/

namespace BareLlama

/-! ## Machine integers -/

/-- Two's-complement wrap of an integer to `int32_t`. -/
def wrap32 (i : Int) : Int := (i + 2147483648) % 4294967296 - 2147483648

/-- Conversion of an integer to `size_t` (64 bit, unsigned). -/
def to_size_t (i : Int) : Nat := (i % 18446744073709551616).toNat

/-- Product of two `size_t` values. -/
def size_mul (a b : Nat) : Nat := (a * b) % 18446744073709551616

/-- Sum of two `size_t` values. -/
def size_add (a b : Nat) : Nat := (a + b) % 18446744073709551616

/-- Conversion `(uint32_t)n` of an `int32_t`. -/
def to_uint32 (n : Int) : Nat := (n % 4294967296).toNat

/-! ## C floats -/

/-- A C `float`, given by its IEEE-754 binary32 bit pattern. -/
structure F32 where
  bits : Nat
deriving DecidableEq, Repr

/-- The comparison `x > 0` on a `float`: sign bit clear, not zero, not a NaN. -/
def F32.gt_zero (x : F32) : Bool := decide (0 < x.bits ∧ x.bits ≤ 0x7F800000)

/-- The comparison `x <= 0` on a `float`: a zero of either sign, or sign bit
set and not a NaN. -/
def F32.le_zero (x : F32) : Bool :=
  decide (x.bits = 0 ∨ (0x80000000 ≤ x.bits ∧ x.bits ≤ 0xFF800000))

/-- The literal `0.0f`. -/
def F32.zero : F32 := ⟨0⟩

/-- The literal `0.95f`. -/
def F32.c0_95 : F32 := ⟨0x3F733333⟩

/-! ## JavaScript values and the native addon interface -/

/-- Native pointer; `0` is `NULL`. -/
abbrev Ptr := Nat

/-- A `js_type_tag_t`: two 64-bit words. -/
structure js_type_tag_t where
  lower : Nat
  upper : Nat
deriving DecidableEq, Repr

/-- Tag "LLAMA MODEL". -/
def llama_model_type_tag : js_type_tag_t := ⟨0x4c4c414d41, 0x4d4f44454c⟩

/-- Tag "LLAMA CTX". -/
def llama_context_type_tag : js_type_tag_t := ⟨0x4c4c414d41, 0x435458⟩

/-- Tag "LLAMA SAMP". -/
def llama_sampler_type_tag : js_type_tag_t := ⟨0x4c4c414d41, 0x53414d50⟩

/-- The three kinds of native resource. -/
inductive Kind
  | model
  | context
  | sampler
deriving DecidableEq, Repr

/-- What `js_create_external` stores: the native pointer, which of
`finalize_model`, `finalize_context`, `finalize_sampler` was registered, and
the type tag once `js_add_type_tag` has run.  The runtime has no operation
that changes `data` afterwards. -/
structure External where
  data : Ptr
  finalize : Kind
  tag : Option js_type_tag_t
deriving DecidableEq, Repr

/-- The named properties the bindings read from an options object, each held
with the C type its getter produces: `temp` and `topP` are the JavaScript
number narrowed by `(float)d`, the integers are what `js_get_value_int32`
stores, `json` and `lark` are string properties. -/
structure JsObject where
  nGpuLayers : Option Int
  contextSize : Option Int
  batchSize : Option Int
  embeddings : Option Bool
  poolingType : Option Int
  temp : Option F32
  topK : Option Int
  topP : Option F32
  json : Option (List Nat)
  lark : Option (List Nat)
deriving DecidableEq, Repr

/-- The object `{}`. -/
def JsObject.empty : JsObject := ⟨none, none, none, none, none, none, none, none, none, none⟩

/-- JavaScript values as the bindings see them.  A `number` is given by the
`int32_t` that `js_get_value_int32` reads from it, a `string` by its UTF-8
bytes, an `external` by its handle id. -/
inductive JsValue
  | undefined
  | null
  | boolean (b : Bool)
  | number (n : Int)
  | string (utf8 : List Nat)
  | object (o : JsObject)
  | int32array (xs : List Int)
  | float32array (xs : List F32)
  | typedarray
  | external (id : Nat)
deriving DecidableEq, Repr

/-- What a callback hands back to JavaScript. -/
inductive Outcome
  | value (v : JsValue)
  | null_return
  | exception (msg : String)
  | abort
deriving DecidableEq, Repr

/-- Helper to throw JS error: `js_throw_error` followed by `return NULL`. -/
def throw_error (msg : String) : Outcome := Outcome.exception msg

/-- The fields of `llama_context_params` the bindings set; `none` leaves the
engine default. -/
structure llama_context_params where
  n_ctx : Option Nat
  n_batch : Option Nat
  embeddings : Option Bool
  pooling_type : Option Int
deriving DecidableEq, Repr

/-- A sampler as built by one of the `llama_sampler_init_*` constructors. -/
inductive Stage
  | llg (kind : String) (data : List Nat)
  | top_k (k : Int)
  | top_p (p : F32) (min_keep : Nat)
  | temp (t : F32)
  | dist (seed : Nat)
  | greedy
deriving DecidableEq, Repr

/-- Calls into the llama.cpp engine, with their arguments.  In
`llama_sampler_chain_add` the added sampler is named by the constructor call
that made it.  In `llama_tokenize`, `text = none` stands for a pointer to a
buffer that has already been passed to `free`. -/
inductive NativeCall
  | llama_model_load_from_file (path : List Nat) (n_gpu_layers : Option Int)
      (progress_callback_cleared : Bool)
  | llama_model_free (model : Ptr)
  | llama_init_from_model (model : Ptr) (params : llama_context_params)
  | llama_free (ctx : Ptr)
  | llama_get_memory (ctx : Ptr)
  | llama_memory_clear (mem : Ptr) (data : Bool)
  | llama_model_get_vocab (model : Ptr)
  | llama_sampler_chain_init
  | llama_sampler_init_llg (vocab : Ptr) (kind : String) (data : List Nat)
  | llama_sampler_chain_add (chain : Ptr) (smpl : Stage)
  | llama_sampler_free (smpl : Ptr)
  | llama_tokenize (vocab : Ptr) (text : Option (List Nat)) (text_len : Nat)
      (n_tokens_max : Int) (add_special : Bool) (parse_special : Bool)
  | llama_token_to_piece (vocab : Ptr) (token : Int) (length : Nat) (lstrip : Int)
      (special : Bool)
  | llama_decode (ctx : Ptr) (tokens : List Int) (n_tokens : Int)
  | llama_sampler_sample (smpl : Ptr) (ctx : Ptr) (idx : Int)
  | llama_sampler_accept (smpl : Ptr) (token : Int)
  | llama_vocab_is_eog (vocab : Ptr) (token : Int)
  | llama_model_n_embd (model : Ptr)
  | llama_model_n_ctx_train (model : Ptr)
  | llama_n_ctx (ctx : Ptr)
  | llama_get_embeddings_seq (ctx : Ptr) (seq_id : Int)
  | llama_get_embeddings_ith (ctx : Ptr) (i : Int)
  | llama_get_model (ctx : Ptr)
deriving DecidableEq, Repr

/-- The state shared by the callbacks. -/
structure World where
  externals : List External
  trace : List NativeCall
deriving DecidableEq, Repr

/-- Record one engine call. -/
def World.call (w : World) (c : NativeCall) : World :=
  ⟨w.externals, w.trace ++ [c]⟩

/-- What `llama_tokenize` reports: the returned count and the contents of the
token buffer after the call, by index. -/
structure TokenizeReply where
  n_tokens : Int
  tokens : Nat → Int

/-- What `llama_token_to_piece` reports: the returned length and the contents
of the `piece` array after the call, by index. -/
structure PieceReply where
  n : Int
  piece : Nat → Nat

/-- The answers of the engine, the allocator and the runtime during one
invocation of a callback. -/
structure Env where
  /-- whether `malloc(size)` returns a buffer -/
  malloc : Nat → Bool
  /-- whether `realloc(p, size)` returns a buffer -/
  realloc : Nat → Bool
  js_create_external : Bool
  js_add_type_tag : Bool
  js_create_arraybuffer : Bool
  js_create_typedarray : Bool
  js_create_string_utf8 : Bool
  js_create_int32 : Bool
  js_create_uint32 : Bool
  /-- what an `int32_t` local holds when `js_get_value_int32` did not store -/
  uninit_int32 : Int
  llama_model_load_from_file : Ptr
  llama_init_from_model : Ptr
  llama_get_memory : Ptr
  llama_model_get_vocab : Ptr → Ptr
  llama_sampler_chain_init : Ptr
  /-- whether `llama_sampler_init_llg` returns a sampler -/
  llama_sampler_init_llg : Bool
  llama_tokenize_first : TokenizeReply
  llama_tokenize_retry : TokenizeReply
  llama_token_to_piece : Int → PieceReply
  llama_decode : Int
  llama_sampler_sample : Int
  llama_vocab_is_eog : Bool
  llama_model_n_embd : Int
  llama_model_n_ctx_train : Int
  llama_n_ctx : Nat
  /-- `NULL`, or the floats found behind the returned pointer, by index -/
  llama_get_embeddings_seq : Option (Nat → F32)
  llama_get_embeddings_ith : Option (Nat → F32)
  llama_get_model : Ptr

/-! ### The runtime functions the bindings call -/

/-- Slot `i` of `argv` after `js_get_callback_info`: the argument, or
`undefined` when fewer were passed. -/
def argv (args : List JsValue) (i : Nat) : JsValue := args.getD i JsValue.undefined

/-- Pointer held by an external (`js_get_value_external`); `none` is `err < 0`. -/
def js_get_value_external (w : World) : JsValue → Option Ptr
  | JsValue.external id => (w.externals.get? id).map External.data
  | _ => none

/-- Whether the value carries the tag (`js_check_type_tag`); `none` is `err < 0`. -/
def js_check_type_tag (w : World) (v : JsValue) (tag : js_type_tag_t) : Option Bool :=
  match v with
  | JsValue.external id => (w.externals.get? id).map (fun e => decide (e.tag = some tag))
  | JsValue.object _ => some false
  | _ => none

/-- UTF-8 bytes of a string value (`js_get_value_string_utf8`); `none` is `err < 0`. -/
def js_get_value_string_utf8 : JsValue → Option (List Nat)
  | JsValue.string s => some s
  | _ => none

/-- The call `js_get_value_bool(env, v, &b)` where `b` holds `dflt`. -/
def js_get_value_bool (v : JsValue) (dflt : Bool) : Bool :=
  match v with
  | JsValue.boolean b => b
  | _ => dflt

/-- The `int32_t` of a number (`js_get_value_int32`); `none` is `err < 0`. -/
def js_get_value_int32 : JsValue → Option Int
  | JsValue.number n => some n
  | _ => none

/-- The options object behind a value; `none` when `js_has_named_property`
reports an error because the value is no object. -/
def js_object : JsValue → Option JsObject
  | JsValue.object o => some o
  | _ => none

/-- Elements of an `Int32Array` (`js_is_typedarray`, `js_get_typedarray_info`):
`none` when the value is no typed array or one of another element type. -/
def js_int32array : JsValue → Option (List Int)
  | JsValue.int32array xs => some xs
  | _ => none

/-- Wrap a native pointer (`js_create_external`) and return the handle. -/
def World.create_external (w : World) (data : Ptr) (k : Kind)
    (tag : Option js_type_tag_t) : Outcome × World :=
  (Outcome.value (JsValue.external w.externals.length),
    ⟨w.externals ++ [⟨data, k, tag⟩], w.trace⟩)

/-! ## binding.cpp

The variant built for the Bare runtime.  It attaches no type tag and checks
none ("js_add_type_tag crashes in Bare runtime"). -/

namespace Cpp

/-- The callback `fn_load_model` of binding.cpp: loadModel(path, params?). -/
def fn_load_model (env : Env) (w : World) (args : List JsValue) : Outcome × World :=
  let argc := args.length
  if argc < 1 then (throw_error "Model path required", w) else
  match js_get_value_string_utf8 (argv args 0) with
  | none => (throw_error "Invalid model path", w)
  | some path =>
    if !env.malloc (size_add path.length 1) then (throw_error "Memory allocation failed", w) else
    match js_get_value_string_utf8 (argv args 0) with
    | none => (throw_error "Failed to read model path", w)
    | some path =>
      let opts := if 2 ≤ argc then js_object (argv args 1) else none
      let n_gpu_layers := opts.bind JsObject.nGpuLayers
      let model := env.llama_model_load_from_file
      let w := w.call (NativeCall.llama_model_load_from_file path n_gpu_layers true)
      if model = 0 then (throw_error "Failed to load model", w) else
      if !env.js_create_external then
        (throw_error "Failed to create model wrapper", w.call (NativeCall.llama_model_free model))
      else w.create_external model Kind.model none

/-- The callback `fn_free_model` of binding.cpp: freeModel(model). -/
def fn_free_model (_env : Env) (w : World) (args : List JsValue) : Outcome × World :=
  match js_get_value_external w (argv args 0) with
  | none => (Outcome.null_return, w)
  | some model =>
    if model = 0 then (Outcome.null_return, w) else
    (Outcome.value JsValue.null, w.call (NativeCall.llama_model_free model))

/-- The option parsing of `fn_create_context` in binding.cpp. -/
def context_params (argc : Nat) (opts : JsValue) : llama_context_params :=
  let o := if 2 ≤ argc then js_object opts else none
  { n_ctx := (o.bind JsObject.contextSize).map to_uint32
    n_batch := (o.bind JsObject.batchSize).map to_uint32
    embeddings := o.bind JsObject.embeddings
    pooling_type := o.bind JsObject.poolingType }

/-- The callback `fn_create_context` of binding.cpp: createContext(model, params?). -/
def fn_create_context (env : Env) (w : World) (args : List JsValue) : Outcome × World :=
  let argc := args.length
  if argc < 1 then (throw_error "Model required", w) else
  match js_get_value_external w (argv args 0) with
  | none => (throw_error "Invalid model", w)
  | some model =>
    if model = 0 then (throw_error "Invalid model", w) else
    let params := context_params argc (argv args 1)
    let ctx := env.llama_init_from_model
    let w := w.call (NativeCall.llama_init_from_model model params)
    if ctx = 0 then (throw_error "Failed to create context", w) else
    if !env.js_create_external then
      (throw_error "Failed to create context wrapper", w.call (NativeCall.llama_free ctx))
    else w.create_external ctx Kind.context none

/-- The callback `fn_free_context` of binding.cpp: freeContext(ctx). -/
def fn_free_context (_env : Env) (w : World) (args : List JsValue) : Outcome × World :=
  match js_get_value_external w (argv args 0) with
  | none => (Outcome.null_return, w)
  | some ctx =>
    if ctx = 0 then (Outcome.null_return, w) else
    (Outcome.value JsValue.null, w.call (NativeCall.llama_free ctx))

/-- The callback `fn_clear_memory` of binding.cpp: clearMemory(ctx). -/
def fn_clear_memory (env : Env) (w : World) (args : List JsValue) : Outcome × World :=
  match js_get_value_external w (argv args 0) with
  | none => (throw_error "Invalid context", w)
  | some ctx =>
    if ctx = 0 then (throw_error "Invalid context", w) else
    let mem := env.llama_get_memory
    let w := w.call (NativeCall.llama_get_memory ctx)
    let w := if mem ≠ 0 then w.call (NativeCall.llama_memory_clear mem true) else w
    (Outcome.value JsValue.undefined, w)

/-- Helper to get string property: `NULL` (`none`) when the value is no
object, the property is absent, or the copy cannot be allocated. -/
def get_string_property (env : Env) (opts : JsValue)
    (name : JsObject → Option (List Nat)) : Option (List Nat) :=
  match js_object opts with
  | none => none
  | some o =>
    match name o with
    | none => none
    | some str => if env.malloc (size_add str.length 1) then some str else none

/-- The block "Add grammar sampler first if specified" of `fn_create_sampler`. -/
def add_grammar (env : Env) (w : World) (vocab sampler : Ptr)
    (json_grammar lark_grammar : Option (List Nat)) : World :=
  match json_grammar with
  | some g =>
    let w := w.call (NativeCall.llama_sampler_init_llg vocab "json" g)
    if env.llama_sampler_init_llg then
      w.call (NativeCall.llama_sampler_chain_add sampler (Stage.llg "json" g))
    else w
  | none =>
    match lark_grammar with
    | some g =>
      let w := w.call (NativeCall.llama_sampler_init_llg vocab "lark" g)
      if env.llama_sampler_init_llg then
        w.call (NativeCall.llama_sampler_chain_add sampler (Stage.llg "lark" g))
      else w
    | none => w

/-- The block "Build sampler chain (after grammar filtering)" of `fn_create_sampler`. -/
def build_chain (w : World) (sampler : Ptr) (temp : F32) (top_k : Int) (top_p : F32) : World :=
  if temp.gt_zero then
    let w := w.call (NativeCall.llama_sampler_chain_add sampler (Stage.top_k top_k))
    let w := w.call (NativeCall.llama_sampler_chain_add sampler (Stage.top_p top_p 1))
    let w := w.call (NativeCall.llama_sampler_chain_add sampler (Stage.temp temp))
    w.call (NativeCall.llama_sampler_chain_add sampler (Stage.dist 0))
  else
    w.call (NativeCall.llama_sampler_chain_add sampler Stage.greedy)

/-- The callback `fn_create_sampler` of binding.cpp: createSampler(model, params?). -/
def fn_create_sampler (env : Env) (w : World) (args : List JsValue) : Outcome × World :=
  let argc := args.length
  if argc < 1 then (throw_error "Model required", w) else
  match js_get_value_external w (argv args 0) with
  | none => (throw_error "Invalid model", w)
  | some model =>
    if model = 0 then (throw_error "Invalid model", w) else
    let vocab := env.llama_model_get_vocab model
    let w := w.call (NativeCall.llama_model_get_vocab model)
    let sampler := env.llama_sampler_chain_init
    let w := w.call NativeCall.llama_sampler_chain_init
    let opts := if 2 ≤ argc then js_object (argv args 1) else none
    let temp := (opts.bind JsObject.temp).getD F32.zero
    let top_k := (opts.bind JsObject.topK).getD 40
    let top_p := (opts.bind JsObject.topP).getD F32.c0_95
    let json_grammar :=
      if 2 ≤ argc then get_string_property env (argv args 1) JsObject.json else none
    let lark_grammar :=
      if 2 ≤ argc then get_string_property env (argv args 1) JsObject.lark else none
    let w := add_grammar env w vocab sampler json_grammar lark_grammar
    let w := build_chain w sampler temp top_k top_p
    if !env.js_create_external then
      (throw_error "Failed to create sampler wrapper", w.call (NativeCall.llama_sampler_free sampler))
    else w.create_external sampler Kind.sampler none

/-- The callback `fn_free_sampler` of binding.cpp: freeSampler(sampler). -/
def fn_free_sampler (_env : Env) (w : World) (args : List JsValue) : Outcome × World :=
  match js_get_value_external w (argv args 0) with
  | none => (Outcome.null_return, w)
  | some sampler =>
    if sampler = 0 then (Outcome.null_return, w) else
    (Outcome.value JsValue.null, w.call (NativeCall.llama_sampler_free sampler))

/-- The part of `fn_tokenize` in binding.cpp from "Estimate token count" on: the
token buffer, the first call of the tokenizer, the retry, the result array. -/
def tokenize_buffer (env : Env) (w : World) (vocab : Ptr) (text : List Nat) (add_bos : Bool) :
    Outcome × World :=
  let text_len := text.length
  let max_tokens := wrap32 (size_add text_len 16)
  if !env.malloc (size_mul (to_size_t max_tokens) 4) then
    (throw_error "Memory allocation failed", w)
  else
    let first := env.llama_tokenize_first
    let w := w.call (NativeCall.llama_tokenize vocab (some text) text_len max_tokens add_bos true)
    if first.n_tokens < 0 then
      let max_tokens := wrap32 (-first.n_tokens)
      if !env.realloc (size_mul (to_size_t max_tokens) 4) then
        (throw_error "Memory allocation failed", w)
      else
        let retry := env.llama_tokenize_retry
        let w := w.call (NativeCall.llama_tokenize vocab none text_len max_tokens add_bos true)
        if retry.n_tokens < 0 then (throw_error "Tokenization failed", w) else
        if !env.js_create_arraybuffer then (throw_error "Failed to create array buffer", w) else
        if !env.js_create_typedarray then (throw_error "Failed to create typed array", w) else
        (Outcome.value (JsValue.int32array ((List.range retry.n_tokens.toNat).map retry.tokens)), w)
    else
      if !env.js_create_arraybuffer then (throw_error "Failed to create array buffer", w) else
      if !env.js_create_typedarray then (throw_error "Failed to create typed array", w) else
      (Outcome.value (JsValue.int32array ((List.range first.n_tokens.toNat).map first.tokens)), w)

/-- The callback `fn_tokenize` of binding.cpp: tokenize(model, text, addBos). -/
def fn_tokenize (env : Env) (w : World) (args : List JsValue) : Outcome × World :=
  let argc := args.length
  if argc < 2 then (throw_error "Model and text required", w) else
  match js_get_value_external w (argv args 0) with
  | none => (throw_error "Invalid model", w)
  | some model =>
    if model = 0 then (throw_error "Invalid model", w) else
    match js_get_value_string_utf8 (argv args 1) with
    | none => (throw_error "Invalid text", w)
    | some text =>
      let text_len := text.length
      if !env.malloc (size_add text_len 1) then (throw_error "Memory allocation failed", w) else
      match js_get_value_string_utf8 (argv args 1) with
      | none => (throw_error "Failed to read text", w)
      | some text =>
        let add_bos := if 3 ≤ argc then js_get_value_bool (argv args 2) true else true
        let vocab := env.llama_model_get_vocab model
        let w := w.call (NativeCall.llama_model_get_vocab model)
        tokenize_buffer env w vocab text add_bos

end Cpp

/-- The output buffer of `fn_detokenize`: its capacity `buf_size`, the write
position `offset`, the bytes copied so far, and whether some `memcpy` went
past `buf_size`. -/
structure OutBuf where
  buf_size : Nat
  offset : Nat
  bytes : List Nat
  overrun : Bool
deriving DecidableEq, Repr

/-- The `for` loop of `fn_detokenize` (the same text in both variants) over the
remaining tokens; the buffer is `none` after a failed `realloc`. -/
def detokenize_loop (env : Env) (vocab : Ptr) :
    List Int → World → OutBuf → World × Option OutBuf
  | [], w, b => (w, some b)
  | token :: rest, w, b =>
    let r := env.llama_token_to_piece token
    let w := w.call (NativeCall.llama_token_to_piece vocab token 256 0 true)
    if 0 < r.n then
      let n := to_size_t r.n
      let grow := decide (b.buf_size ≤ size_add b.offset n)
      let buf_size := if grow then size_mul b.buf_size 2 else b.buf_size
      if grow && !env.realloc buf_size then (w, none) else
      detokenize_loop env vocab rest w
        ⟨buf_size, size_add b.offset n, b.bytes ++ (List.range n).map r.piece,
          b.overrun || decide (buf_size < b.offset + n)⟩
    else detokenize_loop env vocab rest w b

namespace Cpp

/-- The callback `fn_detokenize` of binding.cpp: detokenize(model, tokens). -/
def fn_detokenize (env : Env) (w : World) (args : List JsValue) : Outcome × World :=
  let argc := args.length
  if argc < 2 then (throw_error "Model and tokens required", w) else
  match js_get_value_external w (argv args 0) with
  | none => (throw_error "Invalid model", w)
  | some model =>
    if model = 0 then (throw_error "Invalid model", w) else
    match js_int32array (argv args 1) with
    | none => (throw_error "Tokens must be Int32Array", w)
    | some tokens =>
      let length := tokens.length
      let vocab := env.llama_model_get_vocab model
      let w := w.call (NativeCall.llama_model_get_vocab model)
      let buf_size := size_mul length 16
      if !env.malloc buf_size then (throw_error "Memory allocation failed", w) else
      match detokenize_loop env vocab tokens w ⟨buf_size, 0, [], false⟩ with
      | (w, none) => (throw_error "Memory allocation failed", w)
      | (w, some b) =>
        if !env.js_create_string_utf8 then (throw_error "Failed to create string", w) else
        (Outcome.value (JsValue.string (b.bytes.take b.offset)), w)

/-- The callback `fn_decode` of binding.cpp: decode(ctx, tokens). -/
def fn_decode (env : Env) (w : World) (args : List JsValue) : Outcome × World :=
  let argc := args.length
  if argc < 2 then (throw_error "Context and tokens required", w) else
  match js_get_value_external w (argv args 0) with
  | none => (throw_error "Invalid context", w)
  | some ctx =>
    if ctx = 0 then (throw_error "Invalid context", w) else
    match js_int32array (argv args 1) with
    | none => (throw_error "Tokens must be Int32Array", w)
    | some tokens =>
      let w := w.call (NativeCall.llama_decode ctx tokens (wrap32 tokens.length))
      if env.llama_decode ≠ 0 then (throw_error "Decode failed", w) else
      (Outcome.value JsValue.undefined, w)

/-- The callback `fn_sample` of binding.cpp: sample(ctx, sampler, idx). -/
def fn_sample (env : Env) (w : World) (args : List JsValue) : Outcome × World :=
  let argc := args.length
  if argc < 3 then (throw_error "Context, sampler, and index required", w) else
  match js_get_value_external w (argv args 0) with
  | none => (throw_error "Invalid context", w)
  | some ctx =>
    if ctx = 0 then (throw_error "Invalid context", w) else
    match js_get_value_external w (argv args 1) with
    | none => (throw_error "Invalid sampler", w)
    | some sampler =>
      if sampler = 0 then (throw_error "Invalid sampler", w) else
      match js_get_value_int32 (argv args 2) with
      | none => (throw_error "Invalid index", w)
      | some idx =>
        let token := env.llama_sampler_sample
        let w := w.call (NativeCall.llama_sampler_sample sampler ctx idx)
        if !env.js_create_int32 then (throw_error "Failed to create result", w) else
        (Outcome.value (JsValue.number token), w)

/-- The callback `fn_accept_token` of binding.cpp: acceptToken(sampler, token). -/
def fn_accept_token (env : Env) (w : World) (args : List JsValue) : Outcome × World :=
  match js_get_value_external w (argv args 0) with
  | none => (throw_error "Invalid sampler", w)
  | some sampler =>
    if sampler = 0 then (throw_error "Invalid sampler", w) else
    let token := (js_get_value_int32 (argv args 1)).getD env.uninit_int32
    (Outcome.value JsValue.undefined, w.call (NativeCall.llama_sampler_accept sampler token))

/-- The callback `fn_is_eog_token` of binding.cpp: isEogToken(model, token). -/
def fn_is_eog_token (env : Env) (w : World) (args : List JsValue) : Outcome × World :=
  match js_get_value_external w (argv args 0) with
  | none => (throw_error "Invalid model", w)
  | some model =>
    if model = 0 then (throw_error "Invalid model", w) else
    let token := (js_get_value_int32 (argv args 1)).getD env.uninit_int32
    let vocab := env.llama_model_get_vocab model
    let w := w.call (NativeCall.llama_model_get_vocab model)
    let w := w.call (NativeCall.llama_vocab_is_eog vocab token)
    (Outcome.value (JsValue.boolean env.llama_vocab_is_eog), w)

/-- The callback `fn_get_embedding_dimension` of binding.cpp. -/
def fn_get_embedding_dimension (env : Env) (w : World) (args : List JsValue) :
    Outcome × World :=
  match js_get_value_external w (argv args 0) with
  | none => (throw_error "Invalid model", w)
  | some model =>
    if model = 0 then (throw_error "Invalid model", w) else
    let n_embd := env.llama_model_n_embd
    let w := w.call (NativeCall.llama_model_n_embd model)
    if !env.js_create_int32 then (throw_error "Failed to create result", w) else
    (Outcome.value (JsValue.number n_embd), w)

/-- The callback `fn_get_training_context_size` of binding.cpp. -/
def fn_get_training_context_size (env : Env) (w : World) (args : List JsValue) :
    Outcome × World :=
  match js_get_value_external w (argv args 0) with
  | none => (throw_error "Invalid model", w)
  | some model =>
    if model = 0 then (throw_error "Invalid model", w) else
    let n_ctx_train := env.llama_model_n_ctx_train
    let w := w.call (NativeCall.llama_model_n_ctx_train model)
    if !env.js_create_int32 then (throw_error "Failed to create result", w) else
    (Outcome.value (JsValue.number n_ctx_train), w)

/-- The callback `fn_get_context_size` of binding.cpp. -/
def fn_get_context_size (env : Env) (w : World) (args : List JsValue) : Outcome × World :=
  match js_get_value_external w (argv args 0) with
  | none => (throw_error "Invalid context", w)
  | some ctx =>
    if ctx = 0 then (throw_error "Invalid context", w) else
    let n_ctx := env.llama_n_ctx
    let w := w.call (NativeCall.llama_n_ctx ctx)
    if !env.js_create_uint32 then (throw_error "Failed to create result", w) else
    (Outcome.value (JsValue.number n_ctx), w)

/-- The part of `fn_get_embeddings` from `llama_get_model` on: the copy of
the `n_embd` floats behind `embeddings` into a fresh `Float32Array`. -/
def embeddings_array (env : Env) (w : World) (ctx : Ptr) (embeddings : Nat → F32) :
    Outcome × World :=
  let model := env.llama_get_model
  let w := w.call (NativeCall.llama_get_model ctx)
  let n_embd := env.llama_model_n_embd
  let w := w.call (NativeCall.llama_model_n_embd model)
  if !env.js_create_arraybuffer then (throw_error "Failed to create array buffer", w) else
  if !env.js_create_typedarray then (throw_error "Failed to create typed array", w) else
  (Outcome.value (JsValue.float32array ((List.range n_embd.toNat).map embeddings)), w)

/-- The callback `fn_get_embeddings` of binding.cpp: getEmbeddings(ctx, idx). -/
def fn_get_embeddings (env : Env) (w : World) (args : List JsValue) : Outcome × World :=
  let argc := args.length
  if argc < 2 then (throw_error "Context and index required", w) else
  match js_get_value_external w (argv args 0) with
  | none => (throw_error "Invalid context", w)
  | some ctx =>
    if ctx = 0 then (throw_error "Invalid context", w) else
    match js_get_value_int32 (argv args 1) with
    | none => (throw_error "Invalid index", w)
    | some idx =>
      let w := w.call (NativeCall.llama_get_embeddings_seq ctx (if 0 ≤ idx then idx else 0))
      match env.llama_get_embeddings_seq with
      | some embeddings => embeddings_array env w ctx embeddings
      | none =>
        let w := w.call (NativeCall.llama_get_embeddings_ith ctx idx)
        match env.llama_get_embeddings_ith with
        | some embeddings => embeddings_array env w ctx embeddings
        | none =>
          (throw_error "Failed to get embeddings (context may not have embeddings enabled)", w)

end Cpp

/-! ### Log level control (binding.cpp only)

The static `g_log_level`, the callback registered with the engine and the
export `setLogLevel`.  They work on a state of their own, `LogState`; what
`fprintf(stderr, "%s", text)` writes is appended to its `stderr`.  A message
text is the C string handed to the callback, given by its bytes before the
terminating NUL. -/

/-- Modelled from the spec: `GGML_LOG_LEVEL_NONE` of `enum ggml_log_level`,
which ggml.h declares outside the bindings. -/
def GGML_LOG_LEVEL_NONE : Int := 0

/-- Modelled from the spec: `GGML_LOG_LEVEL_DEBUG` of `enum ggml_log_level`. -/
def GGML_LOG_LEVEL_DEBUG : Int := 1

/-- Modelled from the spec: `GGML_LOG_LEVEL_INFO` of `enum ggml_log_level`. -/
def GGML_LOG_LEVEL_INFO : Int := 2

/-- Modelled from the spec: `GGML_LOG_LEVEL_WARN` of `enum ggml_log_level`. -/
def GGML_LOG_LEVEL_WARN : Int := 3

/-- Modelled from the spec: `GGML_LOG_LEVEL_ERROR` of `enum ggml_log_level`. -/
def GGML_LOG_LEVEL_ERROR : Int := 4

/-- Modelled from the spec: `GGML_LOG_LEVEL_CONT` of `enum ggml_log_level`
(continuation of the previous message). -/
def GGML_LOG_LEVEL_CONT : Int := 5

/-- The string literal "llg error:" (10 bytes). -/
def llg_error : List Nat := [108, 108, 103, 32, 101, 114, 114, 111, 114, 58]

/-- The library function `strncmp(a, b, n)` on two C strings: the difference
at the first of the first `n` positions where they differ (the terminating
NUL of the shorter one counts as `0`), and `0` when there is none. -/
def strncmp : List Nat → List Nat → Nat → Int
  | _, _, 0 => 0
  | [], [], _ + 1 => 0
  | [], b :: _, _ + 1 => -(b : Int)
  | a :: _, [], _ + 1 => (a : Int)
  | a :: as, b :: bs, n + 1 => if a = b then strncmp as bs n else (a : Int) - (b : Int)

/-- The process-wide logging state: the static `g_log_level`, whether
`quiet_log_callback` is the callback registered with `llama_log_set`, whether
the log of the common library is paused (`common_log_pause`, undone by
`common_log_resume`), and the bytes written to `stderr` so far. -/
structure LogState where
  g_log_level : Int
  quiet_log_callback_set : Bool
  common_log_paused : Bool
  stderr : List Nat
deriving DecidableEq, Repr

/-- The logging state when `addon_exports` returns: `g_log_level` holds its
initializer `2`, `llama_log_set(quiet_log_callback, NULL)` has run, nothing
has paused the log of the common library. -/
def LogState.initial : LogState := ⟨2, true, false, []⟩

namespace Cpp

/-- The function `quiet_log_callback` of binding.cpp, which the engine calls
with the severity and the text of each message. -/
def quiet_log_callback (s : LogState) (level : Int) (text : List Nat) : LogState :=
  if s.g_log_level = 0 then s else
  if s.g_log_level = 1 then
    if strncmp text llg_error 10 = 0 then s else
    if level > GGML_LOG_LEVEL_ERROR then s else
    { s with stderr := s.stderr ++ text }
  else { s with stderr := s.stderr ++ text }

/-- The callback `fn_set_log_level` of binding.cpp: setLogLevel(level).  The
local `level` starts as `2` and keeps that value when there is no argument
or `js_get_value_int32` does not store. -/
def fn_set_log_level (s : LogState) (args : List JsValue) : Outcome × LogState :=
  let argc := args.length
  let level : Int := if argc ≥ 1 then (js_get_value_int32 (argv args 0)).getD 2 else 2
  let s := { s with g_log_level := level, quiet_log_callback_set := true }
  if level = 0 then (Outcome.value JsValue.undefined, { s with common_log_paused := true })
  else (Outcome.value JsValue.undefined, { s with common_log_paused := false })

end Cpp

/-! ## binding.c

The variant with type tags: every external is tagged when it is created and
every callback checks the tag of a handle before reading its pointer. -/

namespace C

/-- The callback `fn_load_model` of binding.c: loadModel(path, params?). -/
def fn_load_model (env : Env) (w : World) (args : List JsValue) : Outcome × World :=
  let argc := args.length
  if argc < 1 then (throw_error "Model path required", w) else
  match js_get_value_string_utf8 (argv args 0) with
  | none => (throw_error "Invalid model path", w)
  | some path =>
    if !env.malloc (size_add path.length 1) then (throw_error "Memory allocation failed", w) else
    match js_get_value_string_utf8 (argv args 0) with
    | none => (throw_error "Failed to read model path", w)
    | some path =>
      let opts := if 2 ≤ argc then js_object (argv args 1) else none
      let n_gpu_layers := opts.bind JsObject.nGpuLayers
      let model := env.llama_model_load_from_file
      let w := w.call (NativeCall.llama_model_load_from_file path n_gpu_layers false)
      if model = 0 then (throw_error "Failed to load model", w) else
      if !env.js_create_external then
        (throw_error "Failed to create model wrapper", w.call (NativeCall.llama_model_free model))
      else if !env.js_add_type_tag then
        (Outcome.abort, (w.create_external model Kind.model none).2)
      else w.create_external model Kind.model (some llama_model_type_tag)

/-- The callback `fn_free_model` of binding.c: freeModel(model). -/
def fn_free_model (_env : Env) (w : World) (args : List JsValue) : Outcome × World :=
  if js_check_type_tag w (argv args 0) llama_model_type_tag ≠ some true then
    (throw_error "Invalid model", w)
  else
  match js_get_value_external w (argv args 0) with
  | none => (Outcome.null_return, w)
  | some model =>
    if model = 0 then (Outcome.null_return, w) else
    (Outcome.value JsValue.null, w.call (NativeCall.llama_model_free model))

/-- The option parsing of `fn_create_context` in binding.c. -/
def context_params (argc : Nat) (opts : JsValue) : llama_context_params :=
  let o := if 2 ≤ argc then js_object opts else none
  { n_ctx := (o.bind JsObject.contextSize).map to_uint32
    n_batch := (o.bind JsObject.batchSize).map to_uint32
    embeddings := none
    pooling_type := none }

/-- The callback `fn_create_context` of binding.c: createContext(model, params?). -/
def fn_create_context (env : Env) (w : World) (args : List JsValue) : Outcome × World :=
  let argc := args.length
  if argc < 1 then (throw_error "Model required", w) else
  if js_check_type_tag w (argv args 0) llama_model_type_tag ≠ some true then
    (throw_error "Invalid model", w)
  else
  match js_get_value_external w (argv args 0) with
  | none => (throw_error "Invalid model", w)
  | some model =>
    if model = 0 then (throw_error "Invalid model", w) else
    let params := context_params argc (argv args 1)
    let ctx := env.llama_init_from_model
    let w := w.call (NativeCall.llama_init_from_model model params)
    if ctx = 0 then (throw_error "Failed to create context", w) else
    if !env.js_create_external then
      (throw_error "Failed to create context wrapper", w.call (NativeCall.llama_free ctx))
    else if !env.js_add_type_tag then
      (Outcome.abort, (w.create_external ctx Kind.context none).2)
    else w.create_external ctx Kind.context (some llama_context_type_tag)

/-- The callback `fn_free_context` of binding.c: freeContext(ctx). -/
def fn_free_context (_env : Env) (w : World) (args : List JsValue) : Outcome × World :=
  if js_check_type_tag w (argv args 0) llama_context_type_tag ≠ some true then
    (throw_error "Invalid context", w)
  else
  match js_get_value_external w (argv args 0) with
  | none => (Outcome.null_return, w)
  | some ctx =>
    if ctx = 0 then (Outcome.null_return, w) else
    (Outcome.value JsValue.null, w.call (NativeCall.llama_free ctx))

/-- The block "Build sampler chain" of `fn_create_sampler` in binding.c. -/
def build_chain (w : World) (sampler : Ptr) (temp : F32) (top_k : Int) (top_p : F32) : World :=
  if temp.gt_zero then
    let w := w.call (NativeCall.llama_sampler_chain_add sampler (Stage.top_k top_k))
    let w := w.call (NativeCall.llama_sampler_chain_add sampler (Stage.top_p top_p 1))
    let w := w.call (NativeCall.llama_sampler_chain_add sampler (Stage.temp temp))
    w.call (NativeCall.llama_sampler_chain_add sampler (Stage.dist 0))
  else
    w.call (NativeCall.llama_sampler_chain_add sampler Stage.greedy)

/-- The callback `fn_create_sampler` of binding.c: createSampler(params?). -/
def fn_create_sampler (env : Env) (w : World) (args : List JsValue) : Outcome × World :=
  let argc := args.length
  let sampler := env.llama_sampler_chain_init
  let w := w.call NativeCall.llama_sampler_chain_init
  let opts := if 1 ≤ argc then js_object (argv args 0) else none
  let temp := (opts.bind JsObject.temp).getD F32.zero
  let top_k := (opts.bind JsObject.topK).getD 40
  let top_p := (opts.bind JsObject.topP).getD F32.c0_95
  let w := build_chain w sampler temp top_k top_p
  if !env.js_create_external then
    (throw_error "Failed to create sampler wrapper", w.call (NativeCall.llama_sampler_free sampler))
  else if !env.js_add_type_tag then
    (Outcome.abort, (w.create_external sampler Kind.sampler none).2)
  else w.create_external sampler Kind.sampler (some llama_sampler_type_tag)

/-- The callback `fn_free_sampler` of binding.c: freeSampler(sampler). -/
def fn_free_sampler (_env : Env) (w : World) (args : List JsValue) : Outcome × World :=
  if js_check_type_tag w (argv args 0) llama_sampler_type_tag ≠ some true then
    (throw_error "Invalid sampler", w)
  else
  match js_get_value_external w (argv args 0) with
  | none => (Outcome.null_return, w)
  | some sampler =>
    if sampler = 0 then (Outcome.null_return, w) else
    (Outcome.value JsValue.null, w.call (NativeCall.llama_sampler_free sampler))

/-- The part of `fn_tokenize` in binding.c from "Estimate token count" on: the
token buffer, the first call of the tokenizer, the retry, the result array. -/
def tokenize_buffer (env : Env) (w : World) (vocab : Ptr) (text : List Nat) (add_bos : Bool) :
    Outcome × World :=
  let text_len := text.length
  let max_tokens := wrap32 (size_add text_len 16)
  if !env.malloc (size_mul (to_size_t max_tokens) 4) then
    (throw_error "Memory allocation failed", w)
  else
    let first := env.llama_tokenize_first
    let w := w.call (NativeCall.llama_tokenize vocab (some text) text_len max_tokens add_bos true)
    if first.n_tokens < 0 then
      let max_tokens := wrap32 (-first.n_tokens)
      if !env.realloc (size_mul (to_size_t max_tokens) 4) then
        (throw_error "Memory allocation failed", w)
      else
        let retry := env.llama_tokenize_retry
        let w := w.call (NativeCall.llama_tokenize vocab none text_len max_tokens add_bos true)
        if retry.n_tokens < 0 then (throw_error "Tokenization failed", w) else
        if !env.js_create_arraybuffer then (throw_error "Failed to create array buffer", w) else
        if !env.js_create_typedarray then (throw_error "Failed to create typed array", w) else
        (Outcome.value (JsValue.int32array ((List.range retry.n_tokens.toNat).map retry.tokens)), w)
    else
      if !env.js_create_arraybuffer then (throw_error "Failed to create array buffer", w) else
      if !env.js_create_typedarray then (throw_error "Failed to create typed array", w) else
      (Outcome.value (JsValue.int32array ((List.range first.n_tokens.toNat).map first.tokens)), w)

/-- The callback `fn_tokenize` of binding.c: tokenize(model, text, addBos). -/
def fn_tokenize (env : Env) (w : World) (args : List JsValue) : Outcome × World :=
  let argc := args.length
  if argc < 2 then (throw_error "Model and text required", w) else
  if js_check_type_tag w (argv args 0) llama_model_type_tag ≠ some true then
    (throw_error "Invalid model", w)
  else
  match js_get_value_external w (argv args 0) with
  | none => (throw_error "Invalid model", w)
  | some model =>
    if model = 0 then (throw_error "Invalid model", w) else
    match js_get_value_string_utf8 (argv args 1) with
    | none => (throw_error "Invalid text", w)
    | some text =>
      let text_len := text.length
      if !env.malloc (size_add text_len 1) then (throw_error "Memory allocation failed", w) else
      match js_get_value_string_utf8 (argv args 1) with
      | none => (throw_error "Failed to read text", w)
      | some text =>
        let add_bos := if 3 ≤ argc then js_get_value_bool (argv args 2) true else true
        let vocab := env.llama_model_get_vocab model
        let w := w.call (NativeCall.llama_model_get_vocab model)
        tokenize_buffer env w vocab text add_bos

/-- The callback `fn_detokenize` of binding.c: detokenize(model, tokens). -/
def fn_detokenize (env : Env) (w : World) (args : List JsValue) : Outcome × World :=
  let argc := args.length
  if argc < 2 then (throw_error "Model and tokens required", w) else
  if js_check_type_tag w (argv args 0) llama_model_type_tag ≠ some true then
    (throw_error "Invalid model", w)
  else
  match js_get_value_external w (argv args 0) with
  | none => (throw_error "Invalid model", w)
  | some model =>
    if model = 0 then (throw_error "Invalid model", w) else
    match js_int32array (argv args 1) with
    | none => (throw_error "Tokens must be Int32Array", w)
    | some tokens =>
      let length := tokens.length
      let vocab := env.llama_model_get_vocab model
      let w := w.call (NativeCall.llama_model_get_vocab model)
      let buf_size := size_mul length 16
      if !env.malloc buf_size then (throw_error "Memory allocation failed", w) else
      match detokenize_loop env vocab tokens w ⟨buf_size, 0, [], false⟩ with
      | (w, none) => (throw_error "Memory allocation failed", w)
      | (w, some b) =>
        if !env.js_create_string_utf8 then (throw_error "Failed to create string", w) else
        (Outcome.value (JsValue.string (b.bytes.take b.offset)), w)

/-- The callback `fn_decode` of binding.c: decode(ctx, tokens). -/
def fn_decode (env : Env) (w : World) (args : List JsValue) : Outcome × World :=
  let argc := args.length
  if argc < 2 then (throw_error "Context and tokens required", w) else
  if js_check_type_tag w (argv args 0) llama_context_type_tag ≠ some true then
    (throw_error "Invalid context", w)
  else
  match js_get_value_external w (argv args 0) with
  | none => (throw_error "Invalid context", w)
  | some ctx =>
    if ctx = 0 then (throw_error "Invalid context", w) else
    match js_int32array (argv args 1) with
    | none => (throw_error "Tokens must be Int32Array", w)
    | some tokens =>
      let w := w.call (NativeCall.llama_decode ctx tokens (wrap32 tokens.length))
      if env.llama_decode ≠ 0 then (throw_error "Decode failed", w) else
      (Outcome.value JsValue.undefined, w)

/-- The callback `fn_sample` of binding.c: sample(ctx, sampler, idx). -/
def fn_sample (env : Env) (w : World) (args : List JsValue) : Outcome × World :=
  let argc := args.length
  if argc < 3 then (throw_error "Context, sampler, and index required", w) else
  if js_check_type_tag w (argv args 0) llama_context_type_tag ≠ some true then
    (throw_error "Invalid context", w)
  else
  match js_get_value_external w (argv args 0) with
  | none => (throw_error "Invalid context", w)
  | some ctx =>
    if ctx = 0 then (throw_error "Invalid context", w) else
    if js_check_type_tag w (argv args 1) llama_sampler_type_tag ≠ some true then
      (throw_error "Invalid sampler", w)
    else
    match js_get_value_external w (argv args 1) with
    | none => (throw_error "Invalid sampler", w)
    | some sampler =>
      if sampler = 0 then (throw_error "Invalid sampler", w) else
      match js_get_value_int32 (argv args 2) with
      | none => (throw_error "Invalid index", w)
      | some idx =>
        let token := env.llama_sampler_sample
        let w := w.call (NativeCall.llama_sampler_sample sampler ctx idx)
        if !env.js_create_int32 then (throw_error "Failed to create result", w) else
        (Outcome.value (JsValue.number token), w)

/-- The callback `fn_accept_token` of binding.c: acceptToken(sampler, token). -/
def fn_accept_token (env : Env) (w : World) (args : List JsValue) : Outcome × World :=
  if js_check_type_tag w (argv args 0) llama_sampler_type_tag ≠ some true then
    (throw_error "Invalid sampler", w)
  else
  match js_get_value_external w (argv args 0) with
  | none => (throw_error "Invalid sampler", w)
  | some sampler =>
    if sampler = 0 then (throw_error "Invalid sampler", w) else
    let token := (js_get_value_int32 (argv args 1)).getD env.uninit_int32
    (Outcome.value JsValue.undefined, w.call (NativeCall.llama_sampler_accept sampler token))

/-- The callback `fn_is_eog_token` of binding.c: isEogToken(model, token). -/
def fn_is_eog_token (env : Env) (w : World) (args : List JsValue) : Outcome × World :=
  if js_check_type_tag w (argv args 0) llama_model_type_tag ≠ some true then
    (throw_error "Invalid model", w)
  else
  match js_get_value_external w (argv args 0) with
  | none => (throw_error "Invalid model", w)
  | some model =>
    if model = 0 then (throw_error "Invalid model", w) else
    let token := (js_get_value_int32 (argv args 1)).getD env.uninit_int32
    let vocab := env.llama_model_get_vocab model
    let w := w.call (NativeCall.llama_model_get_vocab model)
    let w := w.call (NativeCall.llama_vocab_is_eog vocab token)
    (Outcome.value (JsValue.boolean env.llama_vocab_is_eog), w)

end C

/-! ## Finalizers

The same three functions in both variants.  The runtime calls the finalizer
registered for an external, with the `data` given to `js_create_external`,
when the garbage collector reclaims the external. -/

/-- The finalizer `finalize_model`. -/
def finalize_model (w : World) (data : Ptr) : World :=
  if data ≠ 0 then w.call (NativeCall.llama_model_free data) else w

/-- The finalizer `finalize_context`. -/
def finalize_context (w : World) (data : Ptr) : World :=
  if data ≠ 0 then w.call (NativeCall.llama_free data) else w

/-- The finalizer `finalize_sampler`. -/
def finalize_sampler (w : World) (data : Ptr) : World :=
  if data ≠ 0 then w.call (NativeCall.llama_sampler_free data) else w

/-- Garbage collection of the external behind handle `id`: the runtime runs the
registered finalizer on the stored pointer. -/
def collect (w : World) (id : Nat) : World :=
  match w.externals.get? id with
  | none => w
  | some e =>
    match e.finalize with
    | Kind.model => finalize_model w e.data
    | Kind.context => finalize_context w e.data
    | Kind.sampler => finalize_sampler w e.data

/-! ## Exports that take a handle -/

/-- A callback. -/
abbrev Callback := Env → World → List JsValue → Outcome × World

/-- The exported functions that take a handle, by their JavaScript names
(`addon_exports`). -/
inductive Op
  | freeModel
  | createContext
  | freeContext
  | clearMemory
  | createSampler
  | freeSampler
  | tokenize
  | detokenize
  | decode
  | sample
  | acceptToken
  | isEogToken
  | getEmbeddingDimension
  | getTrainingContextSize
  | getContextSize
  | getEmbeddings
deriving DecidableEq, Repr

/-- The handle parameters of an export: position in `argv` and the kind of
resource the callback casts the pointer to. -/
def Op.handles : Op → List (Nat × Kind)
  | Op.freeModel => [(0, Kind.model)]
  | Op.createContext => [(0, Kind.model)]
  | Op.freeContext => [(0, Kind.context)]
  | Op.clearMemory => [(0, Kind.context)]
  | Op.createSampler => [(0, Kind.model)]
  | Op.freeSampler => [(0, Kind.sampler)]
  | Op.tokenize => [(0, Kind.model)]
  | Op.detokenize => [(0, Kind.model)]
  | Op.decode => [(0, Kind.context)]
  | Op.sample => [(0, Kind.context), (1, Kind.sampler)]
  | Op.acceptToken => [(0, Kind.sampler)]
  | Op.isEogToken => [(0, Kind.model)]
  | Op.getEmbeddingDimension => [(0, Kind.model)]
  | Op.getTrainingContextSize => [(0, Kind.model)]
  | Op.getContextSize => [(0, Kind.context)]
  | Op.getEmbeddings => [(0, Kind.context)]

/-- The number of arguments a callback insists on (`if (argc < n) return
throw_error(...)`) before it looks at a handle; `0` when it has no such test. -/
def Op.required : Op → Nat
  | Op.createContext => 1
  | Op.createSampler => 1
  | Op.tokenize => 2
  | Op.detokenize => 2
  | Op.decode => 2
  | Op.sample => 3
  | Op.getEmbeddings => 2
  | _ => 0

/-- The message thrown for an unusable handle of the given kind. -/
def invalid_handle : Kind → String
  | Kind.model => "Invalid model"
  | Kind.context => "Invalid context"
  | Kind.sampler => "Invalid sampler"

/-- The type tag of a kind in binding.c. -/
def type_tag : Kind → js_type_tag_t
  | Kind.model => llama_model_type_tag
  | Kind.context => llama_context_type_tag
  | Kind.sampler => llama_sampler_type_tag

/-- The export table of binding.cpp, restricted to the exports that take a handle. -/
def Cpp.addon_exports : Op → Callback
  | Op.freeModel => Cpp.fn_free_model
  | Op.createContext => Cpp.fn_create_context
  | Op.freeContext => Cpp.fn_free_context
  | Op.clearMemory => Cpp.fn_clear_memory
  | Op.createSampler => Cpp.fn_create_sampler
  | Op.freeSampler => Cpp.fn_free_sampler
  | Op.tokenize => Cpp.fn_tokenize
  | Op.detokenize => Cpp.fn_detokenize
  | Op.decode => Cpp.fn_decode
  | Op.sample => Cpp.fn_sample
  | Op.acceptToken => Cpp.fn_accept_token
  | Op.isEogToken => Cpp.fn_is_eog_token
  | Op.getEmbeddingDimension => Cpp.fn_get_embedding_dimension
  | Op.getTrainingContextSize => Cpp.fn_get_training_context_size
  | Op.getContextSize => Cpp.fn_get_context_size
  | Op.getEmbeddings => Cpp.fn_get_embeddings

/-- The export table of binding.c, restricted to the exports that take a
handle; in binding.c `createSampler(params?)` takes none and five exports of
binding.cpp do not exist. -/
def C.addon_exports : Op → Option Callback
  | Op.freeModel => some C.fn_free_model
  | Op.createContext => some C.fn_create_context
  | Op.freeContext => some C.fn_free_context
  | Op.freeSampler => some C.fn_free_sampler
  | Op.tokenize => some C.fn_tokenize
  | Op.detokenize => some C.fn_detokenize
  | Op.decode => some C.fn_decode
  | Op.sample => some C.fn_sample
  | Op.acceptToken => some C.fn_accept_token
  | Op.isEogToken => some C.fn_is_eog_token
  | _ => none

/-! ## Observations on a run -/

/-- The engine calls a callback made: the trace beyond its length before. -/
def new_calls (w : World) (r : Outcome × World) : List NativeCall :=
  r.2.trace.drop w.trace.length

/-- The stages put on sampler chains by a sequence of engine calls, in order. -/
def added_stages : List NativeCall → List Stage
  | [] => []
  | NativeCall.llama_sampler_chain_add _ s :: t => s :: added_stages t
  | _ :: t => added_stages t

/-- The chain `createSampler` of binding.cpp builds in one invocation. -/
def Cpp.chain (env : Env) (w : World) (args : List JsValue) : List Stage :=
  added_stages (new_calls w (Cpp.fn_create_sampler env w args))

/-- The chain `createSampler` of binding.c builds in one invocation. -/
def C.chain (env : Env) (w : World) (args : List JsValue) : List Stage :=
  added_stages (new_calls w (C.fn_create_sampler env w args))

/-- Whether a stage is a grammar (llguidance) stage. -/
def Stage.is_grammar : Stage → Bool
  | Stage.llg _ _ => true
  | _ => false

/-- How often a pointer was handed to the free routine of its kind. -/
def times_freed (k : Kind) (p : Ptr) (t : List NativeCall) : Nat :=
  match k with
  | Kind.model => t.count (NativeCall.llama_model_free p)
  | Kind.context => t.count (NativeCall.llama_free p)
  | Kind.sampler => t.count (NativeCall.llama_sampler_free p)

/-! ## A concrete run -/

/-- An environment in which every allocation and every runtime call
succeeds; the engine hands out the pointers `0x1000` (model), `0x2000`
(context), `0x3000` (sampler chain) and tokenizes into `[1, 15043, 3186]`. -/
def Env.nominal : Env where
  malloc := fun _ => true
  realloc := fun _ => true
  js_create_external := true
  js_add_type_tag := true
  js_create_arraybuffer := true
  js_create_typedarray := true
  js_create_string_utf8 := true
  js_create_int32 := true
  js_create_uint32 := true
  uninit_int32 := 0
  llama_model_load_from_file := 0x1000
  llama_init_from_model := 0x2000
  llama_get_memory := 0x2800
  llama_model_get_vocab := fun m => m + 8
  llama_sampler_chain_init := 0x3000
  llama_sampler_init_llg := true
  llama_tokenize_first := ⟨3, fun i => [1, 15043, 3186].getD i 0⟩
  llama_tokenize_retry := ⟨3, fun i => [1, 15043, 3186].getD i 0⟩
  llama_token_to_piece := fun _ => ⟨2, fun i => [104, 105].getD i 0⟩
  llama_decode := 0
  llama_sampler_sample := 15043
  llama_vocab_is_eog := false
  llama_model_n_embd := 4
  llama_model_n_ctx_train := 2048
  llama_n_ctx := 512
  llama_get_embeddings_seq := none
  llama_get_embeddings_ith := none
  llama_get_model := 0x1000

/-- The world before any call. -/
def World.initial : World := ⟨[], []⟩

/-- The bytes of the path "m.gguf". -/
def model_path : List Nat := [109, 46, 103, 103, 117, 102]

/-- The world of binding.cpp after `loadModel`, `createContext` and
`createSampler`: handles `0` (model), `1` (context), `2` (sampler). -/
def Cpp.loaded : World :=
  let w := (Cpp.fn_load_model Env.nominal World.initial [JsValue.string model_path]).2
  let w := (Cpp.fn_create_context Env.nominal w [JsValue.external 0]).2
  (Cpp.fn_create_sampler Env.nominal w [JsValue.external 0]).2

/-- The world of binding.c after `loadModel`, `createContext` and
`createSampler`: handles `0` (model), `1` (context), `2` (sampler). -/
def C.loaded : World :=
  let w := (C.fn_load_model Env.nominal World.initial [JsValue.string model_path]).2
  let w := (C.fn_create_context Env.nominal w [JsValue.external 0]).2
  (C.fn_create_sampler Env.nominal w []).2

/-- The engine calls made by the second of two identical invocations of a
callback, in the environment `Env.nominal`. -/
def second_call (f : Callback) (w : World) (args : List JsValue) : List NativeCall :=
  new_calls (f Env.nominal w args).2 (f Env.nominal (f Env.nominal w args).2 args)

/-- The engine calls made when the external behind handle `id` is collected
after the callback `f` has run on it. -/
def collect_after (f : Callback) (w : World) (id : Nat) : List NativeCall :=
  (collect (f Env.nominal w [JsValue.external id]).2 id).trace.drop
    (f Env.nominal w [JsValue.external id]).2.trace.length

/-- The literal `0.8f`. -/
def F32.c0_8 : F32 := ⟨0x3F4CCCCD⟩

/-- The literal `-1.0f`. -/
def F32.minus_one : F32 := ⟨0xBF800000⟩

/-- The options `{ json: "{}" }`. -/
def opts_json : JsObject := { JsObject.empty with json := some [123, 125] }

/-- The options `{ temp: t }`. -/
def opts_only_temp (t : F32) : JsObject := { JsObject.empty with temp := some t }

/-- The options `{ temp: 0.8 }`. -/
def opts_temp : JsObject := opts_only_temp F32.c0_8

/-- The options `{ temp: -1, topK: 5, topP: 0.8 }`. -/
def opts_cold : JsObject :=
  { JsObject.empty with temp := some F32.minus_one, topK := some 5, topP := some F32.c0_8 }

/-- The world of binding.cpp after `freeModel` on the model handle `0`. -/
def Cpp.model_freed : World :=
  (Cpp.fn_free_model Env.nominal Cpp.loaded [JsValue.external 0]).2

/-- The world of binding.c after `freeModel` on the model handle `0`. -/
def C.model_freed : World :=
  (C.fn_free_model Env.nominal C.loaded [JsValue.external 0]).2

/-- Two worlds with the same engine calls so far and the same pointers behind
the same handles; the kinds and tags of the externals may differ. -/
def same_pointers (w v : World) : Prop :=
  w.trace = v.trace ∧ w.externals.map External.data = v.externals.map External.data

/-- Whether the value is an external that wraps a non-null pointer: the test
`err < 0 || !ptr` of the callbacks passes. -/
def usable_pointer (w : World) (v : JsValue) : Bool :=
  match js_get_value_external w v with
  | none => false
  | some p => decide (p ≠ 0)

/-- The exports that release a resource; on an unusable handle they return
`NULL` instead of throwing. -/
def Op.frees : Op → Bool
  | Op.freeModel => true
  | Op.freeContext => true
  | Op.freeSampler => true
  | _ => false

/-- The outcome with which an export of binding.cpp turns a handle down:
an "Invalid ..." error for one of its handle kinds, or the plain `NULL` of
the exports that free. -/
def Cpp.rejected (op : Op) (o : Outcome) : Prop :=
  if op.frees then o = Outcome.null_return
  else ∃ k, k ∈ op.handles.map Prod.snd ∧ o = throw_error (invalid_handle k)

/-- An environment like `Env.nominal` in which the first tokenizer call asks
for five slots (returns `-5`) and the retry fills them. -/
def Env.retry_succeeds : Env :=
  { Env.nominal with
    llama_tokenize_first := ⟨-5, fun _ => 0⟩
    llama_tokenize_retry := ⟨5, fun i => [1, 10, 20, 30, 40].getD i 0⟩ }

/-! ### Detokenization, decoding, embeddings and the log -/

/-- The bytes the engine renders for a token: the first `n` bytes of `piece`
when `llama_token_to_piece` returns `n > 0`, none otherwise. -/
def rendered (env : Env) (token : Int) : List Nat :=
  let r := env.llama_token_to_piece token
  if 0 < r.n then (List.range (to_size_t r.n)).map r.piece else []

/-- The output buffer at the end of the loop of `fn_detokenize` on a model
pointer and a token array; `none` after a failed `realloc`. -/
def detokenize_buffer (env : Env) (w : World) (model : Ptr) (tokens : List Int) :
    Option OutBuf :=
  (detokenize_loop env (env.llama_model_get_vocab model) tokens
    (w.call (NativeCall.llama_model_get_vocab model))
    ⟨size_mul tokens.length 16, 0, [], false⟩).2

/-- Whether some `memcpy` of that loop wrote past the capacity the buffer had
at that moment. -/
def overruns (env : Env) (w : World) (model : Ptr) (tokens : List Int) : Bool :=
  match detokenize_buffer env w model tokens with
  | some b => b.overrun
  | none => false

/-- Whether `llama_decode` is among the calls. -/
def engine_decodes (calls : List NativeCall) : Bool :=
  calls.any (fun c => match c with
    | NativeCall.llama_decode _ _ _ => true
    | _ => false)

/-- The logging state after a sequence of `setLogLevel` calls, each given by
its arguments. -/
def set_log_levels (s : LogState) : List (List JsValue) → LogState
  | [] => s
  | args :: rest => set_log_levels (Cpp.fn_set_log_level s args).2 rest

/-- An environment like `Env.nominal` in which every token renders as 33
bytes. -/
def Env.long_piece : Env :=
  { Env.nominal with llama_token_to_piece := fun _ => ⟨33, fun _ => 97⟩ }

/-- An environment like `Env.nominal` in which the engine rejects the batch. -/
def Env.decode_fails : Env := { Env.nominal with llama_decode := 1 }

/-- The floats `1.0f, 2.0f, 3.0f, 4.0f`, then `0.0f`, by index. -/
def floats_1234 (i : Nat) : F32 :=
  [⟨0x3F800000⟩, ⟨0x40000000⟩, ⟨0x40400000⟩, ⟨0x40800000⟩].getD i F32.zero

/-- An environment like `Env.nominal` in which the engine has a pooled
embedding for the sequence. -/
def Env.pooled : Env := { Env.nominal with llama_get_embeddings_seq := some floats_1234 }

/-- An environment like `Env.nominal` in which the engine has no pooled
embedding but one for the token. -/
def Env.per_token : Env := { Env.nominal with llama_get_embeddings_ith := some floats_1234 }

/-- An environment like `Env.pooled` in which `js_create_arraybuffer` fails. -/
def Env.no_arraybuffer : Env := { Env.pooled with js_create_arraybuffer := false }

/-- The text "load\n". -/
def text_load : List Nat := [108, 111, 97, 100, 10]

/-- The text "llg error: eos\n". -/
def text_llg : List Nat := llg_error ++ [32, 101, 111, 115, 10]

/-! ### Buffer capacities, grammar handling, the two variants side by side -/

/-- The capacities (`n_tokens_max`) handed to `llama_tokenize`, call by call. -/
def tokenizer_capacities : List NativeCall → List Int
  | [] => []
  | NativeCall.llama_tokenize _ _ _ n_tokens_max _ _ :: t => n_tokens_max :: tokenizer_capacities t
  | _ :: t => tokenizer_capacities t

/-- The grammars handed to `llama_sampler_init_llg`, call by call: the format
and the grammar string. -/
def grammar_calls : List NativeCall → List (String × List Nat)
  | [] => []
  | NativeCall.llama_sampler_init_llg _ kind data :: t => (kind, data) :: grammar_calls t
  | _ :: t => grammar_calls t

/-- The same options without a grammar: neither `json` nor `lark`. -/
def JsObject.without_grammar (o : JsObject) : JsObject :=
  { o with json := none, lark := none }

/-- The exports that exist in both variants and work on tokens. -/
def Op.on_tokens : Op → Bool
  | Op.tokenize => true
  | Op.detokenize => true
  | Op.decode => true
  | Op.sample => true
  | Op.acceptToken => true
  | Op.isEogToken => true
  | _ => false

/-- Whether every external passed where the export expects a handle carries
the type tag of the expected kind. -/
def correctly_tagged (op : Op) (w : World) (args : List JsValue) : Bool :=
  op.handles.all (fun h =>
    match argv args h.1 with
    | JsValue.external id =>
      match w.externals.get? id with
      | some e => decide (e.tag = some (type_tag h.2))
      | none => true
    | _ => true)

/-- An environment like `Env.nominal` in which the first tokenizer call
reports `INT32_MIN`. -/
def Env.asks_int32_min : Env :=
  { Env.nominal with llama_tokenize_first := ⟨-2147483648, fun _ => 0⟩ }

/-- An environment like `Env.nominal` in which the engine constructs no
grammar stage. -/
def Env.no_grammar_stage : Env := { Env.nominal with llama_sampler_init_llg := false }

/-- An environment like `Env.no_grammar_stage` in which `js_create_external`
fails as well. -/
def Env.no_wrapper : Env := { Env.no_grammar_stage with js_create_external := false }

/-- An environment like `Env.nominal` in which `malloc(3)` fails: the copy of
a two-byte string property cannot be allocated. -/
def Env.no_three_bytes : Env := { Env.nominal with malloc := fun size => decide (size ≠ 3) }

/-- The bytes of the lark grammar `start: "a"`. -/
def lark_a : List Nat := [115, 116, 97, 114, 116, 58, 32, 34, 97, 34]

/-- The options `{ json: "{}", lark: 'start: "a"' }`. -/
def opts_json_lark : JsObject :=
  { JsObject.empty with json := some [123, 125], lark := some lark_a }

/-- The message an export throws when it is called with fewer arguments than
it insists on (`if (argc < n) return throw_error(env, "...")`); the empty
string for the exports without such a test. -/
def Op.missing_arguments : Op → String
  | Op.createContext => "Model required"
  | Op.createSampler => "Model required"
  | Op.tokenize => "Model and text required"
  | Op.detokenize => "Model and tokens required"
  | Op.decode => "Context and tokens required"
  | Op.sample => "Context, sampler, and index required"
  | Op.getEmbeddings => "Context and index required"
  | _ => ""

/-- The parameters of the first `llama_init_from_model` among the calls. -/
def context_created_with : List NativeCall → Option llama_context_params
  | [] => none
  | NativeCall.llama_init_from_model _ params :: _ => some params
  | _ :: t => context_created_with t

/-- Modelled from the spec: the engine has an embedding, pooled or per token,
only for a context that was configured with embeddings enabled at creation
("Fails with EmbeddingsUnavailable if the Context was not configured with
embeddings enabled at creation").  This is the environment of a call on a
context that was created with `params`: the replies of `env` when
`params.embeddings` is `true`; otherwise `llama_get_embeddings_seq` and
`llama_get_embeddings_ith` both return `NULL`. -/
def Env.for_context (env : Env) (params : llama_context_params) : Env :=
  if params.embeddings = some true then env
  else { env with llama_get_embeddings_seq := none, llama_get_embeddings_ith := none }

/-- The options `{ embeddings: false }`. -/
def opts_no_embeddings : JsObject := { JsObject.empty with embeddings := some false }

/-- The options `{ embeddings: true }`. -/
def opts_embeddings : JsObject := { JsObject.empty with embeddings := some true }

/-- The world `Cpp.loaded` after a further
`createContext(model, { embeddings: true })`, which returns the handle `3`. -/
def Cpp.with_embeddings : World :=
  (Cpp.fn_create_context Env.nominal Cpp.loaded
    [JsValue.external 0, JsValue.object opts_embeddings]).2

/-- The world `C.loaded` as binding.cpp would have made it: the same pointers
behind the same handles, without type tags. -/
def C.untagged : World :=
  ⟨C.loaded.externals.map (fun e => { e with tag := none }), C.loaded.trace⟩

/-! ## Basic facts -/

theorem call_trace (w : World) (c : NativeCall) : (w.call c).trace = w.trace ++ [c] := rfl

theorem call_externals (w : World) (c : NativeCall) : (w.call c).externals = w.externals := rfl

theorem create_external_trace (w : World) (p : Ptr) (k : Kind) (t : Option js_type_tag_t) :
    (w.create_external p k t).2.trace = w.trace := rfl

theorem added_stages_append (a b : List NativeCall) :
    added_stages (a ++ b) = added_stages a ++ added_stages b := by
  induction a with
  | nil => rfl
  | cons c t ih => cases c <;> simp [added_stages, ih]

theorem le_zero_not_gt_zero (x : F32) (h : x.le_zero = true) : x.gt_zero = false := by
  simp only [F32.le_zero, F32.gt_zero, decide_eq_true_eq, decide_eq_false_iff_not] at *
  omega

theorem js_get_value_external_handle (w : World) (id : Nat) (e : External)
    (args : List JsValue) (h : w.externals.get? id = some e) :
    js_get_value_external w (argv (JsValue.external id :: args) 0) = some e.data := by
  show Option.map External.data (w.externals.get? id) = some e.data
  rw [h]
  rfl

/-! ## Resource lifecycle: explicit free, finalizers, use after free -/

/-- C1 (the code misses it): in both variants a second `freeModel`,
`freeContext` or `freeSampler` on an already freed handle is not a no-op: it
hands the same pointer to the native free routine once more. -/
theorem second_free_calls_native_free_again :
    second_call Cpp.fn_free_model Cpp.loaded [JsValue.external 0]
        = [NativeCall.llama_model_free 0x1000]
    ∧ second_call Cpp.fn_free_context Cpp.loaded [JsValue.external 1]
        = [NativeCall.llama_free 0x2000]
    ∧ second_call Cpp.fn_free_sampler Cpp.loaded [JsValue.external 2]
        = [NativeCall.llama_sampler_free 0x3000]
    ∧ second_call C.fn_free_model C.loaded [JsValue.external 0]
        = [NativeCall.llama_model_free 0x1000]
    ∧ second_call C.fn_free_context C.loaded [JsValue.external 1]
        = [NativeCall.llama_free 0x2000]
    ∧ second_call C.fn_free_sampler C.loaded [JsValue.external 2]
        = [NativeCall.llama_sampler_free 0x3000]
    ∧ times_freed Kind.model 0x1000
        (Cpp.fn_free_model Env.nominal
          (Cpp.fn_free_model Env.nominal Cpp.loaded [JsValue.external 0]).2
          [JsValue.external 0]).2.trace = 2 := by
  decide

/-- C2 (the code misses it): after an explicit free the finalizer of the
handle still receives the original pointer and frees it a second time, for
each of the three kinds of handle. -/
theorem finalizer_after_free_frees_again :
    collect_after Cpp.fn_free_model Cpp.loaded 0 = [NativeCall.llama_model_free 0x1000]
    ∧ collect_after Cpp.fn_free_context Cpp.loaded 1 = [NativeCall.llama_free 0x2000]
    ∧ collect_after Cpp.fn_free_sampler Cpp.loaded 2 = [NativeCall.llama_sampler_free 0x3000]
    ∧ collect_after C.fn_free_model C.loaded 0 = [NativeCall.llama_model_free 0x1000]
    ∧ times_freed Kind.model 0x1000
        (collect (Cpp.fn_free_model Env.nominal Cpp.loaded [JsValue.external 0]).2 0).trace = 2
    ∧ (Cpp.fn_free_model Env.nominal Cpp.loaded [JsValue.external 0]).2.externals
        = Cpp.loaded.externals := by
  decide

/-- C9 (the code misses it): after `freeModel(h)` the external still wraps
the freed pointer, so `createContext(h)` raises no error: it hands the freed
pointer `0x1000` to `llama_init_from_model` and returns a Context handle, in
both variants. -/
theorem create_context_after_free_uses_freed_model :
    NativeCall.llama_model_free 0x1000 ∈ Cpp.model_freed.trace
    ∧ Cpp.fn_create_context Env.nominal Cpp.model_freed [JsValue.external 0]
      = (Outcome.value (JsValue.external 3),
          ⟨Cpp.model_freed.externals ++ [⟨0x2000, Kind.context, none⟩],
           Cpp.model_freed.trace ++
            [NativeCall.llama_init_from_model 0x1000 ⟨none, none, none, none⟩]⟩)
    ∧ NativeCall.llama_model_free 0x1000 ∈ C.model_freed.trace
    ∧ C.fn_create_context Env.nominal C.model_freed [JsValue.external 0]
      = (Outcome.value (JsValue.external 3),
          ⟨C.model_freed.externals ++ [⟨0x2000, Kind.context, some llama_context_type_tag⟩],
           C.model_freed.trace ++
            [NativeCall.llama_init_from_model 0x1000 ⟨none, none, none, none⟩]⟩) := by
  decide

/-! ## The sampler chain -/

/-- The engine calls of the block that builds the chain in binding.cpp. -/
theorem Cpp.build_chain_trace (w : World) (s : Ptr) (t : F32) (k : Int) (p : F32) :
    (Cpp.build_chain w s t k p).trace = w.trace ++
      (if t.gt_zero then
        [NativeCall.llama_sampler_chain_add s (Stage.top_k k),
         NativeCall.llama_sampler_chain_add s (Stage.top_p p 1),
         NativeCall.llama_sampler_chain_add s (Stage.temp t),
         NativeCall.llama_sampler_chain_add s (Stage.dist 0)]
      else [NativeCall.llama_sampler_chain_add s Stage.greedy]) := by
  unfold Cpp.build_chain
  split <;> simp [call_trace]

/-- The engine calls of the block that builds the chain in binding.c. -/
theorem C.build_chain_calls (w : World) (s : Ptr) (t : F32) (k : Int) (p : F32) :
    (C.build_chain w s t k p).trace = w.trace ++
      (if t.gt_zero then
        [NativeCall.llama_sampler_chain_add s (Stage.top_k k),
         NativeCall.llama_sampler_chain_add s (Stage.top_p p 1),
         NativeCall.llama_sampler_chain_add s (Stage.temp t),
         NativeCall.llama_sampler_chain_add s (Stage.dist 0)]
      else [NativeCall.llama_sampler_chain_add s Stage.greedy]) := by
  unfold C.build_chain
  split <;> simp [call_trace]

/-- The grammar block adds at most one stage, a grammar stage, and none when
neither grammar string was read. -/
theorem Cpp.add_grammar_trace (env : Env) (w : World) (v s : Ptr) (j l : Option (List Nat)) :
    ∃ g, (Cpp.add_grammar env w v s j l).trace = w.trace ++ g ∧
      (added_stages g = [] ∨ ∃ kind data, added_stages g = [Stage.llg kind data]) ∧
      (j = none → l = none → added_stages g = []) := by
  unfold Cpp.add_grammar
  cases j with
  | some g =>
    cases h : env.llama_sampler_init_llg
    · exact ⟨[NativeCall.llama_sampler_init_llg v "json" g], by simp [call_trace, h],
        by simp [added_stages], by simp⟩
    · exact ⟨[NativeCall.llama_sampler_init_llg v "json" g,
        NativeCall.llama_sampler_chain_add s (Stage.llg "json" g)],
        by simp [call_trace, h], by simp [added_stages], by simp⟩
  | none =>
    cases l with
    | some g =>
      cases h : env.llama_sampler_init_llg
      · exact ⟨[NativeCall.llama_sampler_init_llg v "lark" g], by simp [call_trace, h],
          by simp [added_stages], by simp⟩
      · exact ⟨[NativeCall.llama_sampler_init_llg v "lark" g,
          NativeCall.llama_sampler_chain_add s (Stage.llg "lark" g)],
          by simp [call_trace, h], by simp [added_stages], by simp⟩
    | none => exact ⟨[], by simp, by simp [added_stages], by simp [added_stages]⟩

/-- The chain of binding.cpp when the model handle is usable: an optional
grammar stage, then the stages chosen by the temperature. -/
theorem Cpp.chain_valid (env : Env) (w : World) (args : List JsValue) (m : Ptr)
    (o : Option JsObject) (hlen : 1 ≤ args.length)
    (hm : js_get_value_external w (argv args 0) = some m) (hm0 : m ≠ 0)
    (ho : (if 2 ≤ args.length then js_object (argv args 1) else none) = o) :
    ∃ g, (g = [] ∨ ∃ kind data, g = [Stage.llg kind data]) ∧
      ((o.bind JsObject.json = none ∧ o.bind JsObject.lark = none) → g = []) ∧
      Cpp.chain env w args = g ++
        (if ((o.bind JsObject.temp).getD F32.zero).gt_zero then
          [Stage.top_k ((o.bind JsObject.topK).getD 40),
           Stage.top_p ((o.bind JsObject.topP).getD F32.c0_95) 1,
           Stage.temp ((o.bind JsObject.temp).getD F32.zero),
           Stage.dist 0]
        else [Stage.greedy]) := by
  have hlen' : ¬ args.length < 1 := by omega
  obtain ⟨g, hg, hgs, hnone⟩ := Cpp.add_grammar_trace env
    ((w.call (NativeCall.llama_model_get_vocab m)).call NativeCall.llama_sampler_chain_init)
    (env.llama_model_get_vocab m) env.llama_sampler_chain_init
    (if 2 ≤ args.length then Cpp.get_string_property env (argv args 1) JsObject.json else none)
    (if 2 ≤ args.length then Cpp.get_string_property env (argv args 1) JsObject.lark else none)
  refine ⟨added_stages g, ?_, ?_, ?_⟩
  · rcases hgs with h | ⟨k, d, h⟩
    · exact Or.inl h
    · exact Or.inr ⟨k, d, h⟩
  · rintro ⟨hj, hl⟩
    apply hnone
    · subst ho
      by_cases h2 : 2 ≤ args.length
      · simp only [h2, if_true] at hj ⊢
        unfold Cpp.get_string_property
        cases hobj : js_object (argv args 1) with
        | none => rfl
        | some ob => simp [hobj] at hj; simp [hj]
      · simp [h2]
    · subst ho
      by_cases h2 : 2 ≤ args.length
      · simp only [h2, if_true] at hl ⊢
        unfold Cpp.get_string_property
        cases hobj : js_object (argv args 1) with
        | none => rfl
        | some ob => simp [hobj] at hl; simp [hl]
      · simp [h2]
  · unfold Cpp.chain new_calls Cpp.fn_create_sampler
    simp only [hlen', if_false, hm, hm0, ho]
    cases hx : env.js_create_external <;>
      by_cases ht : ((o.bind JsObject.temp).getD F32.zero).gt_zero = true <;>
      simp [call_trace, create_external_trace, Cpp.build_chain_trace, hg, ht,
        added_stages_append, added_stages, List.drop_append_eq_append_drop]

/-- The chain of binding.cpp in every case: nothing when the call is rejected,
otherwise an optional grammar stage followed by the selection stages. -/
theorem Cpp.chain_cases (env : Env) (w : World) (args : List JsValue) :
    Cpp.chain env w args = [] ∨
    ∃ g t k p, (g = [] ∨ ∃ kind data, g = [Stage.llg kind data]) ∧
      Cpp.chain env w args = g ++
        (if t.gt_zero then [Stage.top_k k, Stage.top_p p 1, Stage.temp t, Stage.dist 0]
         else [Stage.greedy]) := by
  by_cases hlen : args.length < 1
  · left
    simp [Cpp.chain, new_calls, Cpp.fn_create_sampler, hlen, added_stages]
  · cases hm : js_get_value_external w (argv args 0) with
    | none =>
      left
      simp [Cpp.chain, new_calls, Cpp.fn_create_sampler, hlen, hm, added_stages]
    | some m =>
      by_cases hm0 : m = 0
      · left
        simp [Cpp.chain, new_calls, Cpp.fn_create_sampler, hlen, hm, hm0, added_stages]
      · right
        obtain ⟨g, hg, _, hc⟩ := Cpp.chain_valid env w args m _ (by omega) hm hm0 rfl
        exact ⟨g, _, _, _, hg, hc⟩

/-- The chain of binding.c: the selection stages chosen by the temperature. -/
theorem C.chain_eq (env : Env) (w : World) (args : List JsValue) (o : Option JsObject)
    (ho : (if 1 ≤ args.length then js_object (argv args 0) else none) = o) :
    C.chain env w args =
      if ((o.bind JsObject.temp).getD F32.zero).gt_zero then
        [Stage.top_k ((o.bind JsObject.topK).getD 40),
         Stage.top_p ((o.bind JsObject.topP).getD F32.c0_95) 1,
         Stage.temp ((o.bind JsObject.temp).getD F32.zero),
         Stage.dist 0]
      else [Stage.greedy] := by
  unfold C.chain new_calls C.fn_create_sampler
  simp only [ho]
  cases hx : env.js_create_external <;> cases hy : env.js_add_type_tag <;>
    by_cases ht : ((o.bind JsObject.temp).getD F32.zero).gt_zero = true <;>
    simp [call_trace, create_external_trace, C.build_chain_calls, ht, World.create_external,
      added_stages_append, added_stages, List.drop_append_eq_append_drop]

/-- The chain of binding.cpp when a grammar string is read and the engine
builds its stage: that stage, then the selection stages. -/
theorem Cpp.chain_with_grammar (env : Env) (w : World) (id : Nat) (e : External)
    (o : JsObject) (rest : List JsValue) (kind : String) (g : List Nat)
    (hid : w.externals.get? id = some e) (hdata : e.data ≠ 0)
    (hg : (o.json = some g ∧ kind = "json") ∨
      (o.json = none ∧ o.lark = some g ∧ kind = "lark"))
    (hcopy : env.malloc (size_add g.length 1) = true)
    (hllg : env.llama_sampler_init_llg = true) :
    Cpp.chain env w (JsValue.external id :: JsValue.object o :: rest) =
      Stage.llg kind g ::
        (if (o.temp.getD F32.zero).gt_zero then
          [Stage.top_k (o.topK.getD 40), Stage.top_p (o.topP.getD F32.c0_95) 1,
           Stage.temp (o.temp.getD F32.zero), Stage.dist 0]
        else [Stage.greedy]) := by
  have hx := js_get_value_external_handle w id e (JsValue.object o :: rest) hid
  unfold Cpp.chain new_calls Cpp.fn_create_sampler
  simp only [hx, hdata]
  rcases hg with ⟨hj, rfl⟩ | ⟨hj, hl, rfl⟩
  · cases hc : env.js_create_external <;>
      by_cases ht : (o.temp.getD F32.zero).gt_zero = true <;>
      simp [argv, js_object, Cpp.get_string_property, Cpp.add_grammar, hj, hcopy, hllg,
        call_trace, create_external_trace, Cpp.build_chain_trace, ht, added_stages_append,
        added_stages, List.drop_append_eq_append_drop]
  · cases hc : env.js_create_external <;>
      by_cases ht : (o.temp.getD F32.zero).gt_zero = true <;>
      simp [argv, js_object, Cpp.get_string_property, Cpp.add_grammar, hj, hl, hcopy, hllg,
        call_trace, create_external_trace, Cpp.build_chain_trace, ht, added_stages_append,
        added_stages, List.drop_append_eq_append_drop]

/-- C3: in `createSampler` of binding.cpp, when a grammar is supplied (`json`,
or `lark` without `json`) and the engine constructs its stage, the chain is
that grammar stage followed by the selection stages; and in every chain a
grammar stage is the first stage, with top-k, top-p, temperature, draw or
greedy after it. -/
theorem grammar_stage_is_first (env : Env) (w : World) :
    (∀ (id : Nat) (e : External) (o : JsObject) (rest : List JsValue) (kind : String)
        (g : List Nat), w.externals.get? id = some e → e.data ≠ 0 →
        ((o.json = some g ∧ kind = "json") ∨
          (o.json = none ∧ o.lark = some g ∧ kind = "lark")) →
        env.malloc (size_add g.length 1) = true → env.llama_sampler_init_llg = true →
        ∃ sel, Cpp.chain env w (JsValue.external id :: JsValue.object o :: rest)
            = Stage.llg kind g :: sel ∧
          sel ≠ [] ∧ ∀ s ∈ sel, s.is_grammar = false)
    ∧ (∀ (args : List JsValue) (kind : String) (data : List Nat),
        Stage.llg kind data ∈ Cpp.chain env w args →
        ∃ sel, Cpp.chain env w args = Stage.llg kind data :: sel ∧
          sel ≠ [] ∧ ∀ s ∈ sel, s.is_grammar = false) := by
  have second : ∀ (args : List JsValue) (kind : String) (data : List Nat),
      Stage.llg kind data ∈ Cpp.chain env w args →
      ∃ sel, Cpp.chain env w args = Stage.llg kind data :: sel ∧
        sel ≠ [] ∧ ∀ s ∈ sel, s.is_grammar = false := by
    intro args kind data h
    rcases Cpp.chain_cases env w args with h0 | ⟨g, t, k, p, hg, hc⟩
    · rw [h0] at h; simp at h
    · rw [hc] at h ⊢
      rcases hg with rfl | ⟨kind', data', rfl⟩
      · exfalso
        split at h <;> simp at h
      · have : kind = kind' ∧ data = data' := by
          split at h <;> simpa using h
        obtain ⟨rfl, rfl⟩ := this
        refine ⟨_, rfl, ?_, ?_⟩
        · split <;> simp
        · intro s hs
          split at hs <;> simp at hs <;> rcases hs with rfl | rfl | rfl | rfl <;> rfl
  refine ⟨?_, second⟩
  intro id e o rest kind g hid hdata hg hcopy hllg
  have hc := Cpp.chain_with_grammar env w id e o rest kind g hid hdata hg hcopy hllg
  exact second _ kind g (by rw [hc]; exact List.mem_cons_self _ _)

/-- Witness of C3: with `{ json: "{}" }` the chain is the grammar stage, then
greedy. -/
theorem grammar_stage_is_first_witness :
    ∃ sel, Cpp.chain Env.nominal Cpp.loaded [JsValue.external 0, JsValue.object opts_json]
        = Stage.llg "json" [123, 125] :: sel ∧
      sel ≠ [] ∧ ∀ s ∈ sel, s.is_grammar = false :=
  (grammar_stage_is_first Env.nominal Cpp.loaded).1 0 ⟨0x1000, Kind.model, none⟩ opts_json []
    "json" [123, 125] (by decide) (by decide) (Or.inl ⟨rfl, rfl⟩) rfl rfl

/-- C4: with a temperature above zero the chain of `createSampler` is, after
the optional grammar stage, exactly top-k, top-p, temperature, draw, in this
order and with the configured values; there is no greedy stage.  binding.c
has no grammar stage. -/
theorem positive_temperature_chain (env : Env) (w wc : World) (id : Nat) (e : External)
    (o : JsObject) (t : F32) (rest : List JsValue)
    (hid : w.externals.get? id = some e) (hdata : e.data ≠ 0)
    (htemp : o.temp = some t) (hpos : t.gt_zero = true) :
    (∃ g, (g = [] ∨ ∃ kind data, g = [Stage.llg kind data]) ∧
      Cpp.chain env w (JsValue.external id :: JsValue.object o :: rest) = g ++
        [Stage.top_k (o.topK.getD 40), Stage.top_p (o.topP.getD F32.c0_95) 1,
         Stage.temp t, Stage.dist 0])
    ∧ C.chain env wc (JsValue.object o :: rest) =
        [Stage.top_k (o.topK.getD 40), Stage.top_p (o.topP.getD F32.c0_95) 1,
         Stage.temp t, Stage.dist 0] := by
  constructor
  · obtain ⟨g, hg, _, hc⟩ := Cpp.chain_valid env w
      (JsValue.external id :: JsValue.object o :: rest) e.data (some o)
      (by simp) (js_get_value_external_handle w id e _ hid) hdata
      (by simp [argv, js_object])
    refine ⟨g, hg, ?_⟩
    rw [hc]
    simp [htemp, hpos]
  · rw [C.chain_eq env wc _ (some o) (by simp [argv, js_object])]
    simp [htemp, hpos]

/-- Witness of C4: `{ temp: 0.8 }`. -/
theorem positive_temperature_chain_witness :
    (∃ g, (g = [] ∨ ∃ kind data, g = [Stage.llg kind data]) ∧
      Cpp.chain Env.nominal Cpp.loaded [JsValue.external 0, JsValue.object opts_temp] = g ++
        [Stage.top_k 40, Stage.top_p F32.c0_95 1, Stage.temp F32.c0_8, Stage.dist 0])
    ∧ C.chain Env.nominal C.loaded [JsValue.object opts_temp] =
        [Stage.top_k 40, Stage.top_p F32.c0_95 1, Stage.temp F32.c0_8, Stage.dist 0] :=
  positive_temperature_chain Env.nominal Cpp.loaded C.loaded 0 ⟨0x1000, Kind.model, none⟩
    opts_temp F32.c0_8 [] (by decide) (by decide) (by decide) (by decide)

/-- C5: with a temperature of zero or below the chain of `createSampler` is,
after the optional grammar stage, the single greedy stage, whatever `topK` and
`topP` are; no top-k, top-p, temperature or draw stage.  binding.c has no
grammar stage. -/
theorem temperature_at_most_zero_chain (env : Env) (w wc : World) (id : Nat) (e : External)
    (o : JsObject) (t : F32) (rest : List JsValue)
    (hid : w.externals.get? id = some e) (hdata : e.data ≠ 0)
    (htemp : o.temp = some t) (hle : t.le_zero = true) :
    (∃ g, (g = [] ∨ ∃ kind data, g = [Stage.llg kind data]) ∧
      Cpp.chain env w (JsValue.external id :: JsValue.object o :: rest) = g ++ [Stage.greedy])
    ∧ C.chain env wc (JsValue.object o :: rest) = [Stage.greedy] := by
  have hneg := le_zero_not_gt_zero t hle
  constructor
  · obtain ⟨g, hg, _, hc⟩ := Cpp.chain_valid env w
      (JsValue.external id :: JsValue.object o :: rest) e.data (some o)
      (by simp) (js_get_value_external_handle w id e _ hid) hdata
      (by simp [argv, js_object])
    refine ⟨g, hg, ?_⟩
    rw [hc]
    simp [htemp, hneg]
  · rw [C.chain_eq env wc _ (some o) (by simp [argv, js_object])]
    simp [htemp, hneg]

/-- Witness of C5: `{ temp: -1, topK: 5, topP: 0.8 }`. -/
theorem temperature_at_most_zero_chain_witness :
    (∃ g, (g = [] ∨ ∃ kind data, g = [Stage.llg kind data]) ∧
      Cpp.chain Env.nominal Cpp.loaded [JsValue.external 0, JsValue.object opts_cold]
        = g ++ [Stage.greedy])
    ∧ C.chain Env.nominal C.loaded [JsValue.object opts_cold] = [Stage.greedy] :=
  temperature_at_most_zero_chain Env.nominal Cpp.loaded C.loaded 0 ⟨0x1000, Kind.model, none⟩
    opts_cold F32.minus_one [] (by decide) (by decide) (by decide) (by decide)

/-- C6: `createSampler` takes temperature 0, topK 40 and topP 0.95 for each
absent option.  Without an options object, with `undefined` or with `{}` the
chain is the single greedy stage; with only a temperature above zero it is
top-k(40), top-p(0.95), temperature, draw; and for any options without a
grammar the chain is the one chosen by the options with every absent one
replaced by its default. -/
theorem sampler_defaults (env : Env) (w wc : World) (id : Nat) (e : External)
    (hid : w.externals.get? id = some e) (hdata : e.data ≠ 0) :
    Cpp.chain env w [JsValue.external id] = [Stage.greedy]
    ∧ Cpp.chain env w [JsValue.external id, JsValue.undefined] = [Stage.greedy]
    ∧ Cpp.chain env w [JsValue.external id, JsValue.object JsObject.empty] = [Stage.greedy]
    ∧ C.chain env wc [] = [Stage.greedy]
    ∧ C.chain env wc [JsValue.undefined] = [Stage.greedy]
    ∧ C.chain env wc [JsValue.object JsObject.empty] = [Stage.greedy]
    ∧ (∀ t : F32, t.gt_zero = true →
        Cpp.chain env w [JsValue.external id, JsValue.object (opts_only_temp t)]
          = [Stage.top_k 40, Stage.top_p F32.c0_95 1, Stage.temp t, Stage.dist 0]
        ∧ C.chain env wc [JsValue.object (opts_only_temp t)]
          = [Stage.top_k 40, Stage.top_p F32.c0_95 1, Stage.temp t, Stage.dist 0])
    ∧ (∀ o : JsObject, o.json = none → o.lark = none →
        Cpp.chain env w [JsValue.external id, JsValue.object o]
          = C.chain env wc [JsValue.object o]
        ∧ C.chain env wc [JsValue.object o]
          = if (o.temp.getD F32.zero).gt_zero then
              [Stage.top_k (o.topK.getD 40), Stage.top_p (o.topP.getD F32.c0_95) 1,
               Stage.temp (o.temp.getD F32.zero), Stage.dist 0]
            else [Stage.greedy]) := by
  have cpp : ∀ (args : List JsValue) (o : Option JsObject),
      (if 2 ≤ (JsValue.external id :: args).length
        then js_object (argv (JsValue.external id :: args) 1) else none) = o →
      o.bind JsObject.json = none → o.bind JsObject.lark = none →
      Cpp.chain env w (JsValue.external id :: args) =
        if ((o.bind JsObject.temp).getD F32.zero).gt_zero then
          [Stage.top_k ((o.bind JsObject.topK).getD 40),
           Stage.top_p ((o.bind JsObject.topP).getD F32.c0_95) 1,
           Stage.temp ((o.bind JsObject.temp).getD F32.zero), Stage.dist 0]
        else [Stage.greedy] := by
    intro args o ho hj hl
    obtain ⟨g, _, hnone, hc⟩ := Cpp.chain_valid env w (JsValue.external id :: args) e.data o
      (by simp) (js_get_value_external_handle w id e _ hid) hdata ho
    rw [hc, hnone ⟨hj, hl⟩, List.nil_append]
  have zero : F32.zero.gt_zero = false := by decide
  refine ⟨?_, ?_, ?_, ?_, ?_, ?_, ?_, ?_⟩
  · rw [cpp [] none (by simp) rfl rfl]; simp [zero]
  · rw [cpp [JsValue.undefined] none (by simp [argv, js_object]) rfl rfl]; simp [zero]
  · rw [cpp [JsValue.object JsObject.empty] (some JsObject.empty) (by simp [argv, js_object])
      rfl rfl]
    simp [zero, JsObject.empty]
  · rw [C.chain_eq env wc [] none (by simp)]; simp [zero]
  · rw [C.chain_eq env wc [JsValue.undefined] none (by simp [argv, js_object])]; simp [zero]
  · rw [C.chain_eq env wc _ (some JsObject.empty) (by simp [argv, js_object])]
    simp [zero, JsObject.empty]
  · intro t ht
    constructor
    · rw [cpp [JsValue.object (opts_only_temp t)] (some (opts_only_temp t))
        (by simp [argv, js_object]) rfl rfl]
      simp [ht, JsObject.empty, opts_only_temp]
    · rw [C.chain_eq env wc _ (some (opts_only_temp t)) (by simp [argv, js_object])]
      simp [ht, JsObject.empty, opts_only_temp]
  · intro o hj hl
    have hc := C.chain_eq env wc [JsValue.object o] (some o) (by simp [argv, js_object])
    have hp := cpp [JsValue.object o] (some o) (by simp [argv, js_object]) hj hl
    simp only [Option.bind_some, Option.some_bind] at hc hp
    constructor
    · rw [hp, hc]
    · rw [hc]

/-- Witness of C6: the loaded model of the concrete run. -/
theorem sampler_defaults_witness :
    Cpp.chain Env.nominal Cpp.loaded [JsValue.external 0] = [Stage.greedy]
    ∧ C.chain Env.nominal C.loaded [] = [Stage.greedy]
    ∧ Cpp.chain Env.nominal Cpp.loaded [JsValue.external 0, JsValue.object opts_temp]
        = [Stage.top_k 40, Stage.top_p F32.c0_95 1, Stage.temp F32.c0_8, Stage.dist 0] :=
  have h := sampler_defaults Env.nominal Cpp.loaded C.loaded 0 ⟨0x1000, Kind.model, none⟩
    (by decide) (by decide)
  ⟨h.1, h.2.2.2.1, (h.2.2.2.2.2.2.1 F32.c0_8 (by decide)).1⟩

/-! ## Handle validation -/

theorem same_pointers_external (w v : World) (h : same_pointers w v) (x : JsValue) :
    js_get_value_external w x = js_get_value_external v x := by
  cases x <;> try rfl
  rename_i id
  have := congrArg (fun l => l.get? id) h.2
  simpa [js_get_value_external, List.getElem?_map] using this

theorem same_pointers_call (w v : World) (h : same_pointers w v) (c : NativeCall) :
    same_pointers (w.call c) (v.call c) := by
  obtain ⟨h1, h2⟩ := h
  exact ⟨by simp [call_trace, h1], by simpa [call_externals] using h2⟩

theorem same_pointers_length (w v : World) (h : same_pointers w v) :
    w.externals.length = v.externals.length := by
  have := congrArg List.length h.2
  simpa using this

theorem same_pointers_create (w v : World) (h : same_pointers w v) (p : Ptr) (k k' : Kind)
    (t t' : Option js_type_tag_t) :
    (w.create_external p k t).1 = (v.create_external p k' t').1 ∧
      same_pointers (w.create_external p k t).2 (v.create_external p k' t').2 := by
  have hl := same_pointers_length w v h
  obtain ⟨h1, h2⟩ := h
  refine ⟨by simp [World.create_external, hl], ?_, ?_⟩
  · simpa [World.create_external] using h1
  · simp [World.create_external, h2]

theorem same_pointers_usable (w v : World) (h : same_pointers w v) (x : JsValue) :
    usable_pointer w x = usable_pointer v x := by
  unfold usable_pointer
  rw [same_pointers_external w v h]

theorem same_pointers_build_chain (w v : World) (h : same_pointers w v) (s : Ptr) (t : F32)
    (k : Int) (p : F32) :
    same_pointers (Cpp.build_chain w s t k p) (Cpp.build_chain v s t k p) := by
  unfold Cpp.build_chain
  split <;> repeat (first | exact h | apply same_pointers_call)

theorem same_pointers_add_grammar (env : Env) (w v : World) (h : same_pointers w v)
    (vocab s : Ptr) (j l : Option (List Nat)) :
    same_pointers (Cpp.add_grammar env w vocab s j l) (Cpp.add_grammar env v vocab s j l) := by
  unfold Cpp.add_grammar
  repeat' split
  all_goals repeat (first | exact h | apply same_pointers_call)

theorem same_pointers_detokenize_loop (env : Env) (vocab : Ptr) (tokens : List Int) :
    ∀ (w v : World) (b : OutBuf), same_pointers w v →
      (detokenize_loop env vocab tokens w b).2 = (detokenize_loop env vocab tokens v b).2 ∧
      same_pointers (detokenize_loop env vocab tokens w b).1
        (detokenize_loop env vocab tokens v b).1 := by
  induction tokens with
  | nil => intro w v b h; exact ⟨rfl, h⟩
  | cons t rest ih =>
    intro w v b h
    have hc := same_pointers_call w v h (NativeCall.llama_token_to_piece vocab t 256 0 true)
    simp only [detokenize_loop]
    repeat' split
    all_goals first
      | exact ⟨rfl, hc⟩
      | exact ih _ _ _ hc

/-! ### binding.cpp, callback by callback

For every callback: with an unusable pointer it stops without an engine call
(`_unusable`), with a usable one it never reports an invalid handle
(`_usable`), and its run is the same in worlds with the same pointers
(`_pointers`). -/

theorem Cpp.fn_free_model_unusable (env : Env) (w : World) (args : List JsValue)
    (h : usable_pointer w (argv args 0) = false) :
    (Cpp.fn_free_model env w args).2 = w ∧
      (0 ≤ args.length → (Cpp.fn_free_model env w args).1 = Outcome.null_return) := by
  unfold Cpp.fn_free_model
  unfold usable_pointer at h
  cases hx : js_get_value_external w (argv args 0) with
  | none =>
    exact ⟨rfl, fun _ => rfl⟩
  | some p =>
    have hp : p = 0 := by simpa [hx] using h
    subst hp
    simp only [if_true]
    exact ⟨trivial, fun _ => trivial⟩

theorem Cpp.fn_create_context_unusable (env : Env) (w : World) (args : List JsValue)
    (h : usable_pointer w (argv args 0) = false) :
    (Cpp.fn_create_context env w args).2 = w ∧
      (1 ≤ args.length → (Cpp.fn_create_context env w args).1 = throw_error "Invalid model") := by
  unfold Cpp.fn_create_context
  unfold usable_pointer at h
  cases hx : js_get_value_external w (argv args 0) with
  | none =>
    dsimp only
    constructor <;> intros <;> split <;> first | rfl | omega
  | some p =>
    have hp : p = 0 := by simpa [hx] using h
    subst hp
    simp only [if_true]
    constructor <;> intros <;> split <;> first | rfl | omega

theorem Cpp.fn_free_context_unusable (env : Env) (w : World) (args : List JsValue)
    (h : usable_pointer w (argv args 0) = false) :
    (Cpp.fn_free_context env w args).2 = w ∧
      (0 ≤ args.length → (Cpp.fn_free_context env w args).1 = Outcome.null_return) := by
  unfold Cpp.fn_free_context
  unfold usable_pointer at h
  cases hx : js_get_value_external w (argv args 0) with
  | none =>
    exact ⟨rfl, fun _ => rfl⟩
  | some p =>
    have hp : p = 0 := by simpa [hx] using h
    subst hp
    simp only [if_true]
    exact ⟨trivial, fun _ => trivial⟩

theorem Cpp.fn_clear_memory_unusable (env : Env) (w : World) (args : List JsValue)
    (h : usable_pointer w (argv args 0) = false) :
    (Cpp.fn_clear_memory env w args).2 = w ∧
      (0 ≤ args.length → (Cpp.fn_clear_memory env w args).1 = throw_error "Invalid context") := by
  unfold Cpp.fn_clear_memory
  unfold usable_pointer at h
  cases hx : js_get_value_external w (argv args 0) with
  | none =>
    exact ⟨rfl, fun _ => rfl⟩
  | some p =>
    have hp : p = 0 := by simpa [hx] using h
    subst hp
    simp only [if_true]
    exact ⟨trivial, fun _ => trivial⟩

theorem Cpp.fn_create_sampler_unusable (env : Env) (w : World) (args : List JsValue)
    (h : usable_pointer w (argv args 0) = false) :
    (Cpp.fn_create_sampler env w args).2 = w ∧
      (1 ≤ args.length → (Cpp.fn_create_sampler env w args).1 = throw_error "Invalid model") := by
  unfold Cpp.fn_create_sampler
  unfold usable_pointer at h
  cases hx : js_get_value_external w (argv args 0) with
  | none =>
    dsimp only
    constructor <;> intros <;> split <;> first | rfl | omega
  | some p =>
    have hp : p = 0 := by simpa [hx] using h
    subst hp
    simp only [if_true]
    constructor <;> intros <;> split <;> first | rfl | omega

theorem Cpp.fn_free_sampler_unusable (env : Env) (w : World) (args : List JsValue)
    (h : usable_pointer w (argv args 0) = false) :
    (Cpp.fn_free_sampler env w args).2 = w ∧
      (0 ≤ args.length → (Cpp.fn_free_sampler env w args).1 = Outcome.null_return) := by
  unfold Cpp.fn_free_sampler
  unfold usable_pointer at h
  cases hx : js_get_value_external w (argv args 0) with
  | none =>
    exact ⟨rfl, fun _ => rfl⟩
  | some p =>
    have hp : p = 0 := by simpa [hx] using h
    subst hp
    simp only [if_true]
    exact ⟨trivial, fun _ => trivial⟩

theorem Cpp.fn_tokenize_unusable (env : Env) (w : World) (args : List JsValue)
    (h : usable_pointer w (argv args 0) = false) :
    (Cpp.fn_tokenize env w args).2 = w ∧
      (2 ≤ args.length → (Cpp.fn_tokenize env w args).1 = throw_error "Invalid model") := by
  unfold Cpp.fn_tokenize
  unfold usable_pointer at h
  cases hx : js_get_value_external w (argv args 0) with
  | none =>
    dsimp only
    constructor <;> intros <;> split <;> first | rfl | omega
  | some p =>
    have hp : p = 0 := by simpa [hx] using h
    subst hp
    simp only [if_true]
    constructor <;> intros <;> split <;> first | rfl | omega

theorem Cpp.fn_detokenize_unusable (env : Env) (w : World) (args : List JsValue)
    (h : usable_pointer w (argv args 0) = false) :
    (Cpp.fn_detokenize env w args).2 = w ∧
      (2 ≤ args.length → (Cpp.fn_detokenize env w args).1 = throw_error "Invalid model") := by
  unfold Cpp.fn_detokenize
  unfold usable_pointer at h
  cases hx : js_get_value_external w (argv args 0) with
  | none =>
    dsimp only
    constructor <;> intros <;> split <;> first | rfl | omega
  | some p =>
    have hp : p = 0 := by simpa [hx] using h
    subst hp
    simp only [if_true]
    constructor <;> intros <;> split <;> first | rfl | omega

theorem Cpp.fn_decode_unusable (env : Env) (w : World) (args : List JsValue)
    (h : usable_pointer w (argv args 0) = false) :
    (Cpp.fn_decode env w args).2 = w ∧
      (2 ≤ args.length → (Cpp.fn_decode env w args).1 = throw_error "Invalid context") := by
  unfold Cpp.fn_decode
  unfold usable_pointer at h
  cases hx : js_get_value_external w (argv args 0) with
  | none =>
    dsimp only
    constructor <;> intros <;> split <;> first | rfl | omega
  | some p =>
    have hp : p = 0 := by simpa [hx] using h
    subst hp
    simp only [if_true]
    constructor <;> intros <;> split <;> first | rfl | omega

theorem Cpp.fn_accept_token_unusable (env : Env) (w : World) (args : List JsValue)
    (h : usable_pointer w (argv args 0) = false) :
    (Cpp.fn_accept_token env w args).2 = w ∧
      (0 ≤ args.length → (Cpp.fn_accept_token env w args).1 = throw_error "Invalid sampler") := by
  unfold Cpp.fn_accept_token
  unfold usable_pointer at h
  cases hx : js_get_value_external w (argv args 0) with
  | none =>
    exact ⟨rfl, fun _ => rfl⟩
  | some p =>
    have hp : p = 0 := by simpa [hx] using h
    subst hp
    simp only [if_true]
    exact ⟨trivial, fun _ => trivial⟩

theorem Cpp.fn_is_eog_token_unusable (env : Env) (w : World) (args : List JsValue)
    (h : usable_pointer w (argv args 0) = false) :
    (Cpp.fn_is_eog_token env w args).2 = w ∧
      (0 ≤ args.length → (Cpp.fn_is_eog_token env w args).1 = throw_error "Invalid model") := by
  unfold Cpp.fn_is_eog_token
  unfold usable_pointer at h
  cases hx : js_get_value_external w (argv args 0) with
  | none =>
    exact ⟨rfl, fun _ => rfl⟩
  | some p =>
    have hp : p = 0 := by simpa [hx] using h
    subst hp
    simp only [if_true]
    exact ⟨trivial, fun _ => trivial⟩

theorem Cpp.fn_get_embedding_dimension_unusable (env : Env) (w : World) (args : List JsValue)
    (h : usable_pointer w (argv args 0) = false) :
    (Cpp.fn_get_embedding_dimension env w args).2 = w ∧
      (0 ≤ args.length → (Cpp.fn_get_embedding_dimension env w args).1 = throw_error "Invalid model") := by
  unfold Cpp.fn_get_embedding_dimension
  unfold usable_pointer at h
  cases hx : js_get_value_external w (argv args 0) with
  | none =>
    exact ⟨rfl, fun _ => rfl⟩
  | some p =>
    have hp : p = 0 := by simpa [hx] using h
    subst hp
    simp only [if_true]
    exact ⟨trivial, fun _ => trivial⟩

theorem Cpp.fn_get_training_context_size_unusable (env : Env) (w : World) (args : List JsValue)
    (h : usable_pointer w (argv args 0) = false) :
    (Cpp.fn_get_training_context_size env w args).2 = w ∧
      (0 ≤ args.length → (Cpp.fn_get_training_context_size env w args).1 = throw_error "Invalid model") := by
  unfold Cpp.fn_get_training_context_size
  unfold usable_pointer at h
  cases hx : js_get_value_external w (argv args 0) with
  | none =>
    exact ⟨rfl, fun _ => rfl⟩
  | some p =>
    have hp : p = 0 := by simpa [hx] using h
    subst hp
    simp only [if_true]
    exact ⟨trivial, fun _ => trivial⟩

theorem Cpp.fn_get_context_size_unusable (env : Env) (w : World) (args : List JsValue)
    (h : usable_pointer w (argv args 0) = false) :
    (Cpp.fn_get_context_size env w args).2 = w ∧
      (0 ≤ args.length → (Cpp.fn_get_context_size env w args).1 = throw_error "Invalid context") := by
  unfold Cpp.fn_get_context_size
  unfold usable_pointer at h
  cases hx : js_get_value_external w (argv args 0) with
  | none =>
    exact ⟨rfl, fun _ => rfl⟩
  | some p =>
    have hp : p = 0 := by simpa [hx] using h
    subst hp
    simp only [if_true]
    exact ⟨trivial, fun _ => trivial⟩

theorem Cpp.fn_get_embeddings_unusable (env : Env) (w : World) (args : List JsValue)
    (h : usable_pointer w (argv args 0) = false) :
    (Cpp.fn_get_embeddings env w args).2 = w ∧
      (2 ≤ args.length → (Cpp.fn_get_embeddings env w args).1 = throw_error "Invalid context") := by
  unfold Cpp.fn_get_embeddings
  unfold usable_pointer at h
  cases hx : js_get_value_external w (argv args 0) with
  | none =>
    dsimp only
    constructor <;> intros <;> split <;> first | rfl | omega
  | some p =>
    have hp : p = 0 := by simpa [hx] using h
    subst hp
    simp only [if_true]
    constructor <;> intros <;> split <;> first | rfl | omega

theorem Cpp.tokenize_buffer_pointers (env : Env) (w v : World) (h : same_pointers w v)
    (vocab : Ptr) (text : List Nat) (add_bos : Bool) :
    (Cpp.tokenize_buffer env w vocab text add_bos).1
        = (Cpp.tokenize_buffer env v vocab text add_bos).1 ∧
      same_pointers (Cpp.tokenize_buffer env w vocab text add_bos).2
        (Cpp.tokenize_buffer env v vocab text add_bos).2 := by
  unfold Cpp.tokenize_buffer
  dsimp only
  repeat' split
  all_goals (refine ⟨rfl, ?_⟩; repeat (first | exact h | apply same_pointers_call))

theorem Cpp.tokenize_buffer_not_invalid (env : Env) (w : World) (vocab : Ptr)
    (text : List Nat) (add_bos : Bool) (k : Kind) :
    (Cpp.tokenize_buffer env w vocab text add_bos).1 ≠ throw_error (invalid_handle k) := by
  unfold Cpp.tokenize_buffer
  dsimp only
  cases k <;> simp only [throw_error, invalid_handle] <;> (repeat' split) <;> simp

theorem Cpp.embeddings_array_pointers (env : Env) (w v : World) (h : same_pointers w v)
    (ctx : Ptr) (e : Nat → F32) :
    (Cpp.embeddings_array env w ctx e).1 = (Cpp.embeddings_array env v ctx e).1 ∧
      same_pointers (Cpp.embeddings_array env w ctx e).2 (Cpp.embeddings_array env v ctx e).2 := by
  unfold Cpp.embeddings_array
  dsimp only
  repeat' split
  all_goals exact ⟨rfl, same_pointers_call _ _ (same_pointers_call _ _ h _) _⟩

theorem Cpp.embeddings_array_not_invalid (env : Env) (w : World) (ctx : Ptr) (e : Nat → F32)
    (k : Kind) : (Cpp.embeddings_array env w ctx e).1 ≠ throw_error (invalid_handle k) := by
  unfold Cpp.embeddings_array
  dsimp only
  cases k <;> simp only [throw_error, invalid_handle] <;> (repeat' split) <;> simp

theorem Cpp.fn_free_model_usable (env : Env) (w : World) (args : List JsValue)
    (h : usable_pointer w (argv args 0) = true) :
    (Cpp.fn_free_model env w args).1 ≠ Outcome.null_return := by
  unfold Cpp.fn_free_model
  unfold usable_pointer at h
  cases hx : js_get_value_external w (argv args 0) with
  | none => simp [hx] at h
  | some p =>
    have hp : p ≠ 0 := by simpa [hx] using h
    simp [hp]

theorem Cpp.fn_free_model_pointers (env : Env) (w v : World) (h : same_pointers w v)
    (args : List JsValue) :
    (Cpp.fn_free_model env w args).1 = (Cpp.fn_free_model env v args).1 ∧
      same_pointers (Cpp.fn_free_model env w args).2 (Cpp.fn_free_model env v args).2 := by
  unfold Cpp.fn_free_model
  simp only [same_pointers_external w v h]
  repeat' split
  all_goals first
    | exact ⟨rfl, h⟩
    | exact ⟨rfl, same_pointers_call _ _ h _⟩

theorem Cpp.fn_create_context_usable (env : Env) (w : World) (args : List JsValue)
    (h : usable_pointer w (argv args 0) = true) (k : Kind) :
    (Cpp.fn_create_context env w args).1 ≠ throw_error (invalid_handle k) := by
  unfold Cpp.fn_create_context
  unfold usable_pointer at h
  cases hx : js_get_value_external w (argv args 0) with
  | none => simp [hx] at h
  | some p =>
    have hp : p ≠ 0 := by simpa [hx] using h
    simp only [hp, if_false]
    cases k <;> simp only [throw_error, invalid_handle] <;> (repeat' split) <;>
      simp [World.create_external]

theorem Cpp.fn_create_context_pointers (env : Env) (w v : World) (h : same_pointers w v)
    (args : List JsValue) :
    (Cpp.fn_create_context env w args).1 = (Cpp.fn_create_context env v args).1 ∧
      same_pointers (Cpp.fn_create_context env w args).2 (Cpp.fn_create_context env v args).2 := by
  unfold Cpp.fn_create_context
  simp only [same_pointers_external w v h]
  repeat' split
  all_goals first
    | exact ⟨rfl, h⟩
    | exact ⟨rfl, same_pointers_call _ _ h _⟩
    | exact ⟨rfl, same_pointers_call _ _ (same_pointers_call _ _ h _) _⟩
    | exact same_pointers_create _ _ (same_pointers_call _ _ h _) _ _ _ _ _

theorem Cpp.fn_free_context_usable (env : Env) (w : World) (args : List JsValue)
    (h : usable_pointer w (argv args 0) = true) :
    (Cpp.fn_free_context env w args).1 ≠ Outcome.null_return := by
  unfold Cpp.fn_free_context
  unfold usable_pointer at h
  cases hx : js_get_value_external w (argv args 0) with
  | none => simp [hx] at h
  | some p =>
    have hp : p ≠ 0 := by simpa [hx] using h
    simp [hp]

theorem Cpp.fn_free_context_pointers (env : Env) (w v : World) (h : same_pointers w v)
    (args : List JsValue) :
    (Cpp.fn_free_context env w args).1 = (Cpp.fn_free_context env v args).1 ∧
      same_pointers (Cpp.fn_free_context env w args).2 (Cpp.fn_free_context env v args).2 := by
  unfold Cpp.fn_free_context
  simp only [same_pointers_external w v h]
  repeat' split
  all_goals first
    | exact ⟨rfl, h⟩
    | exact ⟨rfl, same_pointers_call _ _ h _⟩

theorem Cpp.fn_clear_memory_usable (env : Env) (w : World) (args : List JsValue)
    (h : usable_pointer w (argv args 0) = true) (k : Kind) :
    (Cpp.fn_clear_memory env w args).1 ≠ throw_error (invalid_handle k) := by
  unfold Cpp.fn_clear_memory
  unfold usable_pointer at h
  cases hx : js_get_value_external w (argv args 0) with
  | none => simp [hx] at h
  | some p =>
    have hp : p ≠ 0 := by simpa [hx] using h
    simp only [hp, if_false]
    cases k <;> simp [throw_error, invalid_handle]

theorem Cpp.fn_clear_memory_pointers (env : Env) (w v : World) (h : same_pointers w v)
    (args : List JsValue) :
    (Cpp.fn_clear_memory env w args).1 = (Cpp.fn_clear_memory env v args).1 ∧
      same_pointers (Cpp.fn_clear_memory env w args).2 (Cpp.fn_clear_memory env v args).2 := by
  unfold Cpp.fn_clear_memory
  simp only [same_pointers_external w v h]
  repeat' split
  all_goals first
    | exact ⟨rfl, h⟩
    | exact ⟨rfl, same_pointers_call _ _ h _⟩
    | exact ⟨rfl, same_pointers_call _ _ (same_pointers_call _ _ h _) _⟩

theorem Cpp.fn_create_sampler_usable (env : Env) (w : World) (args : List JsValue)
    (h : usable_pointer w (argv args 0) = true) (k : Kind) :
    (Cpp.fn_create_sampler env w args).1 ≠ throw_error (invalid_handle k) := by
  unfold Cpp.fn_create_sampler
  unfold usable_pointer at h
  cases hx : js_get_value_external w (argv args 0) with
  | none => simp [hx] at h
  | some p =>
    have hp : p ≠ 0 := by simpa [hx] using h
    simp only [hp, if_false]
    cases k <;> simp only [throw_error, invalid_handle] <;> (repeat' split) <;>
      simp [World.create_external]

theorem Cpp.fn_create_sampler_pointers (env : Env) (w v : World) (h : same_pointers w v)
    (args : List JsValue) :
    (Cpp.fn_create_sampler env w args).1 = (Cpp.fn_create_sampler env v args).1 ∧
      same_pointers (Cpp.fn_create_sampler env w args).2 (Cpp.fn_create_sampler env v args).2 := by
  unfold Cpp.fn_create_sampler
  simp only [same_pointers_external w v h]
  repeat' split
  all_goals first
    | exact ⟨rfl, h⟩
    | exact ⟨rfl, same_pointers_call _ _ (same_pointers_build_chain _ _
        (same_pointers_add_grammar _ _ _ (same_pointers_call _ _
          (same_pointers_call _ _ h _) _) _ _ _ _) _ _ _ _) _⟩
    | exact same_pointers_create _ _ (same_pointers_build_chain _ _
        (same_pointers_add_grammar _ _ _ (same_pointers_call _ _
          (same_pointers_call _ _ h _) _) _ _ _ _) _ _ _ _) _ _ _ _ _

theorem Cpp.fn_free_sampler_usable (env : Env) (w : World) (args : List JsValue)
    (h : usable_pointer w (argv args 0) = true) :
    (Cpp.fn_free_sampler env w args).1 ≠ Outcome.null_return := by
  unfold Cpp.fn_free_sampler
  unfold usable_pointer at h
  cases hx : js_get_value_external w (argv args 0) with
  | none => simp [hx] at h
  | some p =>
    have hp : p ≠ 0 := by simpa [hx] using h
    simp [hp]

theorem Cpp.fn_free_sampler_pointers (env : Env) (w v : World) (h : same_pointers w v)
    (args : List JsValue) :
    (Cpp.fn_free_sampler env w args).1 = (Cpp.fn_free_sampler env v args).1 ∧
      same_pointers (Cpp.fn_free_sampler env w args).2 (Cpp.fn_free_sampler env v args).2 := by
  unfold Cpp.fn_free_sampler
  simp only [same_pointers_external w v h]
  repeat' split
  all_goals first
    | exact ⟨rfl, h⟩
    | exact ⟨rfl, same_pointers_call _ _ h _⟩

theorem Cpp.fn_tokenize_usable (env : Env) (w : World) (args : List JsValue)
    (h : usable_pointer w (argv args 0) = true) (k : Kind) :
    (Cpp.fn_tokenize env w args).1 ≠ throw_error (invalid_handle k) := by
  unfold Cpp.fn_tokenize
  unfold usable_pointer at h
  cases hx : js_get_value_external w (argv args 0) with
  | none => simp [hx] at h
  | some p =>
    have hp : p ≠ 0 := by simpa [hx] using h
    simp only [hp, if_false]
    repeat' split
    all_goals first
      | exact Cpp.tokenize_buffer_not_invalid _ _ _ _ _ k
      | (cases k <;> simp [throw_error, invalid_handle])

theorem Cpp.fn_tokenize_pointers (env : Env) (w v : World) (h : same_pointers w v)
    (args : List JsValue) :
    (Cpp.fn_tokenize env w args).1 = (Cpp.fn_tokenize env v args).1 ∧
      same_pointers (Cpp.fn_tokenize env w args).2 (Cpp.fn_tokenize env v args).2 := by
  unfold Cpp.fn_tokenize
  simp only [same_pointers_external w v h]
  repeat' split
  all_goals first
    | exact ⟨rfl, h⟩
    | exact Cpp.tokenize_buffer_pointers _ _ _ (same_pointers_call _ _ h _) _ _ _

theorem Cpp.fn_detokenize_usable (env : Env) (w : World) (args : List JsValue)
    (h : usable_pointer w (argv args 0) = true) (k : Kind) :
    (Cpp.fn_detokenize env w args).1 ≠ throw_error (invalid_handle k) := by
  unfold Cpp.fn_detokenize
  unfold usable_pointer at h
  cases hx : js_get_value_external w (argv args 0) with
  | none => simp [hx] at h
  | some p =>
    have hp : p ≠ 0 := by simpa [hx] using h
    simp only [hp, if_false]
    cases k <;> simp only [throw_error, invalid_handle] <;> (repeat' split) <;>
      simp [World.create_external]

theorem Cpp.fn_detokenize_pointers (env : Env) (w v : World) (h : same_pointers w v)
    (args : List JsValue) :
    (Cpp.fn_detokenize env w args).1 = (Cpp.fn_detokenize env v args).1 ∧
      same_pointers (Cpp.fn_detokenize env w args).2 (Cpp.fn_detokenize env v args).2 := by
  unfold Cpp.fn_detokenize
  simp only [same_pointers_external w v h]
  by_cases ha : args.length < 2
  · simp only [ha, if_true]
    exact ⟨trivial, h⟩
  · simp only [ha, if_false]
    cases hx : js_get_value_external v (argv args 0) with
    | none => exact ⟨rfl, h⟩
    | some model =>
      by_cases hm : model = 0
      · simp only [hm, if_true]
        exact ⟨trivial, h⟩
      · simp only [hm, if_false]
        cases ht : js_int32array (argv args 1) with
        | none => exact ⟨rfl, h⟩
        | some tokens =>
          have hc := same_pointers_call w v h (NativeCall.llama_model_get_vocab model)
          cases hmal : env.malloc (size_mul tokens.length 16) with
          | false =>
            simp only [hmal, Bool.not_false, if_true]
            exact ⟨trivial, hc⟩
          | true =>
            simp only [hmal, Bool.not_true, Bool.false_eq_true, if_false]
            obtain ⟨hb, hw⟩ := same_pointers_detokenize_loop env
              (env.llama_model_get_vocab model) tokens _ _
              ⟨size_mul tokens.length 16, 0, [], false⟩ hc
            rcases hl : detokenize_loop env (env.llama_model_get_vocab model) tokens
              (w.call (NativeCall.llama_model_get_vocab model))
              ⟨size_mul tokens.length 16, 0, [], false⟩ with ⟨w1, b1⟩
            rcases hr : detokenize_loop env (env.llama_model_get_vocab model) tokens
              (v.call (NativeCall.llama_model_get_vocab model))
              ⟨size_mul tokens.length 16, 0, [], false⟩ with ⟨v1, b2⟩
            rw [hl, hr] at hb hw
            simp only at hb hw
            subst hb
            cases b1 with
            | none => exact ⟨rfl, hw⟩
            | some b => dsimp only; split <;> exact ⟨rfl, hw⟩

theorem Cpp.fn_decode_usable (env : Env) (w : World) (args : List JsValue)
    (h : usable_pointer w (argv args 0) = true) (k : Kind) :
    (Cpp.fn_decode env w args).1 ≠ throw_error (invalid_handle k) := by
  unfold Cpp.fn_decode
  unfold usable_pointer at h
  cases hx : js_get_value_external w (argv args 0) with
  | none => simp [hx] at h
  | some p =>
    have hp : p ≠ 0 := by simpa [hx] using h
    simp only [hp, if_false]
    cases k <;> simp only [throw_error, invalid_handle] <;> (repeat' split) <;>
      simp [World.create_external]

theorem Cpp.fn_decode_pointers (env : Env) (w v : World) (h : same_pointers w v)
    (args : List JsValue) :
    (Cpp.fn_decode env w args).1 = (Cpp.fn_decode env v args).1 ∧
      same_pointers (Cpp.fn_decode env w args).2 (Cpp.fn_decode env v args).2 := by
  unfold Cpp.fn_decode
  simp only [same_pointers_external w v h]
  repeat' split
  all_goals first
    | exact ⟨rfl, h⟩
    | exact ⟨rfl, same_pointers_call _ _ h _⟩

theorem Cpp.fn_accept_token_usable (env : Env) (w : World) (args : List JsValue)
    (h : usable_pointer w (argv args 0) = true) (k : Kind) :
    (Cpp.fn_accept_token env w args).1 ≠ throw_error (invalid_handle k) := by
  unfold Cpp.fn_accept_token
  unfold usable_pointer at h
  cases hx : js_get_value_external w (argv args 0) with
  | none => simp [hx] at h
  | some p =>
    have hp : p ≠ 0 := by simpa [hx] using h
    simp only [hp, if_false]
    cases k <;> simp [throw_error, invalid_handle]

theorem Cpp.fn_accept_token_pointers (env : Env) (w v : World) (h : same_pointers w v)
    (args : List JsValue) :
    (Cpp.fn_accept_token env w args).1 = (Cpp.fn_accept_token env v args).1 ∧
      same_pointers (Cpp.fn_accept_token env w args).2 (Cpp.fn_accept_token env v args).2 := by
  unfold Cpp.fn_accept_token
  simp only [same_pointers_external w v h]
  repeat' split
  all_goals first
    | exact ⟨rfl, h⟩
    | exact ⟨rfl, same_pointers_call _ _ h _⟩

theorem Cpp.fn_is_eog_token_usable (env : Env) (w : World) (args : List JsValue)
    (h : usable_pointer w (argv args 0) = true) (k : Kind) :
    (Cpp.fn_is_eog_token env w args).1 ≠ throw_error (invalid_handle k) := by
  unfold Cpp.fn_is_eog_token
  unfold usable_pointer at h
  cases hx : js_get_value_external w (argv args 0) with
  | none => simp [hx] at h
  | some p =>
    have hp : p ≠ 0 := by simpa [hx] using h
    simp only [hp, if_false]
    cases k <;> simp [throw_error, invalid_handle]

theorem Cpp.fn_is_eog_token_pointers (env : Env) (w v : World) (h : same_pointers w v)
    (args : List JsValue) :
    (Cpp.fn_is_eog_token env w args).1 = (Cpp.fn_is_eog_token env v args).1 ∧
      same_pointers (Cpp.fn_is_eog_token env w args).2 (Cpp.fn_is_eog_token env v args).2 := by
  unfold Cpp.fn_is_eog_token
  simp only [same_pointers_external w v h]
  repeat' split
  all_goals first
    | exact ⟨rfl, h⟩
    | exact ⟨rfl, same_pointers_call _ _ h _⟩
    | exact ⟨rfl, same_pointers_call _ _ (same_pointers_call _ _ h _) _⟩

theorem Cpp.fn_get_embedding_dimension_usable (env : Env) (w : World) (args : List JsValue)
    (h : usable_pointer w (argv args 0) = true) (k : Kind) :
    (Cpp.fn_get_embedding_dimension env w args).1 ≠ throw_error (invalid_handle k) := by
  unfold Cpp.fn_get_embedding_dimension
  unfold usable_pointer at h
  cases hx : js_get_value_external w (argv args 0) with
  | none => simp [hx] at h
  | some p =>
    have hp : p ≠ 0 := by simpa [hx] using h
    simp only [hp, if_false]
    cases k <;> simp only [throw_error, invalid_handle] <;> (repeat' split) <;>
      simp [World.create_external]

theorem Cpp.fn_get_embedding_dimension_pointers (env : Env) (w v : World) (h : same_pointers w v)
    (args : List JsValue) :
    (Cpp.fn_get_embedding_dimension env w args).1 = (Cpp.fn_get_embedding_dimension env v args).1 ∧
      same_pointers (Cpp.fn_get_embedding_dimension env w args).2 (Cpp.fn_get_embedding_dimension env v args).2 := by
  unfold Cpp.fn_get_embedding_dimension
  simp only [same_pointers_external w v h]
  repeat' split
  all_goals first
    | exact ⟨rfl, h⟩
    | exact ⟨rfl, same_pointers_call _ _ h _⟩

theorem Cpp.fn_get_training_context_size_usable (env : Env) (w : World) (args : List JsValue)
    (h : usable_pointer w (argv args 0) = true) (k : Kind) :
    (Cpp.fn_get_training_context_size env w args).1 ≠ throw_error (invalid_handle k) := by
  unfold Cpp.fn_get_training_context_size
  unfold usable_pointer at h
  cases hx : js_get_value_external w (argv args 0) with
  | none => simp [hx] at h
  | some p =>
    have hp : p ≠ 0 := by simpa [hx] using h
    simp only [hp, if_false]
    cases k <;> simp only [throw_error, invalid_handle] <;> (repeat' split) <;>
      simp [World.create_external]

theorem Cpp.fn_get_training_context_size_pointers (env : Env) (w v : World) (h : same_pointers w v)
    (args : List JsValue) :
    (Cpp.fn_get_training_context_size env w args).1 = (Cpp.fn_get_training_context_size env v args).1 ∧
      same_pointers (Cpp.fn_get_training_context_size env w args).2 (Cpp.fn_get_training_context_size env v args).2 := by
  unfold Cpp.fn_get_training_context_size
  simp only [same_pointers_external w v h]
  repeat' split
  all_goals first
    | exact ⟨rfl, h⟩
    | exact ⟨rfl, same_pointers_call _ _ h _⟩

theorem Cpp.fn_get_context_size_usable (env : Env) (w : World) (args : List JsValue)
    (h : usable_pointer w (argv args 0) = true) (k : Kind) :
    (Cpp.fn_get_context_size env w args).1 ≠ throw_error (invalid_handle k) := by
  unfold Cpp.fn_get_context_size
  unfold usable_pointer at h
  cases hx : js_get_value_external w (argv args 0) with
  | none => simp [hx] at h
  | some p =>
    have hp : p ≠ 0 := by simpa [hx] using h
    simp only [hp, if_false]
    cases k <;> simp only [throw_error, invalid_handle] <;> (repeat' split) <;>
      simp [World.create_external]

theorem Cpp.fn_get_context_size_pointers (env : Env) (w v : World) (h : same_pointers w v)
    (args : List JsValue) :
    (Cpp.fn_get_context_size env w args).1 = (Cpp.fn_get_context_size env v args).1 ∧
      same_pointers (Cpp.fn_get_context_size env w args).2 (Cpp.fn_get_context_size env v args).2 := by
  unfold Cpp.fn_get_context_size
  simp only [same_pointers_external w v h]
  repeat' split
  all_goals first
    | exact ⟨rfl, h⟩
    | exact ⟨rfl, same_pointers_call _ _ h _⟩

theorem Cpp.fn_get_embeddings_usable (env : Env) (w : World) (args : List JsValue)
    (h : usable_pointer w (argv args 0) = true) (k : Kind) :
    (Cpp.fn_get_embeddings env w args).1 ≠ throw_error (invalid_handle k) := by
  unfold Cpp.fn_get_embeddings
  unfold usable_pointer at h
  cases hx : js_get_value_external w (argv args 0) with
  | none => simp [hx] at h
  | some p =>
    have hp : p ≠ 0 := by simpa [hx] using h
    simp only [hp, if_false]
    repeat' split
    all_goals first
      | exact Cpp.embeddings_array_not_invalid _ _ _ _ k
      | (cases k <;> simp [throw_error, invalid_handle])

theorem Cpp.fn_get_embeddings_pointers (env : Env) (w v : World) (h : same_pointers w v)
    (args : List JsValue) :
    (Cpp.fn_get_embeddings env w args).1 = (Cpp.fn_get_embeddings env v args).1 ∧
      same_pointers (Cpp.fn_get_embeddings env w args).2 (Cpp.fn_get_embeddings env v args).2 := by
  unfold Cpp.fn_get_embeddings
  simp only [same_pointers_external w v h]
  repeat' split
  all_goals first
    | exact ⟨rfl, h⟩
    | exact ⟨rfl, same_pointers_call _ _ (same_pointers_call _ _ h _) _⟩
    | exact Cpp.embeddings_array_pointers _ _ _ (same_pointers_call _ _ h _) _ _
    | exact Cpp.embeddings_array_pointers _ _ _
        (same_pointers_call _ _ (same_pointers_call _ _ h _) _) _ _

theorem Cpp.fn_sample_unusable (env : Env) (w : World) (args : List JsValue)
    (h : usable_pointer w (argv args 0) = false ∨ usable_pointer w (argv args 1) = false) :
    (Cpp.fn_sample env w args).2 = w ∧
      (3 ≤ args.length → (Cpp.fn_sample env w args).1 = throw_error "Invalid context" ∨
        (Cpp.fn_sample env w args).1 = throw_error "Invalid sampler") := by
  unfold Cpp.fn_sample
  unfold usable_pointer at h
  by_cases ha : args.length < 3
  · simp only [ha, if_true]
    exact ⟨trivial, fun h3 => absurd h3 (by omega)⟩
  · simp only [ha, if_false]
    cases hx : js_get_value_external w (argv args 0) with
    | none => exact ⟨rfl, fun _ => Or.inl rfl⟩
    | some p =>
      by_cases hp : p = 0
      · simp only [hp, if_true]
        exact ⟨trivial, fun _ => Or.inl trivial⟩
      · simp only [hp, if_false]
        cases hy : js_get_value_external w (argv args 1) with
        | none => exact ⟨rfl, fun _ => Or.inr rfl⟩
        | some q =>
          have hq : q = 0 := by
            rcases h with h | h
            · simp [hx, hp] at h
            · simpa [hy] using h
          simp only [hq, if_true]
          exact ⟨trivial, fun _ => Or.inr trivial⟩

theorem Cpp.fn_sample_usable (env : Env) (w : World) (args : List JsValue)
    (h0 : usable_pointer w (argv args 0) = true) (h1 : usable_pointer w (argv args 1) = true)
    (k : Kind) : (Cpp.fn_sample env w args).1 ≠ throw_error (invalid_handle k) := by
  unfold Cpp.fn_sample
  unfold usable_pointer at h0 h1
  cases hx : js_get_value_external w (argv args 0) with
  | none => simp [hx] at h0
  | some p =>
    cases hy : js_get_value_external w (argv args 1) with
    | none => simp [hy] at h1
    | some q =>
      have hp : p ≠ 0 := by simpa [hx] using h0
      have hq : q ≠ 0 := by simpa [hy] using h1
      simp only [hp, hq, if_false]
      cases k <;> simp only [throw_error, invalid_handle] <;> (repeat' split) <;> simp

theorem Cpp.fn_sample_pointers (env : Env) (w v : World) (h : same_pointers w v)
    (args : List JsValue) :
    (Cpp.fn_sample env w args).1 = (Cpp.fn_sample env v args).1 ∧
      same_pointers (Cpp.fn_sample env w args).2 (Cpp.fn_sample env v args).2 := by
  unfold Cpp.fn_sample
  simp only [same_pointers_external w v h]
  repeat' split
  all_goals (refine ⟨rfl, ?_⟩; repeat (first | exact h | apply same_pointers_call))

theorem exists_handle_zero (K : Kind) (P : Nat → Prop) :
    (∃ i k, (i, k) ∈ [((0 : Nat), K)] ∧ P i) ↔ P 0 := by
  constructor
  · rintro ⟨i, k, hm, hp⟩
    simp only [List.mem_singleton, Prod.mk.injEq] at hm
    rw [← hm.1]
    exact hp
  · intro hp
    exact ⟨0, K, by simp, hp⟩

theorem exists_kind_single (K : Kind) (o : Outcome) :
    (∃ k, k ∈ List.map Prod.snd [((0 : Nat), K)] ∧ o = throw_error (invalid_handle k)) ↔
      o = throw_error (invalid_handle K) := by
  simp

/-- In binding.cpp an export turns a handle down exactly when its pointer is
unusable, and then calls nothing. -/
theorem Cpp.rejected_iff_unusable (op : Op) (env : Env) (w : World) (args : List JsValue) :
    ((∃ i k, (i, k) ∈ op.handles ∧ usable_pointer w (argv args i) = false) →
        (Cpp.addon_exports op env w args).2 = w) ∧
    (op.required ≤ args.length →
      ((∃ i k, (i, k) ∈ op.handles ∧ usable_pointer w (argv args i) = false) ↔
        Cpp.rejected op (Cpp.addon_exports op env w args).1)) := by
  cases op
  case freeModel =>
    simp only [Op.handles, Op.required, Cpp.rejected, Op.frees, Cpp.addon_exports, if_true,
      exists_handle_zero]
    refine ⟨fun h => (Cpp.fn_free_model_unusable env w args h).1, fun _ => ⟨fun h =>
      (Cpp.fn_free_model_unusable env w args h).2 (Nat.zero_le _), fun h => ?_⟩⟩
    cases hu : usable_pointer w (argv args 0) with
    | false => rfl
    | true => exact absurd h (Cpp.fn_free_model_usable env w args hu)
  case createContext =>
    simp only [Op.handles, Op.required, Cpp.rejected, Op.frees, Cpp.addon_exports,
      Bool.false_eq_true, if_false, exists_handle_zero, exists_kind_single]
    refine ⟨fun h => (Cpp.fn_create_context_unusable env w args h).1, fun hr => ⟨fun h =>
      (Cpp.fn_create_context_unusable env w args h).2 hr, fun h => ?_⟩⟩
    cases hu : usable_pointer w (argv args 0) with
    | false => rfl
    | true => exact absurd h (Cpp.fn_create_context_usable env w args hu _)
  case freeContext =>
    simp only [Op.handles, Op.required, Cpp.rejected, Op.frees, Cpp.addon_exports, if_true,
      exists_handle_zero]
    refine ⟨fun h => (Cpp.fn_free_context_unusable env w args h).1, fun _ => ⟨fun h =>
      (Cpp.fn_free_context_unusable env w args h).2 (Nat.zero_le _), fun h => ?_⟩⟩
    cases hu : usable_pointer w (argv args 0) with
    | false => rfl
    | true => exact absurd h (Cpp.fn_free_context_usable env w args hu)
  case clearMemory =>
    simp only [Op.handles, Op.required, Cpp.rejected, Op.frees, Cpp.addon_exports,
      Bool.false_eq_true, if_false, exists_handle_zero, exists_kind_single]
    refine ⟨fun h => (Cpp.fn_clear_memory_unusable env w args h).1, fun hr => ⟨fun h =>
      (Cpp.fn_clear_memory_unusable env w args h).2 hr, fun h => ?_⟩⟩
    cases hu : usable_pointer w (argv args 0) with
    | false => rfl
    | true => exact absurd h (Cpp.fn_clear_memory_usable env w args hu _)
  case createSampler =>
    simp only [Op.handles, Op.required, Cpp.rejected, Op.frees, Cpp.addon_exports,
      Bool.false_eq_true, if_false, exists_handle_zero, exists_kind_single]
    refine ⟨fun h => (Cpp.fn_create_sampler_unusable env w args h).1, fun hr => ⟨fun h =>
      (Cpp.fn_create_sampler_unusable env w args h).2 hr, fun h => ?_⟩⟩
    cases hu : usable_pointer w (argv args 0) with
    | false => rfl
    | true => exact absurd h (Cpp.fn_create_sampler_usable env w args hu _)
  case freeSampler =>
    simp only [Op.handles, Op.required, Cpp.rejected, Op.frees, Cpp.addon_exports, if_true,
      exists_handle_zero]
    refine ⟨fun h => (Cpp.fn_free_sampler_unusable env w args h).1, fun _ => ⟨fun h =>
      (Cpp.fn_free_sampler_unusable env w args h).2 (Nat.zero_le _), fun h => ?_⟩⟩
    cases hu : usable_pointer w (argv args 0) with
    | false => rfl
    | true => exact absurd h (Cpp.fn_free_sampler_usable env w args hu)
  case tokenize =>
    simp only [Op.handles, Op.required, Cpp.rejected, Op.frees, Cpp.addon_exports,
      Bool.false_eq_true, if_false, exists_handle_zero, exists_kind_single]
    refine ⟨fun h => (Cpp.fn_tokenize_unusable env w args h).1, fun hr => ⟨fun h =>
      (Cpp.fn_tokenize_unusable env w args h).2 hr, fun h => ?_⟩⟩
    cases hu : usable_pointer w (argv args 0) with
    | false => rfl
    | true => exact absurd h (Cpp.fn_tokenize_usable env w args hu _)
  case detokenize =>
    simp only [Op.handles, Op.required, Cpp.rejected, Op.frees, Cpp.addon_exports,
      Bool.false_eq_true, if_false, exists_handle_zero, exists_kind_single]
    refine ⟨fun h => (Cpp.fn_detokenize_unusable env w args h).1, fun hr => ⟨fun h =>
      (Cpp.fn_detokenize_unusable env w args h).2 hr, fun h => ?_⟩⟩
    cases hu : usable_pointer w (argv args 0) with
    | false => rfl
    | true => exact absurd h (Cpp.fn_detokenize_usable env w args hu _)
  case decode =>
    simp only [Op.handles, Op.required, Cpp.rejected, Op.frees, Cpp.addon_exports,
      Bool.false_eq_true, if_false, exists_handle_zero, exists_kind_single]
    refine ⟨fun h => (Cpp.fn_decode_unusable env w args h).1, fun hr => ⟨fun h =>
      (Cpp.fn_decode_unusable env w args h).2 hr, fun h => ?_⟩⟩
    cases hu : usable_pointer w (argv args 0) with
    | false => rfl
    | true => exact absurd h (Cpp.fn_decode_usable env w args hu _)
  case acceptToken =>
    simp only [Op.handles, Op.required, Cpp.rejected, Op.frees, Cpp.addon_exports,
      Bool.false_eq_true, if_false, exists_handle_zero, exists_kind_single]
    refine ⟨fun h => (Cpp.fn_accept_token_unusable env w args h).1, fun hr => ⟨fun h =>
      (Cpp.fn_accept_token_unusable env w args h).2 hr, fun h => ?_⟩⟩
    cases hu : usable_pointer w (argv args 0) with
    | false => rfl
    | true => exact absurd h (Cpp.fn_accept_token_usable env w args hu _)
  case isEogToken =>
    simp only [Op.handles, Op.required, Cpp.rejected, Op.frees, Cpp.addon_exports,
      Bool.false_eq_true, if_false, exists_handle_zero, exists_kind_single]
    refine ⟨fun h => (Cpp.fn_is_eog_token_unusable env w args h).1, fun hr => ⟨fun h =>
      (Cpp.fn_is_eog_token_unusable env w args h).2 hr, fun h => ?_⟩⟩
    cases hu : usable_pointer w (argv args 0) with
    | false => rfl
    | true => exact absurd h (Cpp.fn_is_eog_token_usable env w args hu _)
  case getEmbeddingDimension =>
    simp only [Op.handles, Op.required, Cpp.rejected, Op.frees, Cpp.addon_exports,
      Bool.false_eq_true, if_false, exists_handle_zero, exists_kind_single]
    refine ⟨fun h => (Cpp.fn_get_embedding_dimension_unusable env w args h).1, fun hr => ⟨fun h =>
      (Cpp.fn_get_embedding_dimension_unusable env w args h).2 hr, fun h => ?_⟩⟩
    cases hu : usable_pointer w (argv args 0) with
    | false => rfl
    | true => exact absurd h (Cpp.fn_get_embedding_dimension_usable env w args hu _)
  case getTrainingContextSize =>
    simp only [Op.handles, Op.required, Cpp.rejected, Op.frees, Cpp.addon_exports,
      Bool.false_eq_true, if_false, exists_handle_zero, exists_kind_single]
    refine ⟨fun h => (Cpp.fn_get_training_context_size_unusable env w args h).1, fun hr => ⟨fun h =>
      (Cpp.fn_get_training_context_size_unusable env w args h).2 hr, fun h => ?_⟩⟩
    cases hu : usable_pointer w (argv args 0) with
    | false => rfl
    | true => exact absurd h (Cpp.fn_get_training_context_size_usable env w args hu _)
  case getContextSize =>
    simp only [Op.handles, Op.required, Cpp.rejected, Op.frees, Cpp.addon_exports,
      Bool.false_eq_true, if_false, exists_handle_zero, exists_kind_single]
    refine ⟨fun h => (Cpp.fn_get_context_size_unusable env w args h).1, fun hr => ⟨fun h =>
      (Cpp.fn_get_context_size_unusable env w args h).2 hr, fun h => ?_⟩⟩
    cases hu : usable_pointer w (argv args 0) with
    | false => rfl
    | true => exact absurd h (Cpp.fn_get_context_size_usable env w args hu _)
  case getEmbeddings =>
    simp only [Op.handles, Op.required, Cpp.rejected, Op.frees, Cpp.addon_exports,
      Bool.false_eq_true, if_false, exists_handle_zero, exists_kind_single]
    refine ⟨fun h => (Cpp.fn_get_embeddings_unusable env w args h).1, fun hr => ⟨fun h =>
      (Cpp.fn_get_embeddings_unusable env w args h).2 hr, fun h => ?_⟩⟩
    cases hu : usable_pointer w (argv args 0) with
    | false => rfl
    | true => exact absurd h (Cpp.fn_get_embeddings_usable env w args hu _)
  case sample =>
    simp only [Op.handles, Op.required, Cpp.rejected, Op.frees, Cpp.addon_exports,
      Bool.false_eq_true, if_false]
    have hex : (∃ i k, (i, k) ∈ [((0 : Nat), Kind.context), (1, Kind.sampler)] ∧
        usable_pointer w (argv args i) = false) ↔
        (usable_pointer w (argv args 0) = false ∨ usable_pointer w (argv args 1) = false) := by
      constructor
      · rintro ⟨i, k, hm, hp⟩
        simp only [List.mem_cons, List.mem_singleton, Prod.mk.injEq, List.not_mem_nil,
          or_false] at hm
        rcases hm with ⟨rfl, _⟩ | ⟨rfl, _⟩
        · exact Or.inl hp
        · exact Or.inr hp
      · rintro (hp | hp)
        · exact ⟨0, Kind.context, by simp, hp⟩
        · exact ⟨1, Kind.sampler, by simp, hp⟩
    rw [hex]
    refine ⟨fun h => (Cpp.fn_sample_unusable env w args h).1, fun hr => ⟨fun h => ?_, fun h => ?_⟩⟩
    · rcases (Cpp.fn_sample_unusable env w args h).2 hr with h1 | h1
      · exact ⟨Kind.context, by simp, h1⟩
      · exact ⟨Kind.sampler, by simp, h1⟩
    · obtain ⟨k, _, hk⟩ := h
      cases h0 : usable_pointer w (argv args 0) with
      | false => exact Or.inl rfl
      | true =>
        cases h1 : usable_pointer w (argv args 1) with
        | false => exact Or.inr rfl
        | true => exact absurd hk (Cpp.fn_sample_usable env w args h0 h1 k)

/-- In binding.cpp what an export does depends on the pointers behind the
handles only, not on their kinds or tags. -/
theorem Cpp.pointers_only (op : Op) (env : Env) (w v : World) (h : same_pointers w v)
    (args : List JsValue) :
    (Cpp.addon_exports op env w args).1 = (Cpp.addon_exports op env v args).1 ∧
      same_pointers (Cpp.addon_exports op env w args).2 (Cpp.addon_exports op env v args).2 := by
  cases op
  case freeModel => exact Cpp.fn_free_model_pointers env w v h args
  case createContext => exact Cpp.fn_create_context_pointers env w v h args
  case freeContext => exact Cpp.fn_free_context_pointers env w v h args
  case clearMemory => exact Cpp.fn_clear_memory_pointers env w v h args
  case createSampler => exact Cpp.fn_create_sampler_pointers env w v h args
  case freeSampler => exact Cpp.fn_free_sampler_pointers env w v h args
  case tokenize => exact Cpp.fn_tokenize_pointers env w v h args
  case detokenize => exact Cpp.fn_detokenize_pointers env w v h args
  case decode => exact Cpp.fn_decode_pointers env w v h args
  case acceptToken => exact Cpp.fn_accept_token_pointers env w v h args
  case isEogToken => exact Cpp.fn_is_eog_token_pointers env w v h args
  case getEmbeddingDimension => exact Cpp.fn_get_embedding_dimension_pointers env w v h args
  case getTrainingContextSize => exact Cpp.fn_get_training_context_size_pointers env w v h args
  case getContextSize => exact Cpp.fn_get_context_size_pointers env w v h args
  case getEmbeddings => exact Cpp.fn_get_embeddings_pointers env w v h args
  case sample => exact Cpp.fn_sample_pointers env w v h args

/-- C7 (as stated, refuted): `createContext` of binding.cpp, given the
Context handle `1` where a Model is expected, raises no error: it hands the
context's pointer `0x2000` to `llama_init_from_model` and returns a handle. -/
theorem cpp_create_context_takes_context_handle :
    Cpp.loaded.externals.get? 1 = some ⟨0x2000, Kind.context, none⟩
    ∧ Cpp.fn_create_context Env.nominal Cpp.loaded [JsValue.external 1]
      = (Outcome.value (JsValue.external 3),
          ⟨Cpp.loaded.externals ++ [⟨0x2000, Kind.context, none⟩],
           Cpp.loaded.trace ++
            [NativeCall.llama_init_from_model 0x2000 ⟨none, none, none, none⟩]⟩) := by
  decide

/-- C7 (as amended): binding.cpp validates no resource kind.  An export that
takes a handle turns it down exactly when the argument is no external or wraps
a null pointer: then it calls nothing and, given the arguments it insists on,
throws "Invalid model" / "Invalid context" / "Invalid sampler" (the three
exports that free return `NULL` without an error).  Whatever it does depends
only on the pointers behind the handles, not on their kinds. -/
theorem cpp_handles_checked_by_pointer_only (op : Op) (env : Env) (w : World)
    (args : List JsValue) :
    ((∃ i k, (i, k) ∈ op.handles ∧ usable_pointer w (argv args i) = false) →
        (Cpp.addon_exports op env w args).2 = w) ∧
    (op.required ≤ args.length →
      ((∃ i k, (i, k) ∈ op.handles ∧ usable_pointer w (argv args i) = false) ↔
        Cpp.rejected op (Cpp.addon_exports op env w args).1)) ∧
    (∀ v, same_pointers w v →
      (Cpp.addon_exports op env w args).1 = (Cpp.addon_exports op env v args).1 ∧
        same_pointers (Cpp.addon_exports op env w args).2
          (Cpp.addon_exports op env v args).2) :=
  ⟨(Cpp.rejected_iff_unusable op env w args).1, (Cpp.rejected_iff_unusable op env w args).2,
    fun v h => Cpp.pointers_only op env w v h args⟩

/-- Witness of C7 (as amended): `createContext` on the Context handle `1`. -/
theorem cpp_handles_checked_by_pointer_only_witness :
    Op.required Op.createContext ≤ [JsValue.external 1].length
    ∧ ((∃ i k, (i, k) ∈ Op.handles Op.createContext ∧
          usable_pointer Cpp.loaded (argv [JsValue.external 1] i) = false) ↔
        Cpp.rejected Op.createContext
          (Cpp.addon_exports Op.createContext Env.nominal Cpp.loaded [JsValue.external 1]).1) :=
  ⟨by decide,
    (cpp_handles_checked_by_pointer_only Op.createContext Env.nominal Cpp.loaded
      [JsValue.external 1]).2.1 (by decide)⟩

/-! ### binding.c, callback by callback

For every callback: a handle that fails the tag check stops it without an
engine call (`_mistagged`). -/

theorem C.fn_free_model_mistagged (env : Env) (w : World) (args : List JsValue)
    (h : js_check_type_tag w (argv args 0) llama_model_type_tag ≠ some true) :
    (C.fn_free_model env w args).2 = w ∧ (∃ msg, (C.fn_free_model env w args).1 = throw_error msg) ∧
      (0 ≤ args.length → (C.fn_free_model env w args).1 = throw_error "Invalid model") := by
  unfold C.fn_free_model
  simp only [h, ne_eq, not_false_eq_true, if_true]
  exact ⟨trivial, ⟨_, rfl⟩, fun _ => trivial⟩

theorem C.fn_create_context_mistagged (env : Env) (w : World) (args : List JsValue)
    (h : js_check_type_tag w (argv args 0) llama_model_type_tag ≠ some true) :
    (C.fn_create_context env w args).2 = w ∧ (∃ msg, (C.fn_create_context env w args).1 = throw_error msg) ∧
      (1 ≤ args.length → (C.fn_create_context env w args).1 = throw_error "Invalid model") := by
  unfold C.fn_create_context
  simp only [h, ne_eq, not_false_eq_true, if_true]
  by_cases ha : args.length < 1
  · simp only [ha, if_true]
    exact ⟨trivial, ⟨_, rfl⟩, fun h' => absurd h' (by omega)⟩
  · simp only [ha, if_false]
    exact ⟨trivial, ⟨_, rfl⟩, fun _ => trivial⟩

theorem C.fn_free_context_mistagged (env : Env) (w : World) (args : List JsValue)
    (h : js_check_type_tag w (argv args 0) llama_context_type_tag ≠ some true) :
    (C.fn_free_context env w args).2 = w ∧ (∃ msg, (C.fn_free_context env w args).1 = throw_error msg) ∧
      (0 ≤ args.length → (C.fn_free_context env w args).1 = throw_error "Invalid context") := by
  unfold C.fn_free_context
  simp only [h, ne_eq, not_false_eq_true, if_true]
  exact ⟨trivial, ⟨_, rfl⟩, fun _ => trivial⟩

theorem C.fn_free_sampler_mistagged (env : Env) (w : World) (args : List JsValue)
    (h : js_check_type_tag w (argv args 0) llama_sampler_type_tag ≠ some true) :
    (C.fn_free_sampler env w args).2 = w ∧ (∃ msg, (C.fn_free_sampler env w args).1 = throw_error msg) ∧
      (0 ≤ args.length → (C.fn_free_sampler env w args).1 = throw_error "Invalid sampler") := by
  unfold C.fn_free_sampler
  simp only [h, ne_eq, not_false_eq_true, if_true]
  exact ⟨trivial, ⟨_, rfl⟩, fun _ => trivial⟩

theorem C.fn_tokenize_mistagged (env : Env) (w : World) (args : List JsValue)
    (h : js_check_type_tag w (argv args 0) llama_model_type_tag ≠ some true) :
    (C.fn_tokenize env w args).2 = w ∧ (∃ msg, (C.fn_tokenize env w args).1 = throw_error msg) ∧
      (2 ≤ args.length → (C.fn_tokenize env w args).1 = throw_error "Invalid model") := by
  unfold C.fn_tokenize
  simp only [h, ne_eq, not_false_eq_true, if_true]
  by_cases ha : args.length < 2
  · simp only [ha, if_true]
    exact ⟨trivial, ⟨_, rfl⟩, fun h' => absurd h' (by omega)⟩
  · simp only [ha, if_false]
    exact ⟨trivial, ⟨_, rfl⟩, fun _ => trivial⟩

theorem C.fn_detokenize_mistagged (env : Env) (w : World) (args : List JsValue)
    (h : js_check_type_tag w (argv args 0) llama_model_type_tag ≠ some true) :
    (C.fn_detokenize env w args).2 = w ∧ (∃ msg, (C.fn_detokenize env w args).1 = throw_error msg) ∧
      (2 ≤ args.length → (C.fn_detokenize env w args).1 = throw_error "Invalid model") := by
  unfold C.fn_detokenize
  simp only [h, ne_eq, not_false_eq_true, if_true]
  by_cases ha : args.length < 2
  · simp only [ha, if_true]
    exact ⟨trivial, ⟨_, rfl⟩, fun h' => absurd h' (by omega)⟩
  · simp only [ha, if_false]
    exact ⟨trivial, ⟨_, rfl⟩, fun _ => trivial⟩

theorem C.fn_decode_mistagged (env : Env) (w : World) (args : List JsValue)
    (h : js_check_type_tag w (argv args 0) llama_context_type_tag ≠ some true) :
    (C.fn_decode env w args).2 = w ∧ (∃ msg, (C.fn_decode env w args).1 = throw_error msg) ∧
      (2 ≤ args.length → (C.fn_decode env w args).1 = throw_error "Invalid context") := by
  unfold C.fn_decode
  simp only [h, ne_eq, not_false_eq_true, if_true]
  by_cases ha : args.length < 2
  · simp only [ha, if_true]
    exact ⟨trivial, ⟨_, rfl⟩, fun h' => absurd h' (by omega)⟩
  · simp only [ha, if_false]
    exact ⟨trivial, ⟨_, rfl⟩, fun _ => trivial⟩

theorem C.fn_accept_token_mistagged (env : Env) (w : World) (args : List JsValue)
    (h : js_check_type_tag w (argv args 0) llama_sampler_type_tag ≠ some true) :
    (C.fn_accept_token env w args).2 = w ∧ (∃ msg, (C.fn_accept_token env w args).1 = throw_error msg) ∧
      (0 ≤ args.length → (C.fn_accept_token env w args).1 = throw_error "Invalid sampler") := by
  unfold C.fn_accept_token
  simp only [h, ne_eq, not_false_eq_true, if_true]
  exact ⟨trivial, ⟨_, rfl⟩, fun _ => trivial⟩

theorem C.fn_is_eog_token_mistagged (env : Env) (w : World) (args : List JsValue)
    (h : js_check_type_tag w (argv args 0) llama_model_type_tag ≠ some true) :
    (C.fn_is_eog_token env w args).2 = w ∧ (∃ msg, (C.fn_is_eog_token env w args).1 = throw_error msg) ∧
      (0 ≤ args.length → (C.fn_is_eog_token env w args).1 = throw_error "Invalid model") := by
  unfold C.fn_is_eog_token
  simp only [h, ne_eq, not_false_eq_true, if_true]
  exact ⟨trivial, ⟨_, rfl⟩, fun _ => trivial⟩

theorem C.fn_sample_mistagged (env : Env) (w : World) (args : List JsValue)
    (h : js_check_type_tag w (argv args 0) llama_context_type_tag ≠ some true ∨
      js_check_type_tag w (argv args 1) llama_sampler_type_tag ≠ some true) :
    (C.fn_sample env w args).2 = w ∧ (∃ msg, (C.fn_sample env w args).1 = throw_error msg) ∧
      (3 ≤ args.length → (C.fn_sample env w args).1 = throw_error "Invalid context" ∨
        (C.fn_sample env w args).1 = throw_error "Invalid sampler") := by
  unfold C.fn_sample
  by_cases ha : args.length < 3
  · simp only [ha, if_true]
    exact ⟨trivial, ⟨_, rfl⟩, fun h' => absurd h' (by omega)⟩
  · simp only [ha, if_false]
    by_cases h0 : js_check_type_tag w (argv args 0) llama_context_type_tag = some true
    · have h1 : js_check_type_tag w (argv args 1) llama_sampler_type_tag ≠ some true := by
        rcases h with h | h
        · exact absurd h0 h
        · exact h
      simp only [h0, h1, ne_eq, not_true_eq_false, not_false_eq_true, if_true, if_false]
      cases hx : js_get_value_external w (argv args 0) with
      | none => exact ⟨rfl, ⟨_, rfl⟩, fun _ => Or.inl rfl⟩
      | some p =>
        by_cases hp : p = 0
        · simp only [hp, if_true]
          exact ⟨trivial, ⟨_, rfl⟩, fun _ => Or.inl trivial⟩
        · simp only [hp, if_false]
          exact ⟨trivial, ⟨_, rfl⟩, fun _ => Or.inr trivial⟩
    · simp only [h0, ne_eq, not_false_eq_true, if_true]
      exact ⟨trivial, ⟨_, rfl⟩, fun _ => Or.inl trivial⟩

/-- A handle tagged for another kind fails the tag test. -/
theorem other_kind_fails_check (w : World) (id : Nat) (e : External) (k k' : Kind)
    (he : w.externals.get? id = some e) (ht : e.tag = some (type_tag k')) (hk : k' ≠ k) :
    js_check_type_tag w (JsValue.external id) (type_tag k) ≠ some true := by
  have hne : type_tag k' ≠ type_tag k := by
    cases k <;> cases k' <;> first | exact absurd rfl hk | decide
  show Option.map (fun e => decide (e.tag = some (type_tag k))) (w.externals.get? id) ≠ some true
  rw [he]
  simp only [Option.map_some', ht, ne_eq, Option.some.injEq, decide_eq_true_eq]
  exact hne

/-- The three creating callbacks of binding.c tag what they return. -/
theorem C.created_handles_tagged (env : Env) (w : World) (args : List JsValue) (id : Nat) :
    ((C.fn_load_model env w args).1 = Outcome.value (JsValue.external id) →
      (C.fn_load_model env w args).2.externals.get? id
        = some ⟨env.llama_model_load_from_file, Kind.model, some (type_tag Kind.model)⟩) ∧
    ((C.fn_create_context env w args).1 = Outcome.value (JsValue.external id) →
      (C.fn_create_context env w args).2.externals.get? id
        = some ⟨env.llama_init_from_model, Kind.context, some (type_tag Kind.context)⟩) ∧
    ((C.fn_create_sampler env w args).1 = Outcome.value (JsValue.external id) →
      (C.fn_create_sampler env w args).2.externals.get? id
        = some ⟨env.llama_sampler_chain_init, Kind.sampler, some (type_tag Kind.sampler)⟩) := by
  refine ⟨?_, ?_, ?_⟩
  · unfold C.fn_load_model
    dsimp only
    repeat' split
    all_goals simp [World.create_external, World.call, throw_error, type_tag]
    all_goals (intro h; subst h; simp)
  · unfold C.fn_create_context
    dsimp only
    repeat' split
    all_goals simp [World.create_external, World.call, throw_error, type_tag]
    all_goals (intro h; subst h; simp)
  · unfold C.fn_create_sampler
    dsimp only
    repeat' split
    all_goals simp [World.create_external, World.call, throw_error, type_tag]
    all_goals (intro h; subst h; simp)

/-- In binding.c an export given a handle of another kind calls nothing and
throws; with the arguments it insists on, the error is "Invalid ..." for one
of its handle kinds. -/
theorem C.other_kind_rejected (op : Op) (cb : Callback) (hcb : C.addon_exports op = some cb)
    (env : Env) (w : World) (args : List JsValue) (i : Nat) (k k' : Kind) (id : Nat)
    (e : External) (hmem : (i, k) ∈ op.handles) (harg : argv args i = JsValue.external id)
    (he : w.externals.get? id = some e) (ht : e.tag = some (type_tag k')) (hk : k' ≠ k) :
    (cb env w args).2 = w ∧ (∃ msg, (cb env w args).1 = throw_error msg) ∧
      (op.required ≤ args.length →
        ∃ k'', k'' ∈ op.handles.map Prod.snd ∧
          (cb env w args).1 = throw_error (invalid_handle k'')) := by
  cases op
  case freeModel =>
    simp only [C.addon_exports, Option.some.injEq] at hcb
    subst hcb
    simp only [Op.handles, List.mem_singleton, Prod.mk.injEq] at hmem
    obtain ⟨rfl, rfl⟩ := hmem
    have h := C.fn_free_model_mistagged env w args (by rw [harg]; exact other_kind_fails_check w id e _ k' he ht hk)
    exact ⟨h.1, h.2.1, fun hr => ⟨Kind.model, by simp [Op.handles], h.2.2 hr⟩⟩
  case createContext =>
    simp only [C.addon_exports, Option.some.injEq] at hcb
    subst hcb
    simp only [Op.handles, List.mem_singleton, Prod.mk.injEq] at hmem
    obtain ⟨rfl, rfl⟩ := hmem
    have h := C.fn_create_context_mistagged env w args (by rw [harg]; exact other_kind_fails_check w id e _ k' he ht hk)
    exact ⟨h.1, h.2.1, fun hr => ⟨Kind.model, by simp [Op.handles], h.2.2 hr⟩⟩
  case freeContext =>
    simp only [C.addon_exports, Option.some.injEq] at hcb
    subst hcb
    simp only [Op.handles, List.mem_singleton, Prod.mk.injEq] at hmem
    obtain ⟨rfl, rfl⟩ := hmem
    have h := C.fn_free_context_mistagged env w args (by rw [harg]; exact other_kind_fails_check w id e _ k' he ht hk)
    exact ⟨h.1, h.2.1, fun hr => ⟨Kind.context, by simp [Op.handles], h.2.2 hr⟩⟩
  case freeSampler =>
    simp only [C.addon_exports, Option.some.injEq] at hcb
    subst hcb
    simp only [Op.handles, List.mem_singleton, Prod.mk.injEq] at hmem
    obtain ⟨rfl, rfl⟩ := hmem
    have h := C.fn_free_sampler_mistagged env w args (by rw [harg]; exact other_kind_fails_check w id e _ k' he ht hk)
    exact ⟨h.1, h.2.1, fun hr => ⟨Kind.sampler, by simp [Op.handles], h.2.2 hr⟩⟩
  case tokenize =>
    simp only [C.addon_exports, Option.some.injEq] at hcb
    subst hcb
    simp only [Op.handles, List.mem_singleton, Prod.mk.injEq] at hmem
    obtain ⟨rfl, rfl⟩ := hmem
    have h := C.fn_tokenize_mistagged env w args (by rw [harg]; exact other_kind_fails_check w id e _ k' he ht hk)
    exact ⟨h.1, h.2.1, fun hr => ⟨Kind.model, by simp [Op.handles], h.2.2 hr⟩⟩
  case detokenize =>
    simp only [C.addon_exports, Option.some.injEq] at hcb
    subst hcb
    simp only [Op.handles, List.mem_singleton, Prod.mk.injEq] at hmem
    obtain ⟨rfl, rfl⟩ := hmem
    have h := C.fn_detokenize_mistagged env w args (by rw [harg]; exact other_kind_fails_check w id e _ k' he ht hk)
    exact ⟨h.1, h.2.1, fun hr => ⟨Kind.model, by simp [Op.handles], h.2.2 hr⟩⟩
  case decode =>
    simp only [C.addon_exports, Option.some.injEq] at hcb
    subst hcb
    simp only [Op.handles, List.mem_singleton, Prod.mk.injEq] at hmem
    obtain ⟨rfl, rfl⟩ := hmem
    have h := C.fn_decode_mistagged env w args (by rw [harg]; exact other_kind_fails_check w id e _ k' he ht hk)
    exact ⟨h.1, h.2.1, fun hr => ⟨Kind.context, by simp [Op.handles], h.2.2 hr⟩⟩
  case acceptToken =>
    simp only [C.addon_exports, Option.some.injEq] at hcb
    subst hcb
    simp only [Op.handles, List.mem_singleton, Prod.mk.injEq] at hmem
    obtain ⟨rfl, rfl⟩ := hmem
    have h := C.fn_accept_token_mistagged env w args (by rw [harg]; exact other_kind_fails_check w id e _ k' he ht hk)
    exact ⟨h.1, h.2.1, fun hr => ⟨Kind.sampler, by simp [Op.handles], h.2.2 hr⟩⟩
  case isEogToken =>
    simp only [C.addon_exports, Option.some.injEq] at hcb
    subst hcb
    simp only [Op.handles, List.mem_singleton, Prod.mk.injEq] at hmem
    obtain ⟨rfl, rfl⟩ := hmem
    have h := C.fn_is_eog_token_mistagged env w args (by rw [harg]; exact other_kind_fails_check w id e _ k' he ht hk)
    exact ⟨h.1, h.2.1, fun hr => ⟨Kind.model, by simp [Op.handles], h.2.2 hr⟩⟩
  case sample =>
    simp only [C.addon_exports, Option.some.injEq] at hcb
    subst hcb
    simp only [Op.handles, List.mem_cons, List.mem_singleton, Prod.mk.injEq, List.not_mem_nil,
      or_false] at hmem
    have h := C.fn_sample_mistagged env w args (by
      rcases hmem with ⟨rfl, rfl⟩ | ⟨rfl, rfl⟩
      · left; rw [harg]; exact other_kind_fails_check w id e _ k' he ht hk
      · right; rw [harg]; exact other_kind_fails_check w id e _ k' he ht hk)
    refine ⟨h.1, h.2.1, fun hr => ?_⟩
    rcases h.2.2 hr with h1 | h1
    · exact ⟨Kind.context, by simp [Op.handles], h1⟩
    · exact ⟨Kind.sampler, by simp [Op.handles], h1⟩
  all_goals simp [C.addon_exports] at hcb

/-- C8 (as stated, refuted): `tokenize` of binding.c, called with the Context
handle `1` as its only argument, throws "Model and text required", not
"Invalid model": the test of the argument count comes before the tag check. -/
theorem c_tokenize_counts_arguments_before_tag_check :
    C.loaded.externals.get? 1 = some ⟨0x2000, Kind.context, some llama_context_type_tag⟩
    ∧ C.fn_tokenize Env.nominal C.loaded [JsValue.external 1]
      = (throw_error "Model and text required", C.loaded)
    ∧ throw_error "Model and text required" ≠ throw_error "Invalid model" := by
  decide

theorem C.too_few_arguments (op : Op) (cb : Callback) (hcb : C.addon_exports op = some cb)
    (env : Env) (w : World) (args : List JsValue) (h : args.length < op.required) :
    cb env w args = (throw_error op.missing_arguments, w) := by
  cases op
  case createContext =>
    simp only [C.addon_exports, Option.some.injEq] at hcb
    subst hcb
    simp only [Op.required] at h
    simp [C.fn_create_context, h, Op.missing_arguments]
  case tokenize =>
    simp only [C.addon_exports, Option.some.injEq] at hcb
    subst hcb
    simp only [Op.required] at h
    simp [C.fn_tokenize, h, Op.missing_arguments]
  case detokenize =>
    simp only [C.addon_exports, Option.some.injEq] at hcb
    subst hcb
    simp only [Op.required] at h
    simp [C.fn_detokenize, h, Op.missing_arguments]
  case decode =>
    simp only [C.addon_exports, Option.some.injEq] at hcb
    subst hcb
    simp only [Op.required] at h
    simp [C.fn_decode, h, Op.missing_arguments]
  case sample =>
    simp only [C.addon_exports, Option.some.injEq] at hcb
    subst hcb
    simp only [Op.required] at h
    simp [C.fn_sample, h, Op.missing_arguments]
  all_goals simp [C.addon_exports, Op.required] at hcb h

/-- C8 (as amended): in binding.c the three type tags are pairwise distinct,
every handle returned by `loadModel`, `createContext`, `createSampler` carries
the tag of its kind, and every export that takes a handle, given a handle of
another kind, makes no engine call and throws: "Invalid model" / "Invalid
context" / "Invalid sampler" when the call has the number of arguments the
export insists on, and otherwise the error of its argument-count test
("Model and text required" for `tokenize`, and so on), which comes before the
tag check. -/
theorem c_tags_checked_before_pointer_use :
    (∀ k k' : Kind, type_tag k = type_tag k' → k = k')
    ∧ (∀ (env : Env) (w : World) (args : List JsValue) (id : Nat),
        ((C.fn_load_model env w args).1 = Outcome.value (JsValue.external id) →
          (C.fn_load_model env w args).2.externals.get? id
            = some ⟨env.llama_model_load_from_file, Kind.model, some (type_tag Kind.model)⟩) ∧
        ((C.fn_create_context env w args).1 = Outcome.value (JsValue.external id) →
          (C.fn_create_context env w args).2.externals.get? id
            = some ⟨env.llama_init_from_model, Kind.context, some (type_tag Kind.context)⟩) ∧
        ((C.fn_create_sampler env w args).1 = Outcome.value (JsValue.external id) →
          (C.fn_create_sampler env w args).2.externals.get? id
            = some ⟨env.llama_sampler_chain_init, Kind.sampler,
                some (type_tag Kind.sampler)⟩))
    ∧ (∀ (op : Op) (cb : Callback), C.addon_exports op = some cb →
        ∀ (env : Env) (w : World) (args : List JsValue) (i : Nat) (k k' : Kind) (id : Nat)
          (e : External), (i, k) ∈ op.handles → argv args i = JsValue.external id →
          w.externals.get? id = some e → e.tag = some (type_tag k') → k' ≠ k →
          (cb env w args).2 = w ∧ (∃ msg, (cb env w args).1 = throw_error msg) ∧
            (op.required ≤ args.length →
              ∃ k'', k'' ∈ op.handles.map Prod.snd ∧
                (cb env w args).1 = throw_error (invalid_handle k'')) ∧
            (args.length < op.required →
              (cb env w args).1 = throw_error op.missing_arguments)) := by
  refine ⟨?_, C.created_handles_tagged, ?_⟩
  · intro k k'
    cases k <;> cases k' <;> decide
  · intro op cb hcb env w args i k k' id e hmem harg he ht hk
    obtain ⟨h1, h2, h3⟩ :=
      C.other_kind_rejected op cb hcb env w args i k k' id e hmem harg he ht hk
    exact ⟨h1, h2, h3, fun hlt => by rw [C.too_few_arguments op cb hcb env w args hlt]⟩

/-- Witness of C8 (as amended): `tokenize` of binding.c with the Context
handle `1` and a text throws "Invalid model" and calls nothing; with the
Context handle `1` alone it throws "Model and text required". -/
theorem c_tags_checked_before_pointer_use_witness :
    (C.fn_tokenize Env.nominal C.loaded [JsValue.external 1, JsValue.string [104, 105]]).2
        = C.loaded
    ∧ (∃ k'', k'' ∈ (Op.handles Op.tokenize).map Prod.snd ∧
          (C.fn_tokenize Env.nominal C.loaded
            [JsValue.external 1, JsValue.string [104, 105]]).1
            = throw_error (invalid_handle k''))
    ∧ (C.fn_tokenize Env.nominal C.loaded [JsValue.external 1]).1
        = throw_error "Model and text required" :=
  ⟨(c_tags_checked_before_pointer_use.2.2 Op.tokenize C.fn_tokenize rfl Env.nominal C.loaded
      [JsValue.external 1, JsValue.string [104, 105]] 0 Kind.model Kind.context 1
      ⟨0x2000, Kind.context, some llama_context_type_tag⟩ (by decide) rfl (by decide) rfl
      (by decide)).1,
    (c_tags_checked_before_pointer_use.2.2 Op.tokenize C.fn_tokenize rfl Env.nominal C.loaded
      [JsValue.external 1, JsValue.string [104, 105]] 0 Kind.model Kind.context 1
      ⟨0x2000, Kind.context, some llama_context_type_tag⟩ (by decide) rfl (by decide) rfl
      (by decide)).2.2.1 (by decide),
    (c_tags_checked_before_pointer_use.2.2 Op.tokenize C.fn_tokenize rfl Env.nominal C.loaded
      [JsValue.external 1] 0 Kind.model Kind.context 1
      ⟨0x2000, Kind.context, some llama_context_type_tag⟩ (by decide) rfl (by decide) rfl
      (by decide)).2.2.2 (by decide)⟩

/-! ## Tokenization -/

theorem detokenize_loop_bytes (env : Env) (vocab : Ptr) (hre : ∀ size, env.realloc size = true) :
    ∀ (tokens : List Int) (w : World) (b : OutBuf),
      b.buf_size < 18446744073709551616 →
      (b.overrun = false → b.offset = b.bytes.length) →
      ∃ w' b', detokenize_loop env vocab tokens w b = (w', some b') ∧
        (b'.overrun = false →
          b.overrun = false ∧ b'.bytes = b.bytes ++ tokens.flatMap (rendered env) ∧
          b'.offset = b'.bytes.length) := by
  intro tokens
  induction tokens with
  | nil =>
    intro w b _ hinv
    exact ⟨w, b, rfl, fun h => ⟨h, by simp, hinv h⟩⟩
  | cons t rest ih =>
    intro w b hcap hinv
    unfold detokenize_loop
    dsimp only
    by_cases hn : 0 < (env.llama_token_to_piece t).n
    · simp only [hn, if_true, hre, Bool.not_true, Bool.and_false, Bool.false_eq_true, if_false]
      obtain ⟨w', b', hl, hb⟩ := ih (w.call (NativeCall.llama_token_to_piece vocab t 256 0 true))
        ⟨if decide (b.buf_size ≤ size_add b.offset (to_size_t (env.llama_token_to_piece t).n)) = true
            then size_mul b.buf_size 2 else b.buf_size,
          size_add b.offset (to_size_t (env.llama_token_to_piece t).n),
          b.bytes ++ (List.range (to_size_t (env.llama_token_to_piece t).n)).map
            (env.llama_token_to_piece t).piece,
          b.overrun || decide ((if decide (b.buf_size ≤ size_add b.offset
              (to_size_t (env.llama_token_to_piece t).n)) = true
            then size_mul b.buf_size 2 else b.buf_size) <
              b.offset + to_size_t (env.llama_token_to_piece t).n)⟩
        (by
          dsimp only
          split
          · unfold size_mul; omega
          · exact hcap)
        (by
          dsimp only
          intro ho
          simp only [Bool.or_eq_false_iff, decide_eq_false_iff_not, not_lt] at ho
          have h1 := hinv ho.1
          have h2 := ho.2
          have h3 : (if decide (b.buf_size ≤ size_add b.offset
              (to_size_t (env.llama_token_to_piece t).n)) = true
            then size_mul b.buf_size 2 else b.buf_size) < 18446744073709551616 := by
            split
            · unfold size_mul; omega
            · exact hcap
          simp only [List.length_append, List.length_map, List.length_range]
          unfold size_add
          omega)
      refine ⟨w', b', hl, fun ho => ?_⟩
      obtain ⟨h1, h2, h3⟩ := hb ho
      simp only [Bool.or_eq_false_iff] at h1
      refine ⟨h1.1, ?_, h3⟩
      rw [h2]
      simp [rendered, hn]
    · simp only [hn, if_false]
      obtain ⟨w', b', hl, hb⟩ := ih (w.call (NativeCall.llama_token_to_piece vocab t 256 0 true)) b hcap hinv
      refine ⟨w', b', hl, fun ho => ?_⟩
      obtain ⟨h1, h2, h3⟩ := hb ho
      refine ⟨h1, ?_, h3⟩
      rw [h2]
      simp [rendered, hn]

theorem C.fn_detokenize_tagged_value (env : Env) (w : World) (id : Nat) (e : External)
    (tokens : List Int) (rest : List JsValue)
    (hh : w.externals.get? id = some e) (hp : e.data ≠ 0)
    (ht : e.tag = some llama_model_type_tag)
    (hmalloc : env.malloc (size_mul tokens.length 16) = true)
    (hrealloc : ∀ size, env.realloc size = true)
    (hstr : env.js_create_string_utf8 = true)
    (hroom : overruns env w e.data tokens = false) :
    (C.fn_detokenize env w (JsValue.external id :: JsValue.int32array tokens :: rest)).1
      = Outcome.value (JsValue.string (tokens.flatMap (rendered env))) := by
  obtain ⟨w', b', hl, hb⟩ := detokenize_loop_bytes env (env.llama_model_get_vocab e.data) hrealloc
    tokens (w.call (NativeCall.llama_model_get_vocab e.data))
    ⟨size_mul tokens.length 16, 0, [], false⟩ (by unfold size_mul; dsimp only; omega)
    (fun _ => rfl)
  have ho : b'.overrun = false := by
    simpa only [overruns, detokenize_buffer, hl] using hroom
  obtain ⟨-, h2, h3⟩ := hb ho
  have hx : js_get_value_external w (JsValue.external id) = some e.data := by
    show Option.map External.data (w.externals.get? id) = some e.data
    rw [hh]
    rfl
  have hc : js_check_type_tag w (JsValue.external id) llama_model_type_tag = some true := by
    show Option.map (fun e => decide (e.tag = some llama_model_type_tag)) (w.externals.get? id)
      = some true
    rw [hh]
    simp [ht]
  have hargc : ¬ (rest.length + 1 + 1 < 2) := by omega
  unfold C.fn_detokenize
  simp only [List.length_cons, argv, List.getD_cons_succ, List.getD_cons_zero, js_int32array,
    hx, hc, hargc, hmalloc, hstr, hp, hl, h3, h2, if_false, Bool.not_true, Bool.false_eq_true,
    List.nil_append, List.take_length, ne_eq, not_true_eq_false]

/-- C20 (the code misses it): the growth step doubles the capacity once,
whatever the piece needs.  For a single token that renders as 33 bytes the
buffer starts with capacity 16, grows to 32, and the append at offset 0
writes 33 bytes: one byte past the capacity, in both variants. -/
theorem detokenize_single_doubling_overruns :
    detokenize_buffer Env.long_piece Cpp.loaded 0x1000 [7]
      = some ⟨32, 33, List.replicate 33 97, true⟩
    ∧ overruns Env.long_piece Cpp.loaded 0x1000 [7] = true
    ∧ overruns Env.long_piece C.loaded 0x1000 [7] = true
    ∧ js_get_value_external Cpp.loaded (JsValue.external 0) = some 0x1000
    ∧ js_get_value_external C.loaded (JsValue.external 0) = some 0x1000 := by
  decide

/-! ## Decoding -/

theorem new_calls_none (w : World) (o : Outcome) : new_calls w (o, w) = [] := by
  simp [new_calls]

theorem new_calls_one (w : World) (o : Outcome) (c : NativeCall) :
    new_calls w (o, w.call c) = [c] := by
  simp [new_calls, call_trace]

theorem Cpp.fn_decode_status (env : Env) (w : World) (args : List JsValue) :
    ((Cpp.fn_decode env w args).1 = throw_error "Decode failed" ↔
      engine_decodes (new_calls w (Cpp.fn_decode env w args)) = true ∧ env.llama_decode ≠ 0)
    ∧ (engine_decodes (new_calls w (Cpp.fn_decode env w args)) = true →
        env.llama_decode = 0 →
        (Cpp.fn_decode env w args).1 = Outcome.value JsValue.undefined)
    ∧ (engine_decodes (new_calls w (Cpp.fn_decode env w args)) = true →
        ∃ ctx tokens, js_get_value_external w (argv args 0) = some ctx
          ∧ js_int32array (argv args 1) = some tokens
          ∧ new_calls w (Cpp.fn_decode env w args)
            = [NativeCall.llama_decode ctx tokens (wrap32 tokens.length)]) := by
  unfold Cpp.fn_decode
  dsimp only
  repeat' split
  all_goals simp_all [new_calls_none, new_calls_one, engine_decodes, throw_error]

theorem C.fn_decode_engine_status (env : Env) (w : World) (args : List JsValue) :
    ((C.fn_decode env w args).1 = throw_error "Decode failed" ↔
      engine_decodes (new_calls w (C.fn_decode env w args)) = true ∧ env.llama_decode ≠ 0)
    ∧ (engine_decodes (new_calls w (C.fn_decode env w args)) = true →
        env.llama_decode = 0 →
        (C.fn_decode env w args).1 = Outcome.value JsValue.undefined)
    ∧ (engine_decodes (new_calls w (C.fn_decode env w args)) = true →
        ∃ ctx tokens, js_get_value_external w (argv args 0) = some ctx
          ∧ js_int32array (argv args 1) = some tokens
          ∧ new_calls w (C.fn_decode env w args)
            = [NativeCall.llama_decode ctx tokens (wrap32 tokens.length)]) := by
  unfold C.fn_decode
  dsimp only
  repeat' split
  all_goals simp_all [new_calls_none, new_calls_one, engine_decodes, throw_error]

theorem Cpp.fn_decode_batch (env : Env) (w : World) (id : Nat) (e : External)
    (tokens : List Int) (rest : List JsValue)
    (hh : w.externals.get? id = some e) (hp : e.data ≠ 0) :
    new_calls w (Cpp.fn_decode env w (JsValue.external id :: JsValue.int32array tokens :: rest))
      = [NativeCall.llama_decode e.data tokens (wrap32 tokens.length)] := by
  have hx : js_get_value_external w (JsValue.external id) = some e.data := by
    show Option.map External.data (w.externals.get? id) = some e.data
    rw [hh]
    rfl
  have hargc : ¬ (rest.length + 1 + 1 < 2) := by omega
  unfold Cpp.fn_decode
  simp only [List.length_cons, argv, List.getD_cons_succ, List.getD_cons_zero, js_int32array,
    hx, hargc, hp, if_false]
  split <;> exact new_calls_one _ _ _

theorem C.fn_decode_tagged_batch (env : Env) (w : World) (id : Nat) (e : External)
    (tokens : List Int) (rest : List JsValue)
    (hh : w.externals.get? id = some e) (hp : e.data ≠ 0)
    (ht : e.tag = some llama_context_type_tag) :
    new_calls w (C.fn_decode env w (JsValue.external id :: JsValue.int32array tokens :: rest))
      = [NativeCall.llama_decode e.data tokens (wrap32 tokens.length)] := by
  have hx : js_get_value_external w (JsValue.external id) = some e.data := by
    show Option.map External.data (w.externals.get? id) = some e.data
    rw [hh]
    rfl
  have hc : js_check_type_tag w (JsValue.external id) llama_context_type_tag = some true := by
    show Option.map (fun e => decide (e.tag = some llama_context_type_tag)) (w.externals.get? id)
      = some true
    rw [hh]
    simp [ht]
  have hargc : ¬ (rest.length + 1 + 1 < 2) := by omega
  unfold C.fn_decode
  simp only [List.length_cons, argv, List.getD_cons_succ, List.getD_cons_zero, js_int32array,
    hx, hc, hargc, hp, if_false, ne_eq, not_true_eq_false]
  split <;> exact new_calls_one _ _ _

theorem wrap32_of_length (n : Nat) (h : n < 2147483648) : wrap32 (n : Int) = (n : Int) := by
  unfold wrap32
  omega

/-- C12: in both variants `decode` raises "Decode failed" exactly when it has
called `llama_decode` and the call returned a non-zero status; after a call
that returned zero it returns `undefined`.  It calls the engine at most once,
and on a usable context handle (in binding.c one tagged as a context) and an
`Int32Array` it does call it: the batch is the caller's tokens, in order,
with `(int32_t)length` as count, which is the number of tokens of any array
with fewer than `2 ^ 31` elements. -/
theorem decode_failed_iff_engine_status (env : Env) (w : World) (args : List JsValue) :
    (((Cpp.fn_decode env w args).1 = throw_error "Decode failed" ↔
        engine_decodes (new_calls w (Cpp.fn_decode env w args)) = true ∧ env.llama_decode ≠ 0)
      ∧ (engine_decodes (new_calls w (Cpp.fn_decode env w args)) = true →
          env.llama_decode = 0 →
          (Cpp.fn_decode env w args).1 = Outcome.value JsValue.undefined)
      ∧ (engine_decodes (new_calls w (Cpp.fn_decode env w args)) = true →
          ∃ ctx tokens, js_get_value_external w (argv args 0) = some ctx
            ∧ js_int32array (argv args 1) = some tokens
            ∧ new_calls w (Cpp.fn_decode env w args)
              = [NativeCall.llama_decode ctx tokens (wrap32 tokens.length)]))
    ∧ (((C.fn_decode env w args).1 = throw_error "Decode failed" ↔
        engine_decodes (new_calls w (C.fn_decode env w args)) = true ∧ env.llama_decode ≠ 0)
      ∧ (engine_decodes (new_calls w (C.fn_decode env w args)) = true →
          env.llama_decode = 0 →
          (C.fn_decode env w args).1 = Outcome.value JsValue.undefined)
      ∧ (engine_decodes (new_calls w (C.fn_decode env w args)) = true →
          ∃ ctx tokens, js_get_value_external w (argv args 0) = some ctx
            ∧ js_int32array (argv args 1) = some tokens
            ∧ new_calls w (C.fn_decode env w args)
              = [NativeCall.llama_decode ctx tokens (wrap32 tokens.length)]))
    ∧ (∀ id e tokens rest, args = JsValue.external id :: JsValue.int32array tokens :: rest →
        w.externals.get? id = some e → e.data ≠ 0 →
        new_calls w (Cpp.fn_decode env w args)
            = [NativeCall.llama_decode e.data tokens (wrap32 tokens.length)]
          ∧ (e.tag = some llama_context_type_tag →
            new_calls w (C.fn_decode env w args)
              = [NativeCall.llama_decode e.data tokens (wrap32 tokens.length)])
          ∧ (tokens.length < 2147483648 → wrap32 tokens.length = tokens.length)) := by
  refine ⟨Cpp.fn_decode_status env w args, C.fn_decode_engine_status env w args, ?_⟩
  intro id e tokens rest hargs hh hp
  subst hargs
  exact ⟨Cpp.fn_decode_batch env w id e tokens rest hh hp,
    fun ht => C.fn_decode_tagged_batch env w id e tokens rest hh hp ht,
    wrap32_of_length tokens.length⟩

/-- Witness of C12: the context handle `1` of the concrete run and three
tokens, with an engine that rejects the batch and with one that accepts it. -/
theorem decode_failed_iff_engine_status_witness :
    (Cpp.fn_decode Env.decode_fails Cpp.loaded
        [JsValue.external 1, JsValue.int32array [1, 15043, 3186]]).1
      = throw_error "Decode failed"
    ∧ (Cpp.fn_decode Env.nominal Cpp.loaded
        [JsValue.external 1, JsValue.int32array [1, 15043, 3186]]).1
      = Outcome.value JsValue.undefined
    ∧ new_calls Cpp.loaded (Cpp.fn_decode Env.nominal Cpp.loaded
        [JsValue.external 1, JsValue.int32array [1, 15043, 3186]])
      = [NativeCall.llama_decode 0x2000 [1, 15043, 3186] 3] :=
  ⟨(decode_failed_iff_engine_status Env.decode_fails Cpp.loaded
      [JsValue.external 1, JsValue.int32array [1, 15043, 3186]]).1.1.2 ⟨by decide, by decide⟩,
    (decode_failed_iff_engine_status Env.nominal Cpp.loaded
      [JsValue.external 1, JsValue.int32array [1, 15043, 3186]]).1.2.1 (by decide) (by decide),
    ((decode_failed_iff_engine_status Env.nominal Cpp.loaded
      [JsValue.external 1, JsValue.int32array [1, 15043, 3186]]).2.2
        1 ⟨0x2000, Kind.context, none⟩ [1, 15043, 3186] [] rfl (by decide) (by decide)).1⟩

/-! ## Embeddings -/

theorem Cpp.embeddings_array_cases (env : Env) (w : World) (ctx : Ptr) (emb : Nat → F32) :
    ((Cpp.embeddings_array env w ctx emb).1 =
        (if env.js_create_arraybuffer = false then throw_error "Failed to create array buffer"
         else if env.js_create_typedarray = false then throw_error "Failed to create typed array"
         else Outcome.value
          (JsValue.float32array ((List.range env.llama_model_n_embd.toNat).map emb))))
    ∧ (Cpp.embeddings_array env w ctx emb).2.trace
        = w.trace ++ [NativeCall.llama_get_model ctx,
            NativeCall.llama_model_n_embd env.llama_get_model] := by
  unfold Cpp.embeddings_array
  dsimp only
  cases hab : env.js_create_arraybuffer <;> cases hta : env.js_create_typedarray <;>
    simp [call_trace]

/-- C14 (counterexample): on the handle `3` of a context created with
`{ embeddings: true }` the engine has a pooled embedding for the sequence,
but the runtime cannot create the `ArrayBuffer` for the result;
`getEmbeddings` raises "Failed to create array buffer" and returns no
embedding. -/
theorem embeddings_pooled_but_no_array :
    (Cpp.fn_create_context Env.nominal Cpp.loaded
        [JsValue.external 0, JsValue.object opts_embeddings])
      = (Outcome.value (JsValue.external 3), Cpp.with_embeddings)
    ∧ (Env.no_arraybuffer.for_context
        (Cpp.context_params 2 (JsValue.object opts_embeddings))).llama_get_embeddings_seq.isSome
      = true
    ∧ (Cpp.fn_get_embeddings
        (Env.no_arraybuffer.for_context (Cpp.context_params 2 (JsValue.object opts_embeddings)))
        Cpp.with_embeddings [JsValue.external 3, JsValue.number 0]).1
      = throw_error "Failed to create array buffer" := by
  decide

theorem Cpp.fn_get_embeddings_unavailable (env : Env) (w : World) (id : Nat) (e : External)
    (idx : Int) (rest : List JsValue) (hh : w.externals.get? id = some e) (hp : e.data ≠ 0)
    (hs : env.llama_get_embeddings_seq = none) (hi : env.llama_get_embeddings_ith = none) :
    (Cpp.fn_get_embeddings env w (JsValue.external id :: JsValue.number idx :: rest)).1
      = throw_error "Failed to get embeddings (context may not have embeddings enabled)" := by
  have hx : js_get_value_external w (JsValue.external id) = some e.data := by
    show Option.map External.data (w.externals.get? id) = some e.data
    rw [hh]
    rfl
  have hargc : ¬ (rest.length + 1 + 1 < 2) := by omega
  unfold Cpp.fn_get_embeddings
  simp only [List.length_cons, argv, List.getD_cons_succ, List.getD_cons_zero,
    js_get_value_int32, hx, hargc, hp, if_false, hs, hi]

/-- A handle returned by `createContext` of binding.cpp wraps the non-null
pointer the engine returned for the parameters read from the options. -/
theorem Cpp.fn_create_context_returns (env : Env) (w : World) (args : List JsValue) (h : Nat)
    (hv : (Cpp.fn_create_context env w args).1 = Outcome.value (JsValue.external h)) :
    (Cpp.fn_create_context env w args).2.externals.get? h
        = some ⟨env.llama_init_from_model, Kind.context, none⟩
    ∧ env.llama_init_from_model ≠ 0
    ∧ context_created_with (new_calls w (Cpp.fn_create_context env w args))
        = some (Cpp.context_params args.length (argv args 1)) := by
  unfold Cpp.fn_create_context at hv ⊢
  dsimp only at hv ⊢
  repeat' split
  all_goals simp_all [throw_error, World.create_external, new_calls, call_trace,
    context_created_with]

theorem Cpp.fn_get_embeddings_lookup (env : Env) (w : World) (id : Nat) (e : External) (idx : Int)
    (rest : List JsValue) (hh : w.externals.get? id = some e) (hp : e.data ≠ 0) :
    (∀ emb, env.llama_get_embeddings_seq = some emb →
        env.js_create_arraybuffer = true → env.js_create_typedarray = true →
        (Cpp.fn_get_embeddings env w (JsValue.external id :: JsValue.number idx :: rest)).1
            = Outcome.value
              (JsValue.float32array ((List.range env.llama_model_n_embd.toNat).map emb))
          ∧ new_calls w
              (Cpp.fn_get_embeddings env w (JsValue.external id :: JsValue.number idx :: rest))
            = [NativeCall.llama_get_embeddings_seq e.data (if 0 ≤ idx then idx else 0),
                NativeCall.llama_get_model e.data,
                NativeCall.llama_model_n_embd env.llama_get_model])
    ∧ (∀ emb, env.llama_get_embeddings_seq = none → env.llama_get_embeddings_ith = some emb →
        env.js_create_arraybuffer = true → env.js_create_typedarray = true →
        (Cpp.fn_get_embeddings env w (JsValue.external id :: JsValue.number idx :: rest)).1
            = Outcome.value
              (JsValue.float32array ((List.range env.llama_model_n_embd.toNat).map emb))
          ∧ new_calls w
              (Cpp.fn_get_embeddings env w (JsValue.external id :: JsValue.number idx :: rest))
            = [NativeCall.llama_get_embeddings_seq e.data (if 0 ≤ idx then idx else 0),
                NativeCall.llama_get_embeddings_ith e.data idx,
                NativeCall.llama_get_model e.data,
                NativeCall.llama_model_n_embd env.llama_get_model])
    ∧ ((Cpp.fn_get_embeddings env w (JsValue.external id :: JsValue.number idx :: rest)).1
          = throw_error "Failed to get embeddings (context may not have embeddings enabled)" ↔
        env.llama_get_embeddings_seq = none ∧ env.llama_get_embeddings_ith = none)
    ∧ (¬ (env.llama_get_embeddings_seq = none ∧ env.llama_get_embeddings_ith = none) →
        env.js_create_arraybuffer = false →
        (Cpp.fn_get_embeddings env w (JsValue.external id :: JsValue.number idx :: rest)).1
          = throw_error "Failed to create array buffer")
    ∧ (¬ (env.llama_get_embeddings_seq = none ∧ env.llama_get_embeddings_ith = none) →
        env.js_create_arraybuffer = true → env.js_create_typedarray = false →
        (Cpp.fn_get_embeddings env w (JsValue.external id :: JsValue.number idx :: rest)).1
          = throw_error "Failed to create typed array")
    ∧ (∀ xs,
        (Cpp.fn_get_embeddings env w (JsValue.external id :: JsValue.number idx :: rest)).1
          = Outcome.value (JsValue.float32array xs) →
        xs.length = env.llama_model_n_embd.toNat
          ∧ (0 ≤ env.llama_model_n_embd → (xs.length : Int) = env.llama_model_n_embd)) := by
  have hx : js_get_value_external w (JsValue.external id) = some e.data := by
    show Option.map External.data (w.externals.get? id) = some e.data
    rw [hh]
    rfl
  have hargc : ¬ (rest.length + 1 + 1 < 2) := by omega
  unfold Cpp.fn_get_embeddings
  simp only [List.length_cons, argv, List.getD_cons_succ, List.getD_cons_zero,
    js_get_value_int32, hx, hargc, hp, if_false]
  cases hs : env.llama_get_embeddings_seq with
  | some emb =>
    cases hab : env.js_create_arraybuffer <;> cases hta : env.js_create_typedarray <;>
      simp [new_calls, call_trace, Cpp.embeddings_array_cases, hab, hta, throw_error]
  | none =>
    cases hi : env.llama_get_embeddings_ith with
    | some emb =>
      cases hab : env.js_create_arraybuffer <;> cases hta : env.js_create_typedarray <;>
        simp [new_calls, call_trace, Cpp.embeddings_array_cases, hab, hta, throw_error]
    | none => simp [throw_error]

/-- C14 (amended): on a usable context handle and a numeric index,
`getEmbeddings` asks the engine for the pooled embedding of sequence `index`
(of sequence `0` for a negative index) and, only if there is none, for the
embedding of token `index`.  It returns the first `n_embd` floats of the
pooled embedding if the engine has one, else of the per-token embedding if
the engine has one, provided the result array can be created, and raises
"Failed to create array buffer" or "Failed to create typed array" if it
cannot.  It raises the embeddings-unavailable error exactly when the engine
has neither, as it does on a handle returned by `createContext` for a context
that was not created with `embeddings: true`: the flag read from the options
is the one handed to `llama_init_from_model`, and for such a context the
engine, as the specification describes it, has no embedding.  A returned
array has as many elements as the embedding dimension of the model. -/
theorem embeddings_lookup_order (env : Env) (w : World) (id : Nat) (e : External) (idx : Int)
    (rest : List JsValue) (hh : w.externals.get? id = some e) (hp : e.data ≠ 0) :
    (∀ emb, env.llama_get_embeddings_seq = some emb →
        env.js_create_arraybuffer = true → env.js_create_typedarray = true →
        (Cpp.fn_get_embeddings env w (JsValue.external id :: JsValue.number idx :: rest)).1
            = Outcome.value
              (JsValue.float32array ((List.range env.llama_model_n_embd.toNat).map emb))
          ∧ new_calls w
              (Cpp.fn_get_embeddings env w (JsValue.external id :: JsValue.number idx :: rest))
            = [NativeCall.llama_get_embeddings_seq e.data (if 0 ≤ idx then idx else 0),
                NativeCall.llama_get_model e.data,
                NativeCall.llama_model_n_embd env.llama_get_model])
    ∧ (∀ emb, env.llama_get_embeddings_seq = none → env.llama_get_embeddings_ith = some emb →
        env.js_create_arraybuffer = true → env.js_create_typedarray = true →
        (Cpp.fn_get_embeddings env w (JsValue.external id :: JsValue.number idx :: rest)).1
            = Outcome.value
              (JsValue.float32array ((List.range env.llama_model_n_embd.toNat).map emb))
          ∧ new_calls w
              (Cpp.fn_get_embeddings env w (JsValue.external id :: JsValue.number idx :: rest))
            = [NativeCall.llama_get_embeddings_seq e.data (if 0 ≤ idx then idx else 0),
                NativeCall.llama_get_embeddings_ith e.data idx,
                NativeCall.llama_get_model e.data,
                NativeCall.llama_model_n_embd env.llama_get_model])
    ∧ ((Cpp.fn_get_embeddings env w (JsValue.external id :: JsValue.number idx :: rest)).1
          = throw_error "Failed to get embeddings (context may not have embeddings enabled)" ↔
        env.llama_get_embeddings_seq = none ∧ env.llama_get_embeddings_ith = none)
    ∧ (¬ (env.llama_get_embeddings_seq = none ∧ env.llama_get_embeddings_ith = none) →
        env.js_create_arraybuffer = false →
        (Cpp.fn_get_embeddings env w (JsValue.external id :: JsValue.number idx :: rest)).1
          = throw_error "Failed to create array buffer")
    ∧ (¬ (env.llama_get_embeddings_seq = none ∧ env.llama_get_embeddings_ith = none) →
        env.js_create_arraybuffer = true → env.js_create_typedarray = false →
        (Cpp.fn_get_embeddings env w (JsValue.external id :: JsValue.number idx :: rest)).1
          = throw_error "Failed to create typed array")
    ∧ (∀ xs,
        (Cpp.fn_get_embeddings env w (JsValue.external id :: JsValue.number idx :: rest)).1
          = Outcome.value (JsValue.float32array xs) →
        xs.length = env.llama_model_n_embd.toNat
          ∧ (0 ≤ env.llama_model_n_embd → (xs.length : Int) = env.llama_model_n_embd))
    ∧ (∀ (env0 : Env) (v : World) (cargs : List JsValue) (h : Nat),
        (Cpp.fn_create_context env0 v cargs).1 = Outcome.value (JsValue.external h) →
        ∃ p, context_created_with (new_calls v (Cpp.fn_create_context env0 v cargs)) = some p
          ∧ p = Cpp.context_params cargs.length (argv cargs 1)
          ∧ (∀ (x : JsValue) (o : JsObject) (more : List JsValue),
              cargs = x :: JsValue.object o :: more → p.embeddings = o.embeddings)
          ∧ (cargs.length < 2 → p.embeddings = none)
          ∧ (p.embeddings = some true → env.for_context p = env)
          ∧ (p.embeddings ≠ some true →
            (Cpp.fn_get_embeddings (env.for_context p) (Cpp.fn_create_context env0 v cargs).2
                (JsValue.external h :: JsValue.number idx :: rest)).1
              = throw_error
                "Failed to get embeddings (context may not have embeddings enabled)")) := by
  obtain ⟨h1, h2, h3, h4, h5, h6⟩ := Cpp.fn_get_embeddings_lookup env w id e idx rest hh hp
  refine ⟨h1, h2, h3, h4, h5, h6, ?_⟩
  intro env0 v cargs h hv
  obtain ⟨hget, hne, hcw⟩ := Cpp.fn_create_context_returns env0 v cargs h hv
  refine ⟨_, hcw, rfl, ?_, ?_, fun ht => by simp [Env.for_context, ht], fun hf => ?_⟩
  · intro x o more hc
    subst hc
    simp [Cpp.context_params, argv, js_object]
  · intro hc
    have : ¬ 2 ≤ cargs.length := by omega
    simp [Cpp.context_params, this]
  apply Cpp.fn_get_embeddings_unavailable _ _ h _ idx rest hget hne
  · simp [Env.for_context, hf]
  · simp [Env.for_context, hf]

/-- Witness of C14 (as amended): on the handle `3` of a context created with
`{ embeddings: true }`, a pooled embedding and a per-token embedding; on the
handle `1` of a context created without options, an engine that has neither;
and the handle of a context created with `{ embeddings: false }`, on an engine
that would have a pooled embedding for a context with embeddings. -/
theorem embeddings_lookup_order_witness :
    (Cpp.fn_get_embeddings Env.pooled Cpp.with_embeddings
        [JsValue.external 3, JsValue.number 0]).1
      = Outcome.value (JsValue.float32array
          [⟨0x3F800000⟩, ⟨0x40000000⟩, ⟨0x40400000⟩, ⟨0x40800000⟩])
    ∧ (Cpp.fn_get_embeddings Env.per_token Cpp.with_embeddings
        [JsValue.external 3, JsValue.number 2]).1
      = Outcome.value (JsValue.float32array
          [⟨0x3F800000⟩, ⟨0x40000000⟩, ⟨0x40400000⟩, ⟨0x40800000⟩])
    ∧ (Cpp.fn_get_embeddings Env.nominal Cpp.loaded [JsValue.external 1, JsValue.number 0]).1
      = throw_error "Failed to get embeddings (context may not have embeddings enabled)"
    ∧ (Cpp.fn_create_context Env.nominal Cpp.loaded
        [JsValue.external 0, JsValue.object opts_no_embeddings]).1
      = Outcome.value (JsValue.external 3)
    ∧ (Cpp.fn_get_embeddings
          (Env.pooled.for_context (Cpp.context_params 2 (JsValue.object opts_no_embeddings)))
          (Cpp.fn_create_context Env.nominal Cpp.loaded
            [JsValue.external 0, JsValue.object opts_no_embeddings]).2
          [JsValue.external 3, JsValue.number 0]).1
      = throw_error "Failed to get embeddings (context may not have embeddings enabled)" := by
  refine ⟨((embeddings_lookup_order Env.pooled Cpp.with_embeddings 3
      ⟨0x2000, Kind.context, none⟩ 0 [] (by decide) (by decide)).1 floats_1234 rfl rfl rfl).1,
    ((embeddings_lookup_order Env.per_token Cpp.with_embeddings 3
      ⟨0x2000, Kind.context, none⟩ 2 [] (by decide) (by decide)).2.1
      floats_1234 rfl rfl rfl rfl).1,
    (embeddings_lookup_order Env.nominal Cpp.loaded 1 ⟨0x2000, Kind.context, none⟩ 0 []
      (by decide) (by decide)).2.2.1.2 ⟨rfl, rfl⟩, by decide, ?_⟩
  obtain ⟨p, -, hp, -, -, -, hf⟩ :=
    (embeddings_lookup_order Env.pooled Cpp.loaded 1 ⟨0x2000, Kind.context, none⟩ 0 []
      (by decide) (by decide)).2.2.2.2.2.2 Env.nominal Cpp.loaded
      [JsValue.external 0, JsValue.object opts_no_embeddings] 3 (by decide)
  subst hp
  exact hf (by decide)

/-! ## Log level control -/

theorem strncmp_eq_zero_iff (p : List Nat) (hp : ∀ b ∈ p, b ≠ 0) (text : List Nat) :
    strncmp text p p.length = 0 ↔ p <+: text := by
  induction p generalizing text with
  | nil => simp [strncmp]
  | cons b bs ih =>
    have hb : b ≠ 0 := hp b (List.mem_cons_self _ _)
    have hbs : ∀ c ∈ bs, c ≠ 0 := fun c hc => hp c (List.mem_cons_of_mem _ hc)
    cases text with
    | nil => simp [strncmp, hb]
    | cons a as =>
      by_cases hab : a = b
      · subst hab
        simp [strncmp, ih hbs as, List.cons_prefix_cons]
      · have : (a : Int) - (b : Int) ≠ 0 := by omega
        simp [strncmp, hab, List.cons_prefix_cons, this, Ne.symm hab]

theorem strncmp_llg_error (text : List Nat) :
    strncmp text llg_error 10 = 0 ↔ llg_error <+: text :=
  strncmp_eq_zero_iff llg_error (by decide) text

theorem set_log_levels_append (s : LogState) (xs ys : List (List JsValue)) :
    set_log_levels s (xs ++ ys) = set_log_levels (set_log_levels s xs) ys := by
  induction xs generalizing s with
  | nil => rfl
  | cons a t ih => exact ih _

theorem Cpp.fn_set_log_level_agrees (s : LogState) (args : List JsValue) :
    ((Cpp.fn_set_log_level s args).2.common_log_paused = true ↔
      (Cpp.fn_set_log_level s args).2.g_log_level = 0)
    ∧ (Cpp.fn_set_log_level s args).2.quiet_log_callback_set = true := by
  unfold Cpp.fn_set_log_level
  dsimp only
  repeat' split
  all_goals simp_all

theorem set_log_levels_agree (s : LogState) (calls : List (List JsValue))
    (h : (s.common_log_paused = true ↔ s.g_log_level = 0) ∧ s.quiet_log_callback_set = true) :
    ((set_log_levels s calls).common_log_paused = true ↔ (set_log_levels s calls).g_log_level = 0)
    ∧ (set_log_levels s calls).quiet_log_callback_set = true := by
  induction calls generalizing s with
  | nil => exact h
  | cons a t ih => exact ih _ (Cpp.fn_set_log_level_agrees s a)

theorem Cpp.fn_set_log_level_number (s : LogState) (l : Int) :
    Cpp.fn_set_log_level s [JsValue.number l]
      = (Outcome.value JsValue.undefined, ⟨l, true, decide (l = 0), s.stderr⟩) := by
  unfold Cpp.fn_set_log_level
  by_cases h : l = 0 <;> simp [argv, js_get_value_int32, h]

/-- C15: the log level is `2` ("all") when the addon has been loaded and
`setLogLevel` has not been called.  At level `2`, whether initial or set by
`setLogLevel(2)`, the callback writes the text of every message to `stderr`
unchanged, whatever the severity; at level `0`, as set by `setLogLevel(0)`,
it writes nothing. -/
theorem log_level_all_and_silent (s : LogState) (level : Int) (text : List Nat) :
    LogState.initial.g_log_level = 2
    ∧ Cpp.quiet_log_callback LogState.initial level text
        = { LogState.initial with stderr := text }
    ∧ Cpp.quiet_log_callback { s with g_log_level := 2 } level text
        = { s with g_log_level := 2, stderr := s.stderr ++ text }
    ∧ Cpp.quiet_log_callback { s with g_log_level := 0 } level text
        = { s with g_log_level := 0 }
    ∧ (Cpp.quiet_log_callback (Cpp.fn_set_log_level s [JsValue.number 2]).2 level text).stderr
        = s.stderr ++ text
    ∧ (Cpp.quiet_log_callback (Cpp.fn_set_log_level s [JsValue.number 0]).2 level text).stderr
        = s.stderr := by
  simp [Cpp.quiet_log_callback, LogState.initial, Cpp.fn_set_log_level_number]

/-- C16 (the code misses it): in errors-only mode (level `1`) the callback
drops a message without the prefix "llg error:" only when its severity is
above `GGML_LOG_LEVEL_ERROR`, and writes it at every severity up to the
error level: messages of debug, info and warning severity are written. -/
theorem errors_only_writes_up_to_error (s : LogState) (level : Int) (text : List Nat)
    (hstart : ¬ llg_error <+: text) :
    (level ≤ GGML_LOG_LEVEL_ERROR →
      Cpp.quiet_log_callback { s with g_log_level := 1 } level text
        = { s with g_log_level := 1, stderr := s.stderr ++ text })
    ∧ (GGML_LOG_LEVEL_ERROR < level →
      Cpp.quiet_log_callback { s with g_log_level := 1 } level text
        = { s with g_log_level := 1 }) := by
  have h : ¬ strncmp text llg_error 10 = 0 := fun h => hstart ((strncmp_llg_error text).1 h)
  constructor
  · intro hl
    have : ¬ level > GGML_LOG_LEVEL_ERROR := not_lt.mpr hl
    simp [Cpp.quiet_log_callback, h, this]
  · intro hl
    have : level > GGML_LOG_LEVEL_ERROR := hl
    simp [Cpp.quiet_log_callback, h, this]

/-- Witness of C16: after `setLogLevel(1)` the text "load\n" is written at
debug, info and warning severity, and dropped as a continuation line. -/
theorem errors_only_writes_up_to_error_witness :
    (Cpp.fn_set_log_level LogState.initial [JsValue.number 1]).2 = ⟨1, true, false, []⟩
    ∧ Cpp.quiet_log_callback ⟨1, true, false, []⟩ GGML_LOG_LEVEL_DEBUG text_load
        = ⟨1, true, false, text_load⟩
    ∧ Cpp.quiet_log_callback ⟨1, true, false, []⟩ GGML_LOG_LEVEL_INFO text_load
        = ⟨1, true, false, text_load⟩
    ∧ Cpp.quiet_log_callback ⟨1, true, false, []⟩ GGML_LOG_LEVEL_WARN text_load
        = ⟨1, true, false, text_load⟩
    ∧ Cpp.quiet_log_callback ⟨1, true, false, []⟩ GGML_LOG_LEVEL_NONE text_load
        = ⟨1, true, false, text_load⟩
    ∧ Cpp.quiet_log_callback ⟨1, true, false, []⟩ GGML_LOG_LEVEL_CONT text_load
        = ⟨1, true, false, []⟩ :=
  ⟨by decide,
    (errors_only_writes_up_to_error ⟨1, true, false, []⟩ GGML_LOG_LEVEL_DEBUG text_load
      (by decide)).1 (by decide),
    (errors_only_writes_up_to_error ⟨1, true, false, []⟩ GGML_LOG_LEVEL_INFO text_load
      (by decide)).1 (by decide),
    (errors_only_writes_up_to_error ⟨1, true, false, []⟩ GGML_LOG_LEVEL_WARN text_load
      (by decide)).1 (by decide),
    (errors_only_writes_up_to_error ⟨1, true, false, []⟩ GGML_LOG_LEVEL_NONE text_load
      (by decide)).1 (by decide),
    (errors_only_writes_up_to_error ⟨1, true, false, []⟩ GGML_LOG_LEVEL_CONT text_load
      (by decide)).2 (by decide)⟩

/-- C17: in errors-only mode (level `1`) the callback writes nothing for a
message whose text begins with the 10 bytes "llg error:", whatever its
severity, the error level included; a message of error severity whose text
does not begin with them is written to `stderr` unchanged. -/
theorem errors_only_llg_filter (s : LogState) (level : Int) (text : List Nat) :
    Cpp.quiet_log_callback { s with g_log_level := 1 } level (llg_error ++ text)
        = { s with g_log_level := 1 }
    ∧ (¬ llg_error <+: text →
      Cpp.quiet_log_callback { s with g_log_level := 1 } GGML_LOG_LEVEL_ERROR text
        = { s with g_log_level := 1, stderr := s.stderr ++ text }) := by
  constructor
  · have h : strncmp (llg_error ++ text) llg_error 10 = 0 :=
      (strncmp_llg_error _).2 (List.prefix_append _ _)
    simp [Cpp.quiet_log_callback, h]
  · intro hstart
    have h : ¬ strncmp text llg_error 10 = 0 := fun h => hstart ((strncmp_llg_error text).1 h)
    simp [Cpp.quiet_log_callback, h, GGML_LOG_LEVEL_ERROR]

/-- Witness of C17: at error severity "llg error: eos\n" is dropped and
"load\n" is written. -/
theorem errors_only_llg_filter_witness :
    Cpp.quiet_log_callback ⟨1, true, false, []⟩ GGML_LOG_LEVEL_ERROR text_llg
        = ⟨1, true, false, []⟩
    ∧ Cpp.quiet_log_callback ⟨1, true, false, []⟩ GGML_LOG_LEVEL_ERROR text_load
        = ⟨1, true, false, text_load⟩ :=
  ⟨(errors_only_llg_filter ⟨1, true, false, []⟩ GGML_LOG_LEVEL_ERROR
      [32, 101, 111, 115, 10]).1,
    (errors_only_llg_filter ⟨1, true, false, []⟩ 0 text_load).2 (by decide)⟩

/-- C18: after any sequence of `setLogLevel` calls, with any arguments, on
the state in which the addon starts, the log of the common library is paused
exactly when `g_log_level`, the level the callback applies, is `0`, and
`quiet_log_callback` is the registered callback.  After a call with an int32
level `l`, from any state, `g_log_level` is `l`, whatever was set before, and
the common log is paused exactly when `l` is `0`. -/
theorem set_log_level_keeps_logs_in_step (calls : List (List JsValue)) (s : LogState)
    (l : Int) :
    ((set_log_levels LogState.initial calls).common_log_paused = true ↔
        (set_log_levels LogState.initial calls).g_log_level = 0)
    ∧ (set_log_levels LogState.initial calls).quiet_log_callback_set = true
    ∧ (set_log_levels s (calls ++ [[JsValue.number l]])).g_log_level = l
    ∧ ((set_log_levels s (calls ++ [[JsValue.number l]])).common_log_paused = true ↔ l = 0)
    ∧ (set_log_levels s (calls ++ [[JsValue.number l]])).quiet_log_callback_set = true
    ∧ (Cpp.fn_set_log_level s [JsValue.number l]).1 = Outcome.value JsValue.undefined := by
  have h0 := set_log_levels_agree LogState.initial calls (by decide)
  refine ⟨h0.1, h0.2, ?_⟩
  simp [set_log_levels_append, set_log_levels, Cpp.fn_set_log_level_number]

/-! ## The two variants side by side -/

theorem C.tokenize_buffer_same (env : Env) (w : World) (vocab : Ptr) (text : List Nat)
    (add_bos : Bool) :
    C.tokenize_buffer env w vocab text add_bos = Cpp.tokenize_buffer env w vocab text add_bos :=
  rfl

theorem correctly_tagged_check (op : Op) (w : World) (args : List JsValue) (i : Nat) (k : Kind)
    (h : correctly_tagged op w args = true) (hm : (i, k) ∈ op.handles) :
    js_check_type_tag w (argv args i) (type_tag k) = some true ∨
      (js_check_type_tag w (argv args i) (type_tag k) ≠ some true ∧
        js_get_value_external w (argv args i) = none) := by
  unfold correctly_tagged at h
  rw [List.all_eq_true] at h
  have hx := h (i, k) hm
  dsimp only at hx
  generalize argv args i = x at hx ⊢
  cases x with
  | external id =>
    simp only [js_check_type_tag, js_get_value_external]
    cases hg : w.externals.get? id with
    | none => simp
    | some e =>
      simp only [hg] at hx
      left
      simpa using hx
  | _ => simp [js_check_type_tag, js_get_value_external]

theorem C.fn_decode_same (env : Env) (w : World) (args : List JsValue)
    (h : correctly_tagged Op.decode w args = true) :
    C.fn_decode env w args = Cpp.fn_decode env w args := by
  unfold C.fn_decode Cpp.fn_decode
  rcases correctly_tagged_check Op.decode w args 0 Kind.context h (by simp [Op.handles])
    with hc | ⟨hc, hg⟩
  · simp only [type_tag] at hc
    simp [hc]
  · simp only [type_tag] at hc hg
    simp [hc, hg]

theorem C.fn_detokenize_same (env : Env) (w : World) (args : List JsValue)
    (h : correctly_tagged Op.detokenize w args = true) :
    C.fn_detokenize env w args = Cpp.fn_detokenize env w args := by
  unfold C.fn_detokenize Cpp.fn_detokenize
  rcases correctly_tagged_check Op.detokenize w args 0 Kind.model h (by simp [Op.handles])
    with hc | ⟨hc, hg⟩
  · simp only [type_tag] at hc
    simp [hc]
  · simp only [type_tag] at hc hg
    simp [hc, hg]

theorem C.fn_tokenize_same (env : Env) (w : World) (args : List JsValue)
    (h : correctly_tagged Op.tokenize w args = true) :
    C.fn_tokenize env w args = Cpp.fn_tokenize env w args := by
  unfold C.fn_tokenize Cpp.fn_tokenize
  rcases correctly_tagged_check Op.tokenize w args 0 Kind.model h (by simp [Op.handles])
    with hc | ⟨hc, hg⟩
  · simp only [type_tag] at hc
    simp [hc, C.tokenize_buffer_same]
  · simp only [type_tag] at hc hg
    simp [hc, hg]

theorem C.fn_accept_token_same (env : Env) (w : World) (args : List JsValue)
    (h : correctly_tagged Op.acceptToken w args = true) :
    C.fn_accept_token env w args = Cpp.fn_accept_token env w args := by
  unfold C.fn_accept_token Cpp.fn_accept_token
  rcases correctly_tagged_check Op.acceptToken w args 0 Kind.sampler h (by simp [Op.handles])
    with hc | ⟨hc, hg⟩
  · simp only [type_tag] at hc
    simp [hc]
  · simp only [type_tag] at hc hg
    simp [hc, hg]

theorem C.fn_is_eog_token_same (env : Env) (w : World) (args : List JsValue)
    (h : correctly_tagged Op.isEogToken w args = true) :
    C.fn_is_eog_token env w args = Cpp.fn_is_eog_token env w args := by
  unfold C.fn_is_eog_token Cpp.fn_is_eog_token
  rcases correctly_tagged_check Op.isEogToken w args 0 Kind.model h (by simp [Op.handles])
    with hc | ⟨hc, hg⟩
  · simp only [type_tag] at hc
    simp [hc]
  · simp only [type_tag] at hc hg
    simp [hc, hg]

theorem C.fn_sample_same (env : Env) (w : World) (args : List JsValue)
    (h : correctly_tagged Op.sample w args = true) :
    C.fn_sample env w args = Cpp.fn_sample env w args := by
  unfold C.fn_sample Cpp.fn_sample
  rcases correctly_tagged_check Op.sample w args 0 Kind.context h (by simp [Op.handles])
    with hc | ⟨hc, hg⟩ <;>
  rcases correctly_tagged_check Op.sample w args 1 Kind.sampler h (by simp [Op.handles])
    with hs | ⟨hs, hgs⟩
  · simp only [type_tag] at hc hs
    simp [hc, hs]
  · simp only [type_tag] at hc hs hgs
    simp [hc, hs, hgs]
  · simp only [type_tag] at hc hg
    simp [hc, hg]
  · simp only [type_tag] at hc hg
    simp [hc, hg]

theorem correctly_tagged_handle (op : Op) (k : Kind) (w : World) (id : Nat) (e : External)
    (rest : List JsValue) (hop : op.handles = [(0, k)])
    (hh : w.externals.get? id = some e) (ht : e.tag = some (type_tag k)) :
    correctly_tagged op w (JsValue.external id :: rest) = true := by
  unfold correctly_tagged
  rw [hop]
  simp only [List.all_cons, List.all_nil, Bool.and_true, argv, List.getD_cons_zero, hh, ht,
    decide_True]

/-- C23: for `tokenize`, `detokenize`, `decode`, `sample`, `acceptToken` and
`isEogToken`, on every argument list in which each external passed as a
handle carries the tag of the kind the operation expects, the callback of
binding.c and the callback of binding.cpp give the same outcome and leave
the same world, so they make the same engine calls with the same arguments;
and binding.cpp does so on any world with the same pointers behind the
handles, tagged or not. -/
theorem variants_agree_on_tagged_handles (op : Op) (env : Env) (w v : World)
    (args : List JsValue) (hop : op.on_tokens = true)
    (htag : correctly_tagged op w args = true) (hsame : same_pointers w v) :
    ∃ f, C.addon_exports op = some f
      ∧ f env w args = Cpp.addon_exports op env w args
      ∧ (f env w args).1 = (Cpp.addon_exports op env v args).1
      ∧ new_calls w (f env w args) = new_calls v (Cpp.addon_exports op env v args) := by
  have key : ∀ f : Callback, f env w args = Cpp.addon_exports op env w args →
      (f env w args).1 = (Cpp.addon_exports op env v args).1
      ∧ new_calls w (f env w args) = new_calls v (Cpp.addon_exports op env v args) := by
    intro f hf
    obtain ⟨h1, h2⟩ := Cpp.pointers_only op env w v hsame args
    rw [hf]
    refine ⟨h1, ?_⟩
    unfold new_calls
    rw [h2.1, hsame.1]
  cases op <;> simp only [Op.on_tokens, Bool.false_eq_true] at hop
  case tokenize =>
    exact ⟨C.fn_tokenize, rfl, C.fn_tokenize_same env w args htag,
      key _ (C.fn_tokenize_same env w args htag)⟩
  case detokenize =>
    exact ⟨C.fn_detokenize, rfl, C.fn_detokenize_same env w args htag,
      key _ (C.fn_detokenize_same env w args htag)⟩
  case decode =>
    exact ⟨C.fn_decode, rfl, C.fn_decode_same env w args htag,
      key _ (C.fn_decode_same env w args htag)⟩
  case sample =>
    exact ⟨C.fn_sample, rfl, C.fn_sample_same env w args htag,
      key _ (C.fn_sample_same env w args htag)⟩
  case acceptToken =>
    exact ⟨C.fn_accept_token, rfl, C.fn_accept_token_same env w args htag,
      key _ (C.fn_accept_token_same env w args htag)⟩
  case isEogToken =>
    exact ⟨C.fn_is_eog_token, rfl, C.fn_is_eog_token_same env w args htag,
      key _ (C.fn_is_eog_token_same env w args htag)⟩

/-- Witness of C23: `sample` on the context and sampler handles of the
concrete run of binding.c, against binding.cpp on the same pointers without
tags. -/
theorem variants_agree_on_tagged_handles_witness :
    (C.fn_sample Env.nominal C.loaded
        [JsValue.external 1, JsValue.external 2, JsValue.number 0]).1
      = Outcome.value (JsValue.number 15043)
    ∧ (Cpp.fn_sample Env.nominal C.untagged
        [JsValue.external 1, JsValue.external 2, JsValue.number 0]).1
      = Outcome.value (JsValue.number 15043)
    ∧ new_calls C.untagged (Cpp.fn_sample Env.nominal C.untagged
        [JsValue.external 1, JsValue.external 2, JsValue.number 0])
      = [NativeCall.llama_sampler_sample 0x3000 0x2000 0] := by
  obtain ⟨f, hf, h1, h2, h3⟩ := variants_agree_on_tagged_handles Op.sample Env.nominal C.loaded
    C.untagged [JsValue.external 1, JsValue.external 2, JsValue.number 0] rfl (by decide)
    ⟨by decide, by decide⟩
  cases hf
  refine ⟨by decide, ?_, ?_⟩
  · exact h2.symm.trans (by decide)
  · exact h3.symm.trans (by decide)

/-! ## Token buffer capacities -/

theorem tokenizer_capacities_append (a b : List NativeCall) :
    tokenizer_capacities (a ++ b) = tokenizer_capacities a ++ tokenizer_capacities b := by
  induction a with
  | nil => rfl
  | cons c t ih => cases c <;> simp [tokenizer_capacities, ih]

theorem Cpp.tokenize_buffer_capacities (env : Env) (w : World) (vocab : Ptr) (text : List Nat)
    (add_bos : Bool)
    (hbuf : env.malloc (size_mul (to_size_t (wrap32 (size_add text.length 16))) 4) = true) :
    (Cpp.tokenize_buffer env w vocab text add_bos).2.trace = w.trace ++
      NativeCall.llama_tokenize vocab (some text) text.length (wrap32 (size_add text.length 16))
        add_bos true ::
      (if env.llama_tokenize_first.n_tokens < 0 ∧
          env.realloc (size_mul (to_size_t (wrap32 (-env.llama_tokenize_first.n_tokens))) 4)
            = true
        then [NativeCall.llama_tokenize vocab none text.length
          (wrap32 (-env.llama_tokenize_first.n_tokens)) add_bos true]
        else [])
    ∧ (env.llama_tokenize_first.n_tokens < 0 →
        env.realloc (size_mul (to_size_t (wrap32 (-env.llama_tokenize_first.n_tokens))) 4)
          = false →
        (Cpp.tokenize_buffer env w vocab text add_bos).1
          = throw_error "Memory allocation failed") := by
  unfold Cpp.tokenize_buffer
  dsimp only
  simp only [hbuf, Bool.not_true, Bool.false_eq_true, if_false]
  by_cases hn : env.llama_tokenize_first.n_tokens < 0
  · cases hr : env.realloc
        (size_mul (to_size_t (wrap32 (-env.llama_tokenize_first.n_tokens))) 4)
    · simp [hn, call_trace]
    · simp only [hn, if_true, Bool.not_true, Bool.false_eq_true, if_false, true_and]
      repeat' split
      all_goals simp_all [call_trace]
  · simp only [hn, if_false, false_and]
    repeat' split
    all_goals simp_all [call_trace]

theorem wrap32_neg_count (n : Int) (hneg : n < 0) (hmin : -2147483648 ≤ n) :
    wrap32 (-n) = wrap32 (n.natAbs : Int)
    ∧ (n ≠ -2147483648 → wrap32 (-n) = (n.natAbs : Int))
    ∧ (n = -2147483648 → wrap32 (-n) = -2147483648) := by
  have h : (n.natAbs : Int) = -n := by omega
  rw [h]
  unfold wrap32
  refine ⟨rfl, ?_, ?_⟩ <;> intro _ <;> omega

theorem wrap32_capacity (len : Nat) (h : len + 16 < 2147483648) :
    wrap32 (size_add len 16) = (len : Int) + 16 := by
  unfold wrap32 size_add
  omega

theorem Cpp.fn_tokenize_capacities (env : Env) (w : World) (id : Nat) (e : External)
    (text : List Nat) (rest : List JsValue)
    (hh : w.externals.get? id = some e) (hp : e.data ≠ 0)
    (htext : env.malloc (size_add text.length 1) = true)
    (hbuf : env.malloc (size_mul (to_size_t (wrap32 (size_add text.length 16))) 4) = true) :
    tokenizer_capacities
        (new_calls w (Cpp.fn_tokenize env w (JsValue.external id :: JsValue.string text :: rest)))
      = wrap32 (size_add text.length 16) ::
        (if env.llama_tokenize_first.n_tokens < 0 ∧
            env.realloc (size_mul (to_size_t (wrap32 (-env.llama_tokenize_first.n_tokens))) 4)
              = true
          then [wrap32 (-env.llama_tokenize_first.n_tokens)] else [])
    ∧ (env.llama_tokenize_first.n_tokens < 0 →
        env.realloc (size_mul (to_size_t (wrap32 (-env.llama_tokenize_first.n_tokens))) 4)
          = false →
        (Cpp.fn_tokenize env w (JsValue.external id :: JsValue.string text :: rest)).1
          = throw_error "Memory allocation failed") := by
  have hx : js_get_value_external w (JsValue.external id) = some e.data := by
    show Option.map External.data (w.externals.get? id) = some e.data
    rw [hh]
    rfl
  have hargc : ¬ (rest.length + 1 + 1 < 2) := by omega
  obtain ⟨ht, hm⟩ := Cpp.tokenize_buffer_capacities env
    (w.call (NativeCall.llama_model_get_vocab e.data)) (env.llama_model_get_vocab e.data) text
    (if 3 ≤ rest.length + 1 + 1 then js_get_value_bool (argv
      (JsValue.external id :: JsValue.string text :: rest) 2) true else true) hbuf
  unfold Cpp.fn_tokenize
  simp only [List.length_cons, argv, List.getD_cons_succ, List.getD_cons_zero,
    js_get_value_string_utf8, hx, hargc, hp, htext, if_false, Bool.not_true, Bool.false_eq_true]
  simp only [List.length_cons, argv, List.getD_cons_succ] at ht hm
  refine ⟨?_, hm⟩
  unfold new_calls
  rw [ht, call_trace]
  by_cases hc : env.llama_tokenize_first.n_tokens < 0 ∧
      env.realloc (size_mul (to_size_t (wrap32 (-env.llama_tokenize_first.n_tokens))) 4) = true
  · simp [hc, tokenizer_capacities]
  · simp [hc, tokenizer_capacities]

/-- C21: in both variants, once the model handle and the text have been read
and the token buffer allocated, the first call of the tokenizer is given the
capacity `(int32_t)(text_len + 16)`, which is `len(text) + 16` for every text
of fewer than `2 ^ 31 - 16` bytes.  When that call reports a negative count
`n`, the buffer is reallocated for `-n` tokens, negated in `int32_t`, and when
that succeeds the retry, and no other call, is given that capacity: `|n|`
for every `n` above `INT32_MIN`, and `INT32_MIN` itself for `INT32_MIN`,
which is `|n|` wrapped to 32 bits.  When the reallocation of that size fails,
"Memory allocation failed" is raised and there is no retry. -/
theorem tokenize_capacities_int32 (env : Env) (w : World) (id : Nat) (e : External)
    (text : List Nat) (rest : List JsValue)
    (hh : w.externals.get? id = some e) (hp : e.data ≠ 0)
    (htext : env.malloc (size_add text.length 1) = true)
    (hbuf : env.malloc (size_mul (to_size_t (wrap32 (size_add text.length 16))) 4) = true) :
    tokenizer_capacities
        (new_calls w (Cpp.fn_tokenize env w (JsValue.external id :: JsValue.string text :: rest)))
      = wrap32 (size_add text.length 16) ::
        (if env.llama_tokenize_first.n_tokens < 0 ∧
            env.realloc (size_mul (to_size_t (wrap32 (-env.llama_tokenize_first.n_tokens))) 4)
              = true
          then [wrap32 (-env.llama_tokenize_first.n_tokens)] else [])
    ∧ (env.llama_tokenize_first.n_tokens < 0 →
        env.realloc (size_mul (to_size_t (wrap32 (-env.llama_tokenize_first.n_tokens))) 4)
          = false →
        (Cpp.fn_tokenize env w (JsValue.external id :: JsValue.string text :: rest)).1
          = throw_error "Memory allocation failed")
    ∧ (e.tag = some llama_model_type_tag →
        C.fn_tokenize env w (JsValue.external id :: JsValue.string text :: rest)
          = Cpp.fn_tokenize env w (JsValue.external id :: JsValue.string text :: rest))
    ∧ (text.length + 16 < 2147483648 →
        wrap32 (size_add text.length 16) = (text.length : Int) + 16)
    ∧ (env.llama_tokenize_first.n_tokens < 0 →
        -2147483648 ≤ env.llama_tokenize_first.n_tokens →
        wrap32 (-env.llama_tokenize_first.n_tokens)
            = wrap32 (env.llama_tokenize_first.n_tokens.natAbs : Int)
          ∧ (env.llama_tokenize_first.n_tokens ≠ -2147483648 →
            wrap32 (-env.llama_tokenize_first.n_tokens)
              = (env.llama_tokenize_first.n_tokens.natAbs : Int))
          ∧ (env.llama_tokenize_first.n_tokens = -2147483648 →
            wrap32 (-env.llama_tokenize_first.n_tokens) = -2147483648)) := by
  obtain ⟨h1, h2⟩ := Cpp.fn_tokenize_capacities env w id e text rest hh hp htext hbuf
  exact ⟨h1, h2,
    fun ht => C.fn_tokenize_same env w _
      (correctly_tagged_handle Op.tokenize Kind.model w id e _ rfl hh ht),
    wrap32_capacity text.length,
    wrap32_neg_count env.llama_tokenize_first.n_tokens⟩

/-- Witness of C21: the two-byte text "hi" with a first call that reports
`-5`, and with one that reports `INT32_MIN`. -/
theorem tokenize_capacities_int32_witness :
    tokenizer_capacities (new_calls Cpp.loaded (Cpp.fn_tokenize Env.retry_succeeds Cpp.loaded
        [JsValue.external 0, JsValue.string [104, 105]])) = [18, 5]
    ∧ tokenizer_capacities (new_calls Cpp.loaded (Cpp.fn_tokenize Env.asks_int32_min Cpp.loaded
        [JsValue.external 0, JsValue.string [104, 105]])) = [18, -2147483648] :=
  ⟨(tokenize_capacities_int32 Env.retry_succeeds Cpp.loaded 0 ⟨0x1000, Kind.model, none⟩
      [104, 105] [] (by decide) (by decide) rfl rfl).1,
    (tokenize_capacities_int32 Env.asks_int32_min Cpp.loaded 0 ⟨0x1000, Kind.model, none⟩
      [104, 105] [] (by decide) (by decide) rfl rfl).1⟩

theorem grammar_calls_append (a b : List NativeCall) :
    grammar_calls (a ++ b) = grammar_calls a ++ grammar_calls b := by
  induction a with
  | nil => rfl
  | cons c t ih => cases c <;> simp [grammar_calls, ih]

/-- The grammar block in full: which grammar it hands to the engine and which
stage it adds. -/
theorem Cpp.add_grammar_calls (env : Env) (w : World) (v s : Ptr) (j l : Option (List Nat)) :
    ∃ g, (Cpp.add_grammar env w v s j l).trace = w.trace ++ g
      ∧ (Cpp.add_grammar env w v s j l).externals = w.externals
      ∧ grammar_calls g =
          (match j, l with
            | some x, _ => [("json", x)]
            | none, some x => [("lark", x)]
            | none, none => [])
      ∧ added_stages g =
          (if env.llama_sampler_init_llg
            then (grammar_calls g).map (fun p => Stage.llg p.1 p.2) else []) := by
  unfold Cpp.add_grammar
  cases j with
  | some x =>
    cases h : env.llama_sampler_init_llg
    · exact ⟨[NativeCall.llama_sampler_init_llg v "json" x], by simp [call_trace, h],
        by simp [call_externals, h], by simp [grammar_calls], by simp [added_stages]⟩
    · exact ⟨[NativeCall.llama_sampler_init_llg v "json" x,
        NativeCall.llama_sampler_chain_add s (Stage.llg "json" x)],
        by simp [call_trace, h], by simp [call_externals, h], by simp [grammar_calls],
        by simp [added_stages, grammar_calls]⟩
  | none =>
    cases l with
    | some x =>
      cases h : env.llama_sampler_init_llg
      · exact ⟨[NativeCall.llama_sampler_init_llg v "lark" x], by simp [call_trace, h],
          by simp [call_externals, h], by simp [grammar_calls], by simp [added_stages]⟩
      · exact ⟨[NativeCall.llama_sampler_init_llg v "lark" x,
          NativeCall.llama_sampler_chain_add s (Stage.llg "lark" x)],
          by simp [call_trace, h], by simp [call_externals, h], by simp [grammar_calls],
          by simp [added_stages, grammar_calls]⟩
    | none => exact ⟨[], by simp, rfl, by simp [grammar_calls], by simp [added_stages, grammar_calls]⟩

theorem Cpp.build_chain_externals (w : World) (s : Ptr) (t : F32) (k : Int) (p : F32) :
    (Cpp.build_chain w s t k p).externals = w.externals := by
  unfold Cpp.build_chain
  split <;> rfl

/-- What `createSampler` of binding.cpp does on a usable model handle and an
options object: the grammar it hands to the engine, the chain it builds and
its outcome. -/
theorem Cpp.fn_create_sampler_anatomy (env : Env) (w : World) (id : Nat) (e : External)
    (o : JsObject) (rest : List JsValue)
    (hid : w.externals.get? id = some e) (hdata : e.data ≠ 0) :
    ∃ g, grammar_calls g =
          (match Cpp.get_string_property env (JsValue.object o) JsObject.json,
              Cpp.get_string_property env (JsValue.object o) JsObject.lark with
            | some x, _ => [("json", x)]
            | none, some x => [("lark", x)]
            | none, none => [])
      ∧ added_stages g =
          (if env.llama_sampler_init_llg
            then (grammar_calls g).map (fun p => Stage.llg p.1 p.2) else [])
      ∧ grammar_calls (new_calls w
          (Cpp.fn_create_sampler env w (JsValue.external id :: JsValue.object o :: rest)))
        = grammar_calls g
      ∧ Cpp.chain env w (JsValue.external id :: JsValue.object o :: rest)
        = added_stages g ++
          (if (o.temp.getD F32.zero).gt_zero then
            [Stage.top_k (o.topK.getD 40), Stage.top_p (o.topP.getD F32.c0_95) 1,
             Stage.temp (o.temp.getD F32.zero), Stage.dist 0]
          else [Stage.greedy])
      ∧ (Cpp.fn_create_sampler env w (JsValue.external id :: JsValue.object o :: rest)).1
        = (if env.js_create_external then Outcome.value (JsValue.external w.externals.length)
            else throw_error "Failed to create sampler wrapper") := by
  have hx : js_get_value_external w (JsValue.external id) = some e.data := by
    show Option.map External.data (w.externals.get? id) = some e.data
    rw [hid]
    rfl
  have hargc : ¬ (rest.length + 1 + 1 < 1) := by omega
  have hargc2 : 2 ≤ rest.length + 1 + 1 := by omega
  obtain ⟨g, hg, hge, hgc, hgs⟩ := Cpp.add_grammar_calls env
    ((w.call (NativeCall.llama_model_get_vocab e.data)).call NativeCall.llama_sampler_chain_init)
    (env.llama_model_get_vocab e.data) env.llama_sampler_chain_init
    (Cpp.get_string_property env (JsValue.object o) JsObject.json)
    (Cpp.get_string_property env (JsValue.object o) JsObject.lark)
  refine ⟨g, hgc, hgs, ?_, ?_, ?_⟩
  · unfold new_calls Cpp.fn_create_sampler
    simp only [List.length_cons, argv, List.getD_cons_succ, List.getD_cons_zero, hx, hargc,
      hargc2, hdata, if_false, if_true, js_object, Option.some_bind]
    cases hc : env.js_create_external <;>
      by_cases ht : (o.temp.getD F32.zero).gt_zero = true <;>
      simp [call_trace, create_external_trace, Cpp.build_chain_trace, hg, ht,
        grammar_calls_append, grammar_calls, List.drop_append_eq_append_drop]
  · unfold Cpp.chain new_calls Cpp.fn_create_sampler
    simp only [List.length_cons, argv, List.getD_cons_succ, List.getD_cons_zero, hx, hargc,
      hargc2, hdata, if_false, if_true, js_object, Option.some_bind]
    cases hc : env.js_create_external <;>
      by_cases ht : (o.temp.getD F32.zero).gt_zero = true <;>
      simp [call_trace, create_external_trace, Cpp.build_chain_trace, hg, ht,
        added_stages_append, added_stages, List.drop_append_eq_append_drop]
  · unfold Cpp.fn_create_sampler
    simp only [List.length_cons, argv, List.getD_cons_succ, List.getD_cons_zero, hx, hargc,
      hargc2, hdata, if_false, if_true, js_object, Option.some_bind]
    cases hc : env.js_create_external
    · simp
    · simp [World.create_external, Cpp.build_chain_externals, hge, call_externals]

theorem Cpp.get_string_property_json (env : Env) (o : JsObject) :
    Cpp.get_string_property env (JsValue.object o) JsObject.json =
      (match o.json with
        | none => none
        | some x => if env.malloc (size_add x.length 1) then some x else none) := by
  unfold Cpp.get_string_property
  simp only [js_object]

theorem Cpp.get_string_property_lark (env : Env) (o : JsObject) :
    Cpp.get_string_property env (JsValue.object o) JsObject.lark =
      (match o.lark with
        | none => none
        | some x => if env.malloc (size_add x.length 1) then some x else none) := by
  unfold Cpp.get_string_property
  simp only [js_object]

/-- C22 (counterexample): the grammar `{ json: "{}" }` is handed to the
engine, which constructs no stage, and the runtime cannot create the
external: `createSampler` raises "Failed to create sampler wrapper". -/
theorem failed_grammar_and_no_wrapper_raises :
    Env.no_wrapper.llama_sampler_init_llg = false
    ∧ grammar_calls (new_calls Cpp.loaded (Cpp.fn_create_sampler Env.no_wrapper Cpp.loaded
        [JsValue.external 0, JsValue.object opts_json])) = [("json", [123, 125])]
    ∧ (Cpp.fn_create_sampler Env.no_wrapper Cpp.loaded
        [JsValue.external 0, JsValue.object opts_json]).1
      = throw_error "Failed to create sampler wrapper" := by
  decide

/-- C22 (amended): in `createSampler` of binding.cpp on a usable model handle,
when the engine constructs no grammar stage, the grammar read from the
options is handed to the engine and then dropped without an error of its
own: the chain holds exactly the selection stages of the options, the same
chain as for the same options without `json` and `lark`, and the outcome is
the same as for those options, a new Sampler handle unless the external
cannot be created ("Failed to create sampler wrapper"). -/
theorem failed_grammar_is_dropped (env : Env) (w : World) (id : Nat) (e : External)
    (o : JsObject) (rest : List JsValue)
    (hid : w.externals.get? id = some e) (hdata : e.data ≠ 0)
    (hllg : env.llama_sampler_init_llg = false) :
    grammar_calls (new_calls w
        (Cpp.fn_create_sampler env w (JsValue.external id :: JsValue.object o :: rest)))
      = (match Cpp.get_string_property env (JsValue.object o) JsObject.json,
            Cpp.get_string_property env (JsValue.object o) JsObject.lark with
          | some x, _ => [("json", x)]
          | none, some x => [("lark", x)]
          | none, none => [])
    ∧ Cpp.chain env w (JsValue.external id :: JsValue.object o :: rest)
      = (if (o.temp.getD F32.zero).gt_zero then
          [Stage.top_k (o.topK.getD 40), Stage.top_p (o.topP.getD F32.c0_95) 1,
           Stage.temp (o.temp.getD F32.zero), Stage.dist 0]
        else [Stage.greedy])
    ∧ Cpp.chain env w (JsValue.external id :: JsValue.object o :: rest)
      = Cpp.chain env w (JsValue.external id :: JsValue.object o.without_grammar :: rest)
    ∧ (Cpp.fn_create_sampler env w (JsValue.external id :: JsValue.object o :: rest)).1
      = (Cpp.fn_create_sampler env w
          (JsValue.external id :: JsValue.object o.without_grammar :: rest)).1
    ∧ (env.js_create_external = true →
        (Cpp.fn_create_sampler env w (JsValue.external id :: JsValue.object o :: rest)).1
          = Outcome.value (JsValue.external w.externals.length))
    ∧ (env.js_create_external = false →
        (Cpp.fn_create_sampler env w (JsValue.external id :: JsValue.object o :: rest)).1
          = throw_error "Failed to create sampler wrapper") := by
  obtain ⟨g, hgc, hgs, hcalls, hchain, hout⟩ :=
    Cpp.fn_create_sampler_anatomy env w id e o rest hid hdata
  obtain ⟨g', -, hgs', -, hchain', hout'⟩ :=
    Cpp.fn_create_sampler_anatomy env w id e o.without_grammar rest hid hdata
  simp only [hllg, Bool.false_eq_true, if_false] at hgs hgs'
  rw [hgs, List.nil_append] at hchain
  rw [hgs', List.nil_append] at hchain'
  refine ⟨hcalls.trans hgc, hchain, ?_, ?_, ?_, ?_⟩
  · rw [hchain, hchain']
    rfl
  · rw [hout, hout']
  · intro hc
    rw [hout, hc]
    rfl
  · intro hc
    rw [hout, hc]
    rfl

/-- Witness of C22 (as amended): `{ json: "{}" }` with an engine that
constructs no grammar stage gives the handle `3` and the chain of no
options. -/
theorem failed_grammar_is_dropped_witness :
    grammar_calls (new_calls Cpp.loaded (Cpp.fn_create_sampler Env.no_grammar_stage Cpp.loaded
        [JsValue.external 0, JsValue.object opts_json])) = [("json", [123, 125])]
    ∧ Cpp.chain Env.no_grammar_stage Cpp.loaded [JsValue.external 0, JsValue.object opts_json]
      = [Stage.greedy]
    ∧ (Cpp.fn_create_sampler Env.no_grammar_stage Cpp.loaded
        [JsValue.external 0, JsValue.object opts_json]).1
      = Outcome.value (JsValue.external 3) :=
  have h := failed_grammar_is_dropped Env.no_grammar_stage Cpp.loaded 0
    ⟨0x1000, Kind.model, none⟩ opts_json [] (by decide) (by decide) rfl
  ⟨h.1, h.2.1, h.2.2.2.2.1 rfl⟩

/-- C24 (counterexample): both `json: "{}"` and a lark grammar are supplied,
and the three bytes for the copy of the json string cannot be allocated:
`get_string_property` returns `NULL` for `json`, and the lark grammar is
handed to the engine and becomes the grammar stage. -/
theorem lark_used_when_json_copy_fails :
    opts_json_lark.json = some [123, 125]
    ∧ opts_json_lark.lark = some lark_a
    ∧ grammar_calls (new_calls Cpp.loaded (Cpp.fn_create_sampler Env.no_three_bytes Cpp.loaded
        [JsValue.external 0, JsValue.object opts_json_lark])) = [("lark", lark_a)]
    ∧ Cpp.chain Env.no_three_bytes Cpp.loaded
        [JsValue.external 0, JsValue.object opts_json_lark]
      = [Stage.llg "lark" lark_a, Stage.greedy] := by
  decide

/-- C24 (amended): a chain built by `createSampler` of binding.cpp never holds
more than one grammar stage.  On a usable model handle with both a `json` and
a `lark` string in the options: when the copy of the json string can be
allocated, the json grammar, in format "json", is the only grammar handed to
the engine and the only grammar stage the chain can hold, whether or not the
engine constructs the stage, and the lark grammar is not handed over; when
that copy cannot be allocated, the lark grammar is handed to the engine in
its place, provided its own copy can be allocated, and no grammar otherwise. -/
theorem json_grammar_goes_first (env : Env) (w : World) :
    (∀ args : List JsValue, (Cpp.chain env w args).countP Stage.is_grammar ≤ 1)
    ∧ (∀ (id : Nat) (e : External) (o : JsObject) (rest : List JsValue) (j l : List Nat),
        w.externals.get? id = some e → e.data ≠ 0 → o.json = some j → o.lark = some l →
        (env.malloc (size_add j.length 1) = true →
          grammar_calls (new_calls w
              (Cpp.fn_create_sampler env w (JsValue.external id :: JsValue.object o :: rest)))
            = [("json", j)]
          ∧ ∀ s ∈ Cpp.chain env w (JsValue.external id :: JsValue.object o :: rest),
              s.is_grammar = true → s = Stage.llg "json" j)
        ∧ (env.malloc (size_add j.length 1) = false →
            env.malloc (size_add l.length 1) = true →
            grammar_calls (new_calls w
                (Cpp.fn_create_sampler env w (JsValue.external id :: JsValue.object o :: rest)))
              = [("lark", l)])
        ∧ (env.malloc (size_add j.length 1) = false →
            env.malloc (size_add l.length 1) = false →
            grammar_calls (new_calls w
                (Cpp.fn_create_sampler env w (JsValue.external id :: JsValue.object o :: rest)))
              = [])) := by
  constructor
  · intro args
    rcases Cpp.chain_cases env w args with h0 | ⟨g, t, k, p, hg, hc⟩
    · simp [h0]
    · rw [hc]
      rcases hg with rfl | ⟨kind, data, rfl⟩ <;> split <;> simp [Stage.is_grammar, List.countP_cons]
  · intro id e o rest j l hid hdata hj hl
    obtain ⟨g, hgc, hgs, hcalls, hchain, -⟩ :=
      Cpp.fn_create_sampler_anatomy env w id e o rest hid hdata
    rw [Cpp.get_string_property_json, Cpp.get_string_property_lark, hj, hl] at hgc
    refine ⟨fun hmj => ?_, fun hmj hml => ?_, fun hmj hml => ?_⟩
    · simp only [hmj, if_true] at hgc
      refine ⟨hcalls.trans hgc, ?_⟩
      intro s hs hgr
      rw [hchain, hgs, hgc] at hs
      cases hllg : env.llama_sampler_init_llg <;> simp only [hllg, Bool.false_eq_true, if_false,
        if_true, List.map_cons, List.map_nil, List.nil_append, List.cons_append] at hs
      · split at hs <;> simp at hs <;> rcases hs with rfl | rfl | rfl | rfl <;>
          simp [Stage.is_grammar] at hgr
      · rcases List.mem_cons.1 hs with rfl | hs
        · rfl
        · split at hs <;> simp at hs <;> rcases hs with rfl | rfl | rfl | rfl <;>
            simp [Stage.is_grammar] at hgr
    · simp only [hmj, hml, Bool.false_eq_true, if_false, if_true] at hgc
      exact hcalls.trans hgc
    · simp only [hmj, hml, Bool.false_eq_true, if_false] at hgc
      exact hcalls.trans hgc

/-- Witness of C24 (as amended): with `{ json: "{}", lark: 'start: "a"' }`
only the json grammar reaches the engine, also when the engine constructs no
stage for it. -/
theorem json_grammar_goes_first_witness :
    grammar_calls (new_calls Cpp.loaded (Cpp.fn_create_sampler Env.nominal Cpp.loaded
        [JsValue.external 0, JsValue.object opts_json_lark])) = [("json", [123, 125])]
    ∧ grammar_calls (new_calls Cpp.loaded (Cpp.fn_create_sampler Env.no_grammar_stage Cpp.loaded
        [JsValue.external 0, JsValue.object opts_json_lark])) = [("json", [123, 125])]
    ∧ (Cpp.chain Env.nominal Cpp.loaded
        [JsValue.external 0, JsValue.object opts_json_lark]).countP Stage.is_grammar ≤ 1 :=
  ⟨(((json_grammar_goes_first Env.nominal Cpp.loaded).2 0 ⟨0x1000, Kind.model, none⟩
      opts_json_lark [] [123, 125] lark_a (by decide) (by decide) rfl rfl).1 rfl).1,
    (((json_grammar_goes_first Env.no_grammar_stage Cpp.loaded).2 0 ⟨0x1000, Kind.model, none⟩
      opts_json_lark [] [123, 125] lark_a (by decide) (by decide) rfl rfl).1 rfl).1,
    (json_grammar_goes_first Env.nominal Cpp.loaded).1 _⟩

/-! ## Detokenization: every outcome -/

end BareLlama
